import Mathlib

/-!
# glc: container file sink/source and stream compression

A shallow embedding of `glc/core/file.c`, `glc/core/pack.c` and of the data
path of the stage worker `glc/common/thread.c`, followed by theorems about the
embedded functions.

Conventions of the embedding.

* A byte is a `UInt8`; memory areas and files are `List UInt8`.
* C integers are natural numbers; an `u_int64_t` store keeps the value modulo
  `2 ^ 64`, an `u_int32_t` flag word is masked with `0xffffffff` where the C code
  complements it.
* A file descriptor is a sequential byte stream: `fd_in` holds the bytes that
  `read(2)` will still deliver, `fd_out` the bytes handed to `write(2)` so far.
  `read(2)` delivers `min (count, remaining)` bytes, `write(2)` accepts all bytes.
* The packetstream library, `thread.h`, `pack.h`, the codecs and the state tracker
  are not part of the translated sources; their models are marked as such.
-/

namespace Glc

/-! ## glc/common/glc.h -/

/-- Value of `GLC_STREAM_VERSION`. -/
def GLC_STREAM_VERSION : Nat := 0x4
/-- Value of `GLC_SIGNATURE`, the file signature "GLC". -/
def GLC_SIGNATURE : Nat := 0x00434c47

def GLC_ERROR : Nat := 0
def GLC_WARNING : Nat := 1
def GLC_PERFORMANCE : Nat := 2
def GLC_INFORMATION : Nat := 3
def GLC_DEBUG : Nat := 4

/-- The type `glc_message_type_t` is one unsigned byte. -/
abbrev glc_message_type_t := UInt8

def GLC_MESSAGE_CLOSE : glc_message_type_t := 0x01
def GLC_MESSAGE_VIDEO_FRAME : glc_message_type_t := 0x02
def GLC_MESSAGE_VIDEO_FORMAT : glc_message_type_t := 0x03
def GLC_MESSAGE_LZO : glc_message_type_t := 0x04
def GLC_MESSAGE_AUDIO_FORMAT : glc_message_type_t := 0x05
def GLC_MESSAGE_AUDIO_DATA : glc_message_type_t := 0x06
def GLC_MESSAGE_QUICKLZ : glc_message_type_t := 0x07
def GLC_MESSAGE_COLOR : glc_message_type_t := 0x08
def GLC_MESSAGE_CONTAINER : glc_message_type_t := 0x09
def GLC_MESSAGE_LZJB : glc_message_type_t := 0x0a
def GLC_CALLBACK_REQUEST : glc_message_type_t := 0x0b

/-- Size of the packed `glc_size_t` (an `u_int64_t`). -/
def sizeof_glc_size_t : Nat := 8
/-- Size of the packed `glc_message_header_t` (one type byte). -/
def sizeof_glc_message_header_t : Nat := 1
/-- Size of the packed `glc_container_message_header_t`: size then header. -/
def sizeof_glc_container_message_header_t : Nat := 9
/-- Size of the packed `glc_lzo_header_t`: size then header. -/
def sizeof_glc_lzo_header_t : Nat := 9
/-- Size of the packed `glc_quicklz_header_t`: size then header. -/
def sizeof_glc_quicklz_header_t : Nat := 9
/-- Size of the packed `glc_lzjb_header_t`: size then header. -/
def sizeof_glc_lzjb_header_t : Nat := 9
/-- Size of the packed `glc_stream_info_t`. -/
def sizeof_glc_stream_info_t : Nat := 48

/-! ## errno.h (Linux values) -/

def EINTR : Nat := 4
def EBADF : Nat := 9
def EAGAIN : Nat := 11
def ENOMEM : Nat := 12
def EBUSY : Nat := 16
def EINVAL : Nat := 22
def EBADMSG : Nat := 74
def ENOTSUP : Nat := 95
def EALREADY : Nat := 114

/-! ## Little-endian integers in memory -/

/-- The `k` bytes that a little-endian machine stores for the unsigned integer
`n`; the value is reduced modulo `256 ^ k`. -/
def le_bytes : Nat → Nat → List UInt8
  | 0, _ => []
  | k + 1, n => UInt8.ofNat n :: le_bytes k (n / 256)

/-- The unsigned integer that a little-endian machine loads from the bytes. -/
def le_value : List UInt8 → Nat
  | [] => 0
  | b :: bs => b.toNat + 256 * le_value bs

/-- Load of an unsigned integer of `k` bytes at byte offset `off` of `mem`. -/
def load_le (mem : List UInt8) (off k : Nat) : Nat :=
  le_value ((mem.drop off).take k)

/-- Store of `bytes` at byte offset `off` of the memory area `mem`. -/
def store (mem : List UInt8) (off : Nat) (bytes : List UInt8) : List UInt8 :=
  mem.take off ++ bytes ++ mem.drop (off + bytes.length)

/-- The flag word `flags & ~mask` of an `u_int32_t`. -/
def clear_flags (flags mask : Nat) : Nat :=
  flags &&& (mask ^^^ 0xffffffff)

/-! ## glc_t: log and state -/

/-- One `glc_log` call: level, module and format string. -/
structure glc_log_entry where
  level : Nat
  module : String
  format : String
deriving DecidableEq, Repr

/-- The part of `glc_t` that the translated code touches: the messages logged
so far (newest last) and the `GLC_STATE_CANCEL` state flag. -/
structure glc_t where
  log : List glc_log_entry
  cancel : Bool
deriving DecidableEq, Repr

def glc_log (glc : glc_t) (level : Nat) (module format : String) : glc_t :=
  { glc with log := glc.log ++ [⟨level, module, format⟩] }

/-! ## packetstream -/

/-- Modelled from the spec: the packetstream library (`packetstream.h`) is not
under src. A buffer holds the packets published by `close` in order, its cancel
mark, and counts the successful opens and the closes of packets. -/
structure ps_buffer_t where
  packets : List (List UInt8)
  cancelled : Bool
  opens : Nat
  closes : Nat
deriving DecidableEq, Repr

/-- Modelled from the spec: a buffer right after its creation. -/
def ps_buffer_init : ps_buffer_t := ⟨[], false, 0, 0⟩

/-- Modelled from the spec: a packet handle bound to a buffer; `data` are the
bytes of the packet opened for writing, `pos` the cursor, `is_open` tells whether
a transaction is open. -/
structure ps_packet_t where
  is_open : Bool
  data : List UInt8
  pos : Nat
deriving DecidableEq, Repr

/-- Modelled from the spec: `ps_packet_init`. -/
def ps_packet_init : ps_packet_t := ⟨false, [], 0⟩

/-- Modelled from the spec: `ps_packet_open` with `PS_PACKET_WRITE`; fails with
CANCELED (`EINTR`) if the buffer was cancelled. -/
def ps_packet_open_write (packet : ps_packet_t) (buffer : ps_buffer_t) :
    Nat × ps_packet_t × ps_buffer_t :=
  if buffer.cancelled then (EINTR, packet, buffer)
  else (0, ⟨true, [], 0⟩, { buffer with opens := buffer.opens + 1 })

/-- Modelled from the spec: `ps_packet_write` appends bytes at the cursor of the
packet opened for writing. -/
def ps_packet_write (packet : ps_packet_t) (buffer : ps_buffer_t) (bytes : List UInt8) :
    Nat × ps_packet_t :=
  if buffer.cancelled || !packet.is_open then (EINTR, packet)
  else (0, { packet with data := store packet.data packet.pos bytes,
                         pos := packet.pos + bytes.length })

/-- Modelled from the spec: `ps_packet_dma` hands out the area of the next `size`
bytes of the packet opened for writing and moves the cursor past it. The
result carries the offset of the area inside the packet. -/
def ps_packet_dma (packet : ps_packet_t) (buffer : ps_buffer_t) (size : Nat) :
    Nat × ps_packet_t × Nat :=
  if buffer.cancelled || !packet.is_open then (EINTR, packet, packet.pos)
  else (0, { packet with pos := packet.pos + size }, packet.pos)

/-- Modelled from the spec: a store of `bytes` through the pointer that
`ps_packet_dma` returned for the area at offset `dma`. -/
def ps_dma_store (packet : ps_packet_t) (dma : Nat) (bytes : List UInt8) : ps_packet_t :=
  { packet with data := store packet.data dma bytes }

/-- Modelled from the spec: `ps_packet_close` publishes the packet opened for
writing. -/
def ps_packet_close (packet : ps_packet_t) (buffer : ps_buffer_t) :
    Nat × ps_packet_t × ps_buffer_t :=
  if buffer.cancelled || !packet.is_open then (EINTR, packet, buffer)
  else (0, { packet with is_open := false },
        { buffer with packets := buffer.packets ++ [packet.data],
                      closes := buffer.closes + 1 })

/-- Modelled from the spec: `ps_buffer_cancel`, idempotent. -/
def ps_buffer_cancel (buffer : ps_buffer_t) : ps_buffer_t :=
  { buffer with cancelled := true }

/-! ## glc/common/thread.h -/

/-- Modelled from the spec: `thread.h` is not under src. The stage reads. -/
def GLC_THREAD_READ : Nat := 0x1
/-- Modelled from the spec: `thread.h` is not under src. The stage writes. -/
def GLC_THREAD_WRITE : Nat := 0x2
/-- Modelled from the spec: `thread.h` is not under src. State flag skip-read. -/
def GLC_THREAD_STATE_SKIP_READ : Nat := 0x1
/-- Modelled from the spec: `thread.h` is not under src. State flag skip-write. -/
def GLC_THREAD_STATE_SKIP_WRITE : Nat := 0x2
/-- Modelled from the spec: `thread.h` is not under src. State flag COPY: the read
payload is copied unchanged. -/
def GLC_THREAD_COPY : Nat := 0x4
/-- Modelled from the spec: `thread.h` is not under src. State flag
UNKNOWN_FINAL_SIZE. -/
def GLC_THREAD_STATE_UNKNOWN_FINAL_SIZE : Nat := 0x8
/-- Modelled from the spec: `thread.h` is not under src. State flag STOP. -/
def GLC_THREAD_STOP : Nat := 0x10

/-- The type `glc_thread_state_t` without `ptr` and `threadptr`: the callbacks of
the embedding take the stage object as an argument of their own. `read_data`
and `write_data` are the memory areas the pointers refer to. -/
structure glc_thread_state_t where
  flags : Nat
  header : glc_message_type_t
  read_data : List UInt8
  write_data : List UInt8
  read_size : Nat
  write_size : Nat
deriving DecidableEq, Repr

/-! ## glc/core/tracker.h -/

/-- Modelled from the spec: one state tracker entry, `(stream-id, message-type,
copy of the declaration payload)`. -/
structure tracker_entry where
  id : Nat
  type : glc_message_type_t
  message : List UInt8
deriving DecidableEq, Repr

/-- Modelled from the spec: the state tracker (`glc/core/tracker.c` is not under
src), its entries in insertion order. -/
abbrev tracker_t := List tracker_entry

/-- Modelled from the spec: `tracker_submit` overwrites the entry for
`(stream-id, header.type)` when the type is one of the sticky kinds
VIDEO_FORMAT, AUDIO_FORMAT, COLOR; every sticky payload starts with the 32-bit
stream id. -/
def tracker_submit (tracker : tracker_t) (header : glc_message_type_t)
    (message : List UInt8) (message_size : Nat) : tracker_t :=
  if header = GLC_MESSAGE_VIDEO_FORMAT ∨ header = GLC_MESSAGE_AUDIO_FORMAT
      ∨ header = GLC_MESSAGE_COLOR then
    let id := load_le message 0 4
    if tracker.any (fun e => decide (e.id = id ∧ e.type = header)) then
      tracker.map (fun e =>
        if e.id = id ∧ e.type = header then { e with message := message.take message_size }
        else e)
    else tracker ++ [⟨id, header, message.take message_size⟩]
  else tracker

/-! ## glc/core/file.c -/

def FILE_READING : Nat := 0x1
def FILE_WRITING : Nat := 0x2
def FILE_RUNNING : Nat := 0x4
def FILE_INFO_WRITTEN : Nat := 0x8
def FILE_INFO_READ : Nat := 0x10
def FILE_INFO_VALID : Nat := 0x20

/-- The record `struct file_s`. `glc` is the object behind the pointer, `thread`
is left out, and the `callback` member is handed to `file_read_callback` beside
the record because it is a function on the record. `errno` is the C `errno`;
`fd_in` and `fd_out` are the byte streams behind the descriptor `fd`. -/
structure file_s where
  glc : glc_t
  flags : Nat
  fd : Int
  sync : Int
  stream_version : Nat
  state_tracker : tracker_t
  errno : Nat
  fd_in : List UInt8
  fd_out : List UInt8
deriving DecidableEq, Repr

def file_init (glc : glc_t) : file_s :=
  { glc := glc, flags := 0, fd := -1, sync := 0, stream_version := 0, state_tracker := [],
    errno := 0, fd_in := [], fd_out := [] }

/-- The type `callback_request_func_t`: the callback gets the request argument and
may act on the sink. -/
abbrev callback_request_func_t := Nat → file_s → file_s

/-- The call `read(file->fd, buf, count)` on a regular file: the bytes delivered
(their number is the return value) and the advanced descriptor. -/
def os_read (file : file_s) (count : Nat) : List UInt8 × file_s :=
  (file.fd_in.take count, { file with fd_in := file.fd_in.drop count })

/-- The call `write(file->fd, buf, count)`: all `count` bytes at `buf` are
accepted; the return value is `count`. -/
def os_write (file : file_s) (buf : List UInt8) (count : Nat) : Nat × file_s :=
  (count, { file with fd_out := file.fd_out ++ buf.take count })

def file_set_callback (_file : file_s) (callback : Option callback_request_func_t) :
    Option callback_request_func_t :=
  callback

def file_write_message (file : file_s) (header : glc_message_type_t)
    (message : List UInt8) (message_size : Nat) : Nat × file_s :=
  let glc_size := message_size % 2 ^ 64
  let (n, file) := os_write file (le_bytes 8 glc_size) sizeof_glc_size_t
  if n ≠ sizeof_glc_size_t then (file.errno, file) else
  let (n, file) := os_write file [header] sizeof_glc_message_header_t
  if n ≠ sizeof_glc_message_header_t then (file.errno, file) else
  if message_size > 0 then
    let (n, file) := os_write file message message_size
    if n ≠ message_size then (file.errno, file) else (0, file)
  else (0, file)

def file_write_eof (file : file_s) : Nat × file_s :=
  if file.fd < 0 ∨ file.flags &&& FILE_RUNNING ≠ 0 ∨ file.flags &&& FILE_WRITING = 0 then
    (EAGAIN, { file with glc := glc_log file.glc GLC_ERROR "file" "can't write eof: %s (%d)" })
  else
    let (ret, file) := file_write_message file GLC_MESSAGE_CLOSE [] 0
    if ret ≠ 0 then
      (ret, { file with glc := glc_log file.glc GLC_ERROR "file" "can't write eof: %s (%d)" })
    else (0, file)

def file_read_callback (callback : Option callback_request_func_t) (file : file_s)
    (state : glc_thread_state_t) : Nat × file_s :=
  /- let state tracker to process this message -/
  let tracker :=
    tracker_submit file.state_tracker state.header state.read_data state.read_size
  let file := { file with state_tracker := tracker }
  if state.header = GLC_CALLBACK_REQUEST then
    /- callback request messages are never written to disk -/
    match callback with
    | some cb =>
      let file := { file with flags := clear_flags file.flags FILE_RUNNING }
      let file := cb (load_le state.read_data 0 8) file
      (0, { file with flags := file.flags ||| FILE_RUNNING })
    | none => (0, file)
  else if state.header = GLC_MESSAGE_CONTAINER then
    let container_size := load_le state.read_data 0 8
    let count := (sizeof_glc_container_message_header_t + container_size) % 2 ^ 64
    let (n, file) := os_write file state.read_data count
    if n ≠ count then
      (file.errno, { file with glc := glc_log file.glc GLC_ERROR "file" "%s (%d)" })
    else (0, file)
  else
    /- emulate container message -/
    let glc_size := state.read_size % 2 ^ 64
    let (n, file) := os_write file (le_bytes 8 glc_size) sizeof_glc_size_t
    if n ≠ sizeof_glc_size_t then
      (file.errno, { file with glc := glc_log file.glc GLC_ERROR "file" "%s (%d)" }) else
    let (n, file) := os_write file [state.header] sizeof_glc_message_header_t
    if n ≠ sizeof_glc_message_header_t then
      (file.errno, { file with glc := glc_log file.glc GLC_ERROR "file" "%s (%d)" }) else
    let (n, file) := os_write file state.read_data state.read_size
    if n ≠ state.read_size then
      (file.errno, { file with glc := glc_log file.glc GLC_ERROR "file" "%s (%d)" })
    else (0, file)

def file_set_source (file : file_s) (fd : Int) (content : List UInt8) : Nat × file_s :=
  if file.fd ≥ 0 then (EBUSY, file)
  else (0, { file with fd := fd, fd_in := content, flags := file.flags ||| FILE_READING })

def file_close_source (file : file_s) : Nat × file_s :=
  if file.fd < 0 ∨ file.flags &&& FILE_READING = 0 then (EAGAIN, file)
  else
    let flags := clear_flags file.flags (FILE_READING ||| FILE_INFO_READ ||| FILE_INFO_VALID)
    (0, { file with fd := -1, flags := flags })

def file_test_stream_version (version : Nat) : Nat :=
  /- current version is always supported -/
  if version = GLC_STREAM_VERSION then 0
  else if version = 0x03 then 0
  else ENOTSUP

/-- The packed `glc_stream_info_t`; `fps` holds the 64 bits of the double. -/
structure glc_stream_info_t where
  signature : Nat
  version : Nat
  fps : Nat
  flags : Nat
  pid : Nat
  name_size : Nat
  date_size : Nat
  reserved1 : Nat
  reserved2 : Nat
deriving DecidableEq, Repr

/-- The `glc_stream_info_t` that a little-endian machine sees in the 48 bytes. -/
def glc_stream_info_of_bytes (b : List UInt8) : glc_stream_info_t :=
  { signature := load_le b 0 4, version := load_le b 4 4, fps := load_le b 8 8,
    flags := load_le b 16 4, pid := load_le b 20 4, name_size := load_le b 24 4,
    date_size := load_le b 28 4, reserved1 := load_le b 32 8, reserved2 := load_le b 40 8 }

/-- Result of `file_read_info`: return value, the source, and what was stored
through `info`, `info_name` and `info_date`. -/
structure file_read_info_result where
  ret : Nat
  file : file_s
  info : Option glc_stream_info_t
  info_name : Option (List UInt8)
  info_date : Option (List UInt8)
deriving DecidableEq, Repr

def file_read_info (file : file_s) : file_read_info_result :=
  if file.fd < 0 ∨ file.flags &&& FILE_READING = 0 then ⟨EAGAIN, file, none, none, none⟩ else
  let (buf, file) := os_read file sizeof_glc_stream_info_t
  if buf.length ≠ sizeof_glc_stream_info_t then
    ⟨file.errno,
     { file with glc := glc_log file.glc GLC_ERROR "file" "can't read stream info header" },
     none, none, none⟩ else
  let info := glc_stream_info_of_bytes buf
  let file := { file with flags := file.flags ||| FILE_INFO_READ }
  if info.signature ≠ GLC_SIGNATURE then
    let glc := glc_log file.glc GLC_ERROR "file" "signature 0x%08x does not match 0x%08x"
    ⟨EINVAL, { file with glc := glc }, some info, none, none⟩ else
  if file_test_stream_version info.version ≠ 0 then
    ⟨ENOTSUP,
     { file with glc := glc_log file.glc GLC_ERROR "file" "unsupported stream version 0x%02x" },
     some info, none, none⟩ else
  let file := { file with glc := glc_log file.glc GLC_INFORMATION "file" "stream version 0x%02x" }
  let file := { file with stream_version := info.version } /- copy version -/
  let (name, file) :=
    if info.name_size > 0 then
      let (b, file) := os_read file info.name_size
      (some b, file)
    else (none, file)
  if info.name_size > 0 ∧ (name.getD []).length ≠ info.name_size then
    ⟨file.errno, file, some info, name, none⟩ else
  let (date, file) :=
    if info.date_size > 0 then
      let (b, file) := os_read file info.date_size
      (some b, file)
    else (none, file)
  if info.date_size > 0 ∧ (date.getD []).length ≠ info.date_size then
    ⟨file.errno, file, some info, name, date⟩ else
  ⟨0, { file with flags := file.flags ||| FILE_INFO_VALID }, some info, name, date⟩

/-- The reads of the packet frame head at the top of the loop of `file_read`:
header then size for stream version 0x03, size then header otherwise. The
result is `none` where the code jumps to `send_eof`. -/
def file_read_frame_head (file : file_s) : Option (glc_message_type_t × Nat) × file_s :=
  if file.stream_version = 0x03 then
    /- old order -/
    let (hb, file) := os_read file sizeof_glc_message_header_t
    if hb.length ≠ sizeof_glc_message_header_t then (none, file) else
    let (sb, file) := os_read file sizeof_glc_size_t
    if sb.length ≠ sizeof_glc_size_t then (none, file) else
    (some (hb.headD 0, le_value sb), file)
  else
    /- same header format as in container messages -/
    let (sb, file) := os_read file sizeof_glc_size_t
    if sb.length ≠ sizeof_glc_size_t then (none, file) else
    let (hb, file) := os_read file sizeof_glc_message_header_t
    if hb.length ≠ sizeof_glc_message_header_t then (none, file) else
    (some (hb.headD 0, le_value sb), file)

/-- The label `finish` of `file_read`. -/
def file_read_finish (file : file_s) (to_buf : ps_buffer_t) : Nat × file_s × ps_buffer_t :=
  (0, { file with flags := clear_flags file.flags (FILE_INFO_READ ||| FILE_INFO_VALID) }, to_buf)

/-- The label `send_eof` of `file_read`. -/
def file_read_send_eof (file : file_s) (packet : ps_packet_t) (to_buf : ps_buffer_t) :
    Nat × file_s × ps_buffer_t :=
  let header := GLC_MESSAGE_CLOSE
  let (_, packet, to_buf) := ps_packet_open_write packet to_buf
  let (_, packet) := ps_packet_write packet to_buf [header]
  let (_, _, to_buf) := ps_packet_close packet to_buf
  let file := { file with glc := glc_log file.glc GLC_ERROR "file" "unexpected EOF" }
  file_read_finish file to_buf

/-- The label `err` of `file_read`. -/
def file_read_err (ret : Nat) (file : file_s) (to_buf : ps_buffer_t) :
    Nat × file_s × ps_buffer_t :=
  if ret = EINTR then file_read_finish file to_buf /- just cancel -/
  else
    let file := { file with glc := glc_log file.glc GLC_ERROR "file" "%s (%d)" }
    let file := { file with glc := glc_log file.glc GLC_DEBUG "file" "packet size is %zd" }
    let to_buf := ps_buffer_cancel to_buf
    (ret, { file with flags := clear_flags file.flags (FILE_INFO_READ ||| FILE_INFO_VALID) }, to_buf)

/-- The `do ... while` loop of `file_read`; `fuel` bounds the number of
iterations, `none` means the bound was reached. -/
def file_read_loop : Nat → file_s → ps_packet_t → ps_buffer_t →
    Option (Nat × file_s × ps_buffer_t)
  | 0, _, _, _ => none
  | fuel + 1, file, packet, to_buf =>
    match file_read_frame_head file with
    | (none, file) => some (file_read_send_eof file packet to_buf)
    | (some (header, glc_ps), file) =>
      let packet_size := glc_ps
      let (ret, packet, to_buf) := ps_packet_open_write packet to_buf
      if ret ≠ 0 then some (file_read_err ret file to_buf) else
      let (ret, packet) := ps_packet_write packet to_buf [header]
      if ret ≠ 0 then some (file_read_err ret file to_buf) else
      let (ret, packet, dma) := ps_packet_dma packet to_buf packet_size
      if ret ≠ 0 then some (file_read_err ret file to_buf) else
      let (bytes, file) := os_read file packet_size
      let packet := ps_dma_store packet dma bytes
      if bytes.length ≠ packet_size then some (file_read_err EBADMSG file to_buf) else
      let (ret, packet, to_buf) := ps_packet_close packet to_buf
      if ret ≠ 0 then some (file_read_err ret file to_buf) else
      if header ≠ GLC_MESSAGE_CLOSE ∧ ¬ file.glc.cancel then
        file_read_loop fuel file packet to_buf
      else some (file_read_finish file to_buf)

/-- The function `file_read`. Every iteration of the loop that is followed by
another one has consumed at least nine bytes of the descriptor, so the number
of remaining bytes plus one bounds the iterations. -/
def file_read (file : file_s) (to_buf : ps_buffer_t) : Option (Nat × file_s × ps_buffer_t) :=
  if file.fd < 0 ∨ file.flags &&& FILE_READING = 0 then some (EAGAIN, file, to_buf) else
  if file.flags &&& FILE_INFO_READ = 0 then
    some (EAGAIN,
      { file with glc := glc_log file.glc GLC_ERROR "file" "stream info header not read" }, to_buf)
  else
  if file.flags &&& FILE_INFO_VALID = 0 then
    let glc := glc_log file.glc GLC_ERROR "file" "stream info header not valid"
    some (EINVAL, { file with glc := glc, flags := clear_flags file.flags FILE_INFO_READ }, to_buf)
  else
  file_read_loop (file.fd_in.length + 1) file ps_packet_init to_buf

/-! ## glc/core/file.c: `file_read` among other threads -/

/-- The packet calls of `file_read`: the four of the loop and the three under the
label `send_eof`. -/
inductive file_read_site where
  | open_write
  | write_header
  | dma
  | close
  | eof_open
  | eof_write
  | eof_close
deriving DecidableEq, Repr

/-- How `file_read` leaves: by a `return` in front of the loop, through `finish`
after the loop condition, or through the label it jumps to first. -/
inductive file_read_exit where
  | guard
  | finish
  | send_eof
  | err
  | read_fail
deriving DecidableEq, Repr

/-- What `file_read` leaves behind, with the label it left through and a record
of the packet calls it made with their return values. -/
structure file_read_result where
  exit : file_read_exit
  ret : Nat
  file : file_s
  to_buf : ps_buffer_t
  calls : List (file_read_site × Nat)
deriving DecidableEq, Repr

/-- Modelled from the spec: what the other threads have done to the buffer right
before a packet call whose disturbance is `r`: with `EINTR` one of them has
cancelled it (`ps_buffer_cancel`). -/
def ps_buffer_among (r : Nat) (buffer : ps_buffer_t) : ps_buffer_t :=
  if r = EINTR then ps_buffer_cancel buffer else buffer

/-- Modelled from the spec: `ps_packet_open` with `PS_PACKET_WRITE` among other
threads. `r` is what the surroundings do to the call: 0, nothing; `EINTR`,
another thread has cancelled the buffer, so the call returns CANCELED; any
other value, the call fails with that error and changes nothing. -/
def ps_packet_open_write_among (r : Nat) (packet : ps_packet_t) (buffer : ps_buffer_t) :
    Nat × ps_packet_t × ps_buffer_t :=
  let buffer := ps_buffer_among r buffer
  if r ≠ 0 ∧ r ≠ EINTR then (r, packet, buffer) else
  ps_packet_open_write packet buffer

/-- Modelled from the spec: `ps_packet_write` among other threads, `r` as for
`ps_packet_open_write_among`. -/
def ps_packet_write_among (r : Nat) (packet : ps_packet_t) (buffer : ps_buffer_t)
    (bytes : List UInt8) : Nat × ps_packet_t × ps_buffer_t :=
  let buffer := ps_buffer_among r buffer
  if r ≠ 0 ∧ r ≠ EINTR then (r, packet, buffer) else
  let (ret, packet) := ps_packet_write packet buffer bytes
  (ret, packet, buffer)

/-- Modelled from the spec: `ps_packet_dma` among other threads, `r` as for
`ps_packet_open_write_among`. The third component is the offset of the area. -/
def ps_packet_dma_among (r : Nat) (packet : ps_packet_t) (buffer : ps_buffer_t)
    (size : Nat) : Nat × ps_packet_t × Nat × ps_buffer_t :=
  let buffer := ps_buffer_among r buffer
  if r ≠ 0 ∧ r ≠ EINTR then (r, packet, packet.pos, buffer) else
  let (ret, packet, dma) := ps_packet_dma packet buffer size
  (ret, packet, dma, buffer)

/-- Modelled from the spec: `ps_packet_close` among other threads, `r` as for
`ps_packet_open_write_among`. -/
def ps_packet_close_among (r : Nat) (packet : ps_packet_t) (buffer : ps_buffer_t) :
    Nat × ps_packet_t × ps_buffer_t :=
  let buffer := ps_buffer_among r buffer
  if r ≠ 0 ∧ r ≠ EINTR then (r, packet, buffer) else
  ps_packet_close packet buffer

/-- The label `finish` of `file_read`, entered from `exit`. -/
def file_read_run_finish (exit : file_read_exit) (file : file_s) (to_buf : ps_buffer_t)
    (calls : List (file_read_site × Nat)) : file_read_result :=
  { exit := exit, ret := 0,
    file := { file with flags := clear_flags file.flags (FILE_INFO_READ ||| FILE_INFO_VALID) },
    to_buf := to_buf, calls := calls }

/-- The label `send_eof` of `file_read`; the three return values are
discarded. -/
def file_read_run_send_eof (op : file_read_site → Nat) (file : file_s)
    (packet : ps_packet_t) (to_buf : ps_buffer_t) (calls : List (file_read_site × Nat)) :
    file_read_result :=
  let header := GLC_MESSAGE_CLOSE
  let (r1, packet, to_buf) := ps_packet_open_write_among (op .eof_open) packet to_buf
  let (r2, packet, to_buf) := ps_packet_write_among (op .eof_write) packet to_buf [header]
  let (r3, _, to_buf) := ps_packet_close_among (op .eof_close) packet to_buf
  let calls := calls ++ [(.eof_open, r1), (.eof_write, r2), (.eof_close, r3)]
  let file := { file with glc := glc_log file.glc GLC_ERROR "file" "unexpected EOF" }
  file_read_run_finish .send_eof file to_buf calls

/-- The labels `read_fail` (with `ret = EBADMSG`) and `err` of `file_read`,
entered from `exit`. -/
def file_read_run_err (exit : file_read_exit) (ret : Nat) (file : file_s)
    (to_buf : ps_buffer_t) (calls : List (file_read_site × Nat)) : file_read_result :=
  if ret = EINTR then file_read_run_finish exit file to_buf calls /- just cancel -/
  else
    let file := { file with glc := glc_log file.glc GLC_ERROR "file" "%s (%d)" }
    let file := { file with glc := glc_log file.glc GLC_DEBUG "file" "packet size is %zd" }
    let to_buf := ps_buffer_cancel to_buf
    { exit := exit, ret := ret,
      file := { file with flags := clear_flags file.flags (FILE_INFO_READ ||| FILE_INFO_VALID) },
      to_buf := to_buf, calls := calls }

/-- The `do ... while` loop of `file_read` among other threads: `op i site` is
what the surroundings do to the packet call `site` of iteration `i`. `fuel`
bounds the number of iterations, `none` means the bound was reached. -/
def file_read_run_loop (op : Nat → file_read_site → Nat) :
    Nat → Nat → file_s → ps_packet_t → ps_buffer_t → List (file_read_site × Nat) →
    Option file_read_result
  | 0, _, _, _, _, _ => none
  | fuel + 1, i, file, packet, to_buf, calls =>
    match file_read_frame_head file with
    | (none, file) => some (file_read_run_send_eof (op i) file packet to_buf calls)
    | (some (header, glc_ps), file) =>
      let packet_size := glc_ps
      let (ret, packet, to_buf) := ps_packet_open_write_among (op i .open_write) packet to_buf
      let calls := calls ++ [(.open_write, ret)]
      if ret ≠ 0 then some (file_read_run_err .err ret file to_buf calls) else
      let (ret, packet, to_buf) :=
        ps_packet_write_among (op i .write_header) packet to_buf [header]
      let calls := calls ++ [(.write_header, ret)]
      if ret ≠ 0 then some (file_read_run_err .err ret file to_buf calls) else
      let (ret, packet, dma, to_buf) :=
        ps_packet_dma_among (op i .dma) packet to_buf packet_size
      let calls := calls ++ [(.dma, ret)]
      if ret ≠ 0 then some (file_read_run_err .err ret file to_buf calls) else
      let (bytes, file) := os_read file packet_size
      let packet := ps_dma_store packet dma bytes
      if bytes.length ≠ packet_size then
        some (file_read_run_err .read_fail EBADMSG file to_buf calls) else
      let (ret, packet, to_buf) := ps_packet_close_among (op i .close) packet to_buf
      let calls := calls ++ [(.close, ret)]
      if ret ≠ 0 then some (file_read_run_err .err ret file to_buf calls) else
      if header ≠ GLC_MESSAGE_CLOSE ∧ ¬ file.glc.cancel then
        file_read_run_loop op fuel (i + 1) file packet to_buf calls
      else some (file_read_run_finish .finish file to_buf calls)

/-- The function `file_read` among other threads, with the iteration bound of
`file_read`. -/
def file_read_run (op : Nat → file_read_site → Nat) (file : file_s) (to_buf : ps_buffer_t) :
    Option file_read_result :=
  if file.fd < 0 ∨ file.flags &&& FILE_READING = 0 then
    some ⟨.guard, EAGAIN, file, to_buf, []⟩ else
  if file.flags &&& FILE_INFO_READ = 0 then
    some ⟨.guard, EAGAIN,
      { file with glc := glc_log file.glc GLC_ERROR "file" "stream info header not read" },
      to_buf, []⟩
  else
  if file.flags &&& FILE_INFO_VALID = 0 then
    let glc := glc_log file.glc GLC_ERROR "file" "stream info header not valid"
    some ⟨.guard, EINVAL,
      { file with glc := glc, flags := clear_flags file.flags FILE_INFO_READ }, to_buf, []⟩
  else
  file_read_run_loop op (file.fd_in.length + 1) 0 file ps_packet_init to_buf []

/-- An open file behind a descriptor, as far as `flock`, `lseek` and `ftruncate`
act on it: its bytes, the file offset, whether this descriptor holds the
exclusive lock, and whether another open file holds a lock on it (in which
case `flock` with `LOCK_NB` fails). -/
structure os_file where
  content : List UInt8
  offset : Nat
  locked : Bool
  contended : Bool
deriving DecidableEq, Repr

/-- The descriptor table of the process: descriptor `n` is the `n`-th entry, `none`
if it is not open. -/
abbrev os_table := List (Option os_file)

/-- The open file of a descriptor; no negative number is a descriptor. -/
def os_lookup (os : os_table) (fd : Int) : Option os_file :=
  if fd < 0 then none else os.getD fd.toNat none

def os_update (os : os_table) (fd : Int) (f : Option os_file) : os_table :=
  if fd < 0 then os else os.set fd.toNat f

/-- The call `flock(fd, LOCK_EX | LOCK_NB)`: return value, `errno`, table. -/
def os_flock_ex (os : os_table) (fd : Int) : Int × Nat × os_table :=
  match os_lookup os fd with
  | none => (-1, EBADF, os)
  | some f =>
    if f.contended then (-1, EAGAIN, os)
    else (0, 0, os_update os fd (some { f with locked := true }))

/-- The call `flock(fd, LOCK_UN)`. -/
def os_flock_un (os : os_table) (fd : Int) : Int × Nat × os_table :=
  match os_lookup os fd with
  | none => (-1, EBADF, os)
  | some f => (0, 0, os_update os fd (some { f with locked := false }))

/-- The call `lseek(fd, offset, SEEK_SET)`; on a number that is no open descriptor
it fails with EBADF and changes nothing. -/
def os_lseek_set (os : os_table) (fd : Int) (offset : Nat) : os_table :=
  match os_lookup os fd with
  | none => os
  | some f => os_update os fd (some { f with offset := offset })

/-- The call `ftruncate(fd, length)`; on a number that is no open descriptor it
fails with EBADF and changes nothing. -/
def os_ftruncate (os : os_table) (fd : Int) (length : Nat) : os_table :=
  match os_lookup os fd with
  | none => os
  | some f =>
    os_update os fd (some { f with
      content := f.content.take length ++ List.replicate (length - f.content.length) 0 })

/-- The call `close(fd)`. -/
def os_close (os : os_table) (fd : Int) : Int × Nat × os_table :=
  match os_lookup os fd with
  | none => (-1, EBADF, os)
  | some _ => (0, 0, os_update os fd none)

def file_set_target (file : file_s) (fd : Int) (os : os_table) : Nat × file_s × os_table :=
  if file.fd ≥ 0 then (EBUSY, file, os) else
  let r := os_flock_ex os fd
  if r.1 = -1 then
    let glc := glc_log file.glc GLC_ERROR "file" "can't lock file: %s (%d)"
    (r.2.1, { file with glc := glc, errno := r.2.1 }, r.2.2)
  else
  /- truncate file when we have locked it -/
  let os := os_lseek_set r.2.2 file.fd 0
  let os := os_ftruncate os file.fd 0
  (0, { file with fd := fd, flags := file.flags ||| FILE_WRITING }, os)

def file_close_target (file : file_s) (os : os_table) : Nat × file_s × os_table :=
  if file.fd < 0 ∨ file.flags &&& FILE_RUNNING ≠ 0 ∨ file.flags &&& FILE_WRITING = 0 then
    (EAGAIN, file, os)
  else
  /- try to remove lock -/
  let r := os_flock_un os file.fd
  let glc :=
    if r.1 = -1 then glc_log file.glc GLC_WARNING "file" "can't unlock file: %s (%d)"
    else file.glc
  let c := os_close r.2.2 file.fd
  let glc :=
    if c.1 ≠ 0 then glc_log glc GLC_ERROR "file" "can't close file: %s (%d)" else glc
  let flags := clear_flags file.flags (FILE_RUNNING ||| FILE_WRITING ||| FILE_INFO_WRITTEN)
  (0, { file with glc := glc, fd := -1, flags := flags }, c.2.2)

/-- The 48 bytes of a packed `glc_stream_info_t` on a little-endian machine. -/
def glc_stream_info_bytes (info : glc_stream_info_t) : List UInt8 :=
  le_bytes 4 info.signature ++ le_bytes 4 info.version ++ le_bytes 8 info.fps
    ++ le_bytes 4 info.flags ++ le_bytes 4 info.pid ++ le_bytes 4 info.name_size
    ++ le_bytes 4 info.date_size ++ le_bytes 8 info.reserved1 ++ le_bytes 8 info.reserved2

/-- The label `err` of `file_write_info`. -/
def file_write_info_err (file : file_s) : Nat × file_s :=
  let glc := glc_log file.glc GLC_ERROR "file" "can't write stream information: %s (%d)"
  (file.errno, { file with glc := glc })

def file_write_info (file : file_s) (info : glc_stream_info_t)
    (info_name info_date : List UInt8) : Nat × file_s :=
  if file.fd < 0 ∨ file.flags &&& FILE_RUNNING ≠ 0 ∨ file.flags &&& FILE_WRITING = 0 then
    (EAGAIN, file)
  else
  let w := os_write file (glc_stream_info_bytes info) sizeof_glc_stream_info_t
  if w.1 ≠ sizeof_glc_stream_info_t then file_write_info_err w.2 else
  let w := os_write w.2 info_name info.name_size
  if w.1 ≠ info.name_size then file_write_info_err w.2 else
  let w := os_write w.2 info_date info.date_size
  if w.1 ≠ info.date_size then file_write_info_err w.2 else
  (0, { w.2 with flags := w.2.flags ||| FILE_INFO_WRITTEN })

/-- The function `file_write_process_start`; `glc_thread_create` is the return
value of the call `glc_thread_create(file->glc, &file->thread, from, NULL)`. -/
def file_write_process_start (file : file_s) (glc_thread_create : Nat) : Nat × file_s :=
  if file.fd < 0 ∨ file.flags &&& FILE_RUNNING ≠ 0 ∨ file.flags &&& FILE_WRITING = 0
      ∨ file.flags &&& FILE_INFO_WRITTEN = 0 then (EAGAIN, file) else
  if glc_thread_create ≠ 0 then (glc_thread_create, file) else
  (0, { file with flags := file.flags ||| FILE_RUNNING })

/-- The function `file_write_process_wait`, which returns after `glc_thread_wait`
has joined the worker threads. -/
def file_write_process_wait (file : file_s) : Nat × file_s :=
  if file.fd < 0 ∨ file.flags &&& FILE_RUNNING = 0 ∨ file.flags &&& FILE_WRITING = 0
      ∨ file.flags &&& FILE_INFO_WRITTEN = 0 then (EAGAIN, file) else
  (0, { file with flags := clear_flags file.flags (FILE_RUNNING ||| FILE_INFO_WRITTEN) })

/-- The state Idle (and Closed) of the sink: no descriptor, none of WRITING,
INFO_WRITTEN and RUNNING set. -/
def file_sink_idle (file : file_s) : Prop :=
  file.fd = -1 ∧ file.flags &&& FILE_WRITING = 0 ∧ file.flags &&& FILE_INFO_WRITTEN = 0
    ∧ file.flags &&& FILE_RUNNING = 0

/-- The state TargetOpen of the sink: a descriptor, WRITING set, INFO_WRITTEN and
RUNNING clear. -/
def file_sink_target_open (file : file_s) : Prop :=
  0 ≤ file.fd ∧ file.flags &&& FILE_WRITING ≠ 0 ∧ file.flags &&& FILE_INFO_WRITTEN = 0
    ∧ file.flags &&& FILE_RUNNING = 0

/-- The state InfoWritten of the sink: a descriptor, WRITING and INFO_WRITTEN set,
RUNNING clear. -/
def file_sink_info_written (file : file_s) : Prop :=
  0 ≤ file.fd ∧ file.flags &&& FILE_WRITING ≠ 0 ∧ file.flags &&& FILE_INFO_WRITTEN ≠ 0
    ∧ file.flags &&& FILE_RUNNING = 0

/-- The state Running of the sink: a descriptor, WRITING, INFO_WRITTEN and RUNNING
set. -/
def file_sink_running (file : file_s) : Prop :=
  0 ≤ file.fd ∧ file.flags &&& FILE_WRITING ≠ 0 ∧ file.flags &&& FILE_INFO_WRITTEN ≠ 0
    ∧ file.flags &&& FILE_RUNNING ≠ 0

/-! ## glc/common/thread.c: the data path of one loop iteration -/

/-- A stage callback: return value and the state it leaves. -/
abbrev glc_thread_callback_t := glc_thread_state_t → Nat × glc_thread_state_t

/-- The type `glc_thread_t` (declared in `thread.h`): the stage flags and the
callbacks that act on the thread state. Of `thread_create_callback` the return
value is kept (`none` for a NULL pointer); `thread_finish_callback` and
`finish_callback` act outside the embedding, the arguments they are called
with are results of `glc_thread_leave`. -/
structure glc_thread_t where
  flags : Nat
  open_callback : Option glc_thread_callback_t
  header_callback : Option glc_thread_callback_t
  read_callback : Option glc_thread_callback_t
  write_callback : Option glc_thread_callback_t
  close_callback : Option glc_thread_callback_t
  thread_create_callback : Option Nat

/-- Call of an optional callback; a NULL callback is skipped. -/
def glc_thread_call (callback : Option glc_thread_callback_t) (state : glc_thread_state_t) :
    Nat × glc_thread_state_t :=
  match callback with
  | some f => f state
  | none => (0, state)

/-- The area of `size` bytes that `ps_packet_dma` hands out in the output buffer
before anything is stored in it; `arena` is the old content of the buffer. -/
def dma_area (arena : Nat → UInt8) (size : Nat) : List UInt8 :=
  (List.range size).map arena

/-- The part of one loop iteration of `glc_thread` between `ps_packet_open` of
the read packet and the read callback. The packet opened for reading is the
header byte `header` followed by `data`. -/
def glc_thread_read (thread : glc_thread_t) (state : glc_thread_state_t)
    (header : glc_message_type_t) (data : List UInt8) : Nat × glc_thread_state_t :=
  if thread.flags &&& GLC_THREAD_READ ≠ 0 ∧ state.flags &&& GLC_THREAD_STATE_SKIP_READ = 0 then
    let state := { state with header := header }
    let state := { state with read_size := sizeof_glc_message_header_t + data.length }
    let state := { state with read_size := state.read_size - sizeof_glc_message_header_t }
    let state := { state with write_size := state.read_size }
    /- header callback -/
    let (ret, state) := glc_thread_call thread.header_callback state
    if ret ≠ 0 then (ret, state) else
    let state := { state with read_data := data }
    /- read callback -/
    glc_thread_call thread.read_callback state
  else (0, state)

/-- The part of one loop iteration of `glc_thread` that fills and closes the
write packet. The result carries the bytes of the packet published in the
output buffer, if one is published. A packet whose size was declared before
the write callback ran keeps that size. -/
def glc_thread_write (thread : glc_thread_t) (arena : Nat → UInt8)
    (state : glc_thread_state_t) : Nat × Option (List UInt8) × glc_thread_state_t :=
  if thread.flags &&& GLC_THREAD_WRITE ≠ 0 ∧ state.flags &&& GLC_THREAD_STATE_SKIP_WRITE = 0 then
    let write_size_set := decide (state.flags &&& GLC_THREAD_STATE_UNKNOWN_FINAL_SIZE = 0)
    let declared := sizeof_glc_message_header_t + state.write_size
    if state.flags &&& GLC_THREAD_COPY ≠ 0 then
      /- should be faster, no need for fake dma -/
      let payload := state.read_data.take state.write_size
      let packet := state.header :: payload
      let state := { state with write_data := [], write_size := 0 }
      (0, some packet, state)
    else
      let state := { state with write_data := dma_area arena state.write_size }
      /- write callback -/
      let (ret, state) := glc_thread_call thread.write_callback state
      if ret ≠ 0 then (ret, none, state) else
      /- write header -/
      let size := if write_size_set then declared
                  else sizeof_glc_message_header_t + state.write_size
      let packet := (state.header :: state.write_data).take size
      let state := { state with write_data := [], write_size := 0 }
      (0, some packet, state)
  else (0, none, state)

/-- One iteration of the loop of `glc_thread` on a packet available in the input
buffer, on the path where every packet operation succeeds: open callback, read
side, write side, close callback. A non-zero return value is the code with
which the loop is left for `err`. The caller clears `state.flags` before the
next iteration. -/
def glc_thread_iteration (thread : glc_thread_t) (arena : Nat → UInt8)
    (state : glc_thread_state_t) (header : glc_message_type_t) (data : List UInt8) :
    Nat × Option (List UInt8) × glc_thread_state_t :=
  /- open callback -/
  let (ret, state) := glc_thread_call thread.open_callback state
  if ret ≠ 0 then (ret, none, state) else
  let (ret, state) := glc_thread_read thread state header data
  if ret ≠ 0 then (ret, none, state) else
  let (ret, packet, state) := glc_thread_write thread arena state
  if ret ≠ 0 then (ret, none, state) else
  let state :=
    if thread.flags &&& GLC_THREAD_READ ≠ 0 ∧ state.flags &&& GLC_THREAD_STATE_SKIP_READ = 0
    then { state with read_data := [], read_size := 0 } else state
  /- close callback -/
  let (ret, state) := glc_thread_call thread.close_callback state
  if ret ≠ 0 then (ret, packet, state) else
  (0, packet, state)

/-- The thread state with which `glc_thread` enters an iteration of its loop. -/
def glc_thread_state_init : glc_thread_state_t := ⟨0, 0, [], [], 0, 0⟩

/-- The value of the `size_t` expression `a - b`: the difference modulo
`2 ^ 64`, which wraps around when `b` exceeds `a`. -/
def size_t_sub (a b : Nat) : Nat :=
  if b % 2 ^ 64 ≤ a % 2 ^ 64 then a % 2 ^ 64 - b % 2 ^ 64
  else 2 ^ 64 - (b % 2 ^ 64 - a % 2 ^ 64)

/-! ## glc/common/thread.c: control flow of a worker thread -/

/-- The record `struct glc_thread_private_s`, the part shared by the worker
threads of one stage: the counter of running threads (a `size_t`), the stop
mark and the latched return value. -/
structure glc_thread_private_s where
  running_threads : Nat
  stop : Bool
  ret : Nat
deriving DecidableEq, Repr

/-- The calls that `glc_thread` makes: the packet operations by call site, the
callbacks, and the lock and unlock of the `open` mutex. -/
inductive glc_thread_site where
  | init_read
  | init_write
  | thread_create_callback
  | open_callback
  | lock_open
  | open_read
  | read_header
  | getsize
  | header_callback
  | dma_read
  | read_callback
  | open_write
  | unlock_open
  | seek_header
  | setsize
  | write_copy
  | dma_write
  | write_callback
  | seek_start
  | write_header
  | close_read
  | setsize_close
  | close_write
  | close_callback
deriving DecidableEq, Repr

/-- The call sites inside the loop whose return value `glc_thread` stores in
`ret` and tests (`if ((ret = ...)) goto err`). The two `ps_packet_close` calls
discard their return value. -/
def glc_thread_site.checked_in_loop : glc_thread_site → Bool
  | .open_callback | .open_read | .read_header | .getsize | .header_callback | .dma_read
  | .read_callback | .open_write | .seek_header | .setsize | .write_copy | .dma_write
  | .write_callback | .seek_start | .write_header | .setsize_close | .close_callback => true
  | _ => false

/-- The call sites whose return value `glc_thread` stores in `ret` and tests:
those of the loop, `ps_packet_init` of the read packet and the thread create
callback. -/
def glc_thread_site.checked (site : glc_thread_site) : Bool :=
  site.checked_in_loop || site == .init_read || site == .thread_create_callback

/-- The automatic variables of `glc_thread`, together with a record of the calls
made so far with their return values, the write packet being built (header
byte, payload, declared size) and the packets published in the output
buffer. -/
structure glc_thread_frame where
  has_locked : Bool
  ret : Nat
  write_size_set : Bool
  packets_init : Bool
  state : glc_thread_state_t
  calls : List (glc_thread_site × Nat)
  write_header : glc_message_type_t
  write_payload : List UInt8
  write_declared : Nat
  published : List (List UInt8)
deriving DecidableEq, Repr

/-- What the surroundings supply for one iteration of the loop: the return value
of every packet operation by call site, the packet that `ps_packet_open`
delivers from the input buffer (header byte and payload), the old content of
the output arena, and what `glc_state_test(GLC_STATE_CANCEL)` and
`private->stop` read in the loop condition. -/
structure glc_thread_env where
  op : glc_thread_site → Nat
  header : glc_message_type_t
  data : List UInt8
  arena : Nat → UInt8
  cancel : Bool
  stop : Bool

/-- A piece of `glc_thread`: `error` is the jump to the label `err`. -/
abbrev glc_thread_step := glc_thread_frame → Except glc_thread_frame glc_thread_frame

/-- Statements one after the other. -/
def glc_thread_seq : List glc_thread_step → glc_thread_step
  | [], f => .ok f
  | s :: ss, f =>
    match s f with
    | .ok f1 => glc_thread_seq ss f1
    | .error f1 => .error f1

/-- The statement `if (cond) { body }`. -/
def glc_thread_when (cond : glc_thread_frame → Bool) (body : glc_thread_step) :
    glc_thread_step :=
  fun f => if cond f then body f else .ok f

/-- The statement `if (cond) { yes } else { no }`. -/
def glc_thread_branch (cond : glc_thread_frame → Bool) (yes no : glc_thread_step) :
    glc_thread_step :=
  fun f => if cond f then yes f else no f

/-- Assignments to the automatic variables; nothing is called. -/
def glc_thread_assign (g : glc_thread_frame → glc_thread_frame) : glc_thread_step :=
  fun f => .ok { g f with ret := f.ret, calls := f.calls }

/-- The statement `if ((ret = call)) goto err;` for a call that returns `r`. -/
def glc_thread_checked (site : glc_thread_site) (r : Nat) : glc_thread_step :=
  fun f =>
    let f := { f with ret := r, calls := f.calls ++ [(site, r)] }
    if r ≠ 0 then .error f else .ok f

/-- A call whose return value is discarded. -/
def glc_thread_unchecked (site : glc_thread_site) (r : Nat) : glc_thread_step :=
  fun f => .ok { f with calls := f.calls ++ [(site, r)] }

/-- The statement `if ((call)) goto err;`, which leaves `ret` as it was. -/
def glc_thread_tested (site : glc_thread_site) (r : Nat) : glc_thread_step :=
  fun f =>
    let f := { f with calls := f.calls ++ [(site, r)] }
    if r ≠ 0 then .error f else .ok f

/-- The statement `if (callback) { if ((ret = callback(&state))) goto err; }`. -/
def glc_thread_callback (site : glc_thread_site) (callback : Option glc_thread_callback_t) :
    glc_thread_step :=
  fun f =>
    match callback with
    | none => .ok f
    | some c => glc_thread_checked site (c f.state).1 { f with state := (c f.state).2 }

/-- The statement `if (has_locked) { has_locked = 0; pthread_mutex_unlock(&private->open); }`. -/
def glc_thread_unlock : glc_thread_step :=
  glc_thread_when (fun f => f.has_locked)
    (glc_thread_seq [glc_thread_assign (fun f => { f with has_locked := false }),
      glc_thread_unchecked .unlock_open 0])

/-- The frame with which `glc_thread` starts. -/
def glc_thread_frame_init : glc_thread_frame :=
  { has_locked := false, ret := 0, write_size_set := false, packets_init := false,
    state := glc_thread_state_init, calls := [], write_header := 0, write_payload := [],
    write_declared := 0, published := [] }

/-- The part of `glc_thread` before the loop: the two `ps_packet_init` calls and
the thread create callback. -/
def glc_thread_enter (thread : glc_thread_t) (op : glc_thread_site → Nat) : glc_thread_step :=
  glc_thread_seq [
    glc_thread_when (fun _ => thread.flags &&& GLC_THREAD_READ ≠ 0)
      (glc_thread_checked .init_read (op .init_read)),
    glc_thread_when (fun _ => thread.flags &&& GLC_THREAD_WRITE ≠ 0)
      (glc_thread_tested .init_write (op .init_write)),
    /- safe to destroy packets etc. -/
    glc_thread_assign (fun f => { f with packets_init := true }),
    /- create callback -/
    fun f =>
      match thread.thread_create_callback with
      | none => .ok f
      | some r => glc_thread_checked .thread_create_callback r f ]

/-- The read side of one loop iteration. -/
def glc_thread_body_read (thread : glc_thread_t) (e : glc_thread_env) : glc_thread_step :=
  glc_thread_when (fun f => thread.flags &&& GLC_THREAD_READ ≠ 0
      ∧ f.state.flags &&& GLC_THREAD_STATE_SKIP_READ = 0)
    (glc_thread_seq [
      glc_thread_checked .open_read (e.op .open_read),
      glc_thread_checked .read_header (e.op .read_header),
      glc_thread_assign (fun f => { f with state := { f.state with header := e.header } }),
      glc_thread_checked .getsize (e.op .getsize),
      glc_thread_assign (fun f => { f with state := { f.state with
        read_size := sizeof_glc_message_header_t + e.data.length } }),
      glc_thread_assign (fun f => { f with state := { f.state with
        read_size := f.state.read_size - sizeof_glc_message_header_t } }),
      glc_thread_assign (fun f => { f with state := { f.state with
        write_size := f.state.read_size } }),
      /- header callback -/
      glc_thread_callback .header_callback thread.header_callback,
      glc_thread_checked .dma_read (e.op .dma_read),
      glc_thread_assign (fun f => { f with state := { f.state with read_data := e.data } }),
      /- read callback -/
      glc_thread_callback .read_callback thread.read_callback ])

/-- The write side of one loop iteration, up to the header. -/
def glc_thread_body_write (thread : glc_thread_t) (e : glc_thread_env) : glc_thread_step :=
  glc_thread_when (fun f => thread.flags &&& GLC_THREAD_WRITE ≠ 0
      ∧ f.state.flags &&& GLC_THREAD_STATE_SKIP_WRITE = 0)
    (glc_thread_seq [
      glc_thread_checked .open_write (e.op .open_write),
      glc_thread_assign (fun f => { f with write_payload := [], write_declared := 0 }),
      glc_thread_unlock,
      /- reserve space for header -/
      glc_thread_checked .seek_header (e.op .seek_header),
      glc_thread_when (fun f => f.state.flags &&& GLC_THREAD_STATE_UNKNOWN_FINAL_SIZE = 0)
        (glc_thread_seq [
          /- 'unlock' write -/
          glc_thread_checked .setsize (e.op .setsize),
          glc_thread_assign (fun f => { f with
            write_declared := sizeof_glc_message_header_t + f.state.write_size }),
          glc_thread_assign (fun f => { f with write_size_set := true }) ]),
      glc_thread_branch (fun f => f.state.flags &&& GLC_THREAD_COPY ≠ 0)
        (glc_thread_seq [
          /- should be faster, no need for fake dma -/
          glc_thread_checked .write_copy (e.op .write_copy),
          glc_thread_assign (fun f => { f with
            write_payload := f.state.read_data.take f.state.write_size }) ])
        (glc_thread_seq [
          glc_thread_checked .dma_write (e.op .dma_write),
          glc_thread_assign (fun f => { f with state := { f.state with
            write_data := dma_area e.arena f.state.write_size } }),
          /- write callback -/
          glc_thread_callback .write_callback thread.write_callback,
          glc_thread_assign (fun f => { f with write_payload := f.state.write_data }) ]),
      /- write header -/
      glc_thread_checked .seek_start (e.op .seek_start),
      glc_thread_checked .write_header (e.op .write_header),
      glc_thread_assign (fun f => { f with write_header := f.state.header }) ])

/-- The end of one loop iteration: the packets are closed, the close callback
runs. A write packet whose close succeeds is published. -/
def glc_thread_body_close (thread : glc_thread_t) (e : glc_thread_env) : glc_thread_step :=
  glc_thread_seq [
    /- in case of we skipped writing -/
    glc_thread_unlock,
    glc_thread_when (fun f => thread.flags &&& GLC_THREAD_READ ≠ 0
        ∧ f.state.flags &&& GLC_THREAD_STATE_SKIP_READ = 0)
      (glc_thread_seq [
        glc_thread_unchecked .close_read (e.op .close_read),
        glc_thread_assign (fun f => { f with state := { f.state with
          read_data := [], read_size := 0 } }) ]),
    glc_thread_when (fun f => thread.flags &&& GLC_THREAD_WRITE ≠ 0
        ∧ f.state.flags &&& GLC_THREAD_STATE_SKIP_WRITE = 0)
      (glc_thread_seq [
        glc_thread_when (fun f => !f.write_size_set)
          (glc_thread_seq [
            glc_thread_checked .setsize_close (e.op .setsize_close),
            glc_thread_assign (fun f => { f with
              write_declared := sizeof_glc_message_header_t + f.state.write_size }) ]),
        glc_thread_unchecked .close_write (e.op .close_write),
        glc_thread_when (fun _ => e.op .close_write = 0)
          (glc_thread_assign (fun f => { f with published := f.published ++
            [(f.write_header :: f.write_payload).take f.write_declared] })),
        glc_thread_assign (fun f => { f with state := { f.state with
          write_data := [], write_size := 0 } }) ]),
    /- close callback -/
    glc_thread_callback .close_callback thread.close_callback ]

/-- The body of the `do ... while` loop of `glc_thread`, up to the test of
`GLC_THREAD_STOP`. -/
def glc_thread_body (thread : glc_thread_t) (e : glc_thread_env) : glc_thread_step :=
  glc_thread_seq [
    /- open callback -/
    glc_thread_callback .open_callback thread.open_callback,
    glc_thread_when (fun _ => thread.flags &&& GLC_THREAD_WRITE ≠ 0
        ∧ thread.flags &&& GLC_THREAD_READ ≠ 0)
      (glc_thread_seq [
        /- preserve packet order -/
        glc_thread_unchecked .lock_open 0,
        glc_thread_assign (fun f => { f with has_locked := true }) ]),
    glc_thread_body_read thread e,
    glc_thread_body_write thread e,
    glc_thread_body_close thread e ]

/-- How a thread stands after the iterations it was given: still in the loop,
at the label `finish` coming from the loop, or at the label `err`. -/
inductive glc_thread_exit where
  | running
  | finish
  | err
deriving DecidableEq, Repr

/-- The `do ... while` loop of `glc_thread` on the iterations for which the
surroundings are given. -/
def glc_thread_loop (thread : glc_thread_t) :
    List glc_thread_env → glc_thread_frame → glc_thread_exit × glc_thread_frame
  | [], f => (.running, f)
  | e :: es, f =>
    match glc_thread_body thread e f with
    | .error f1 => (.err, f1)
    | .ok f1 =>
      if f1.state.flags &&& GLC_THREAD_STOP ≠ 0 then (.finish, f1) /- no error, just stop -/
      else
        let f2 := { f1 with state := { f1.state with flags := 0 }, write_size_set := false }
        if !e.cancel && f2.state.header ≠ GLC_MESSAGE_CLOSE && !e.stop then
          glc_thread_loop thread es f2
        else (.finish, f2)

/-- The function `glc_thread` from its start to the label `finish` or `err`:
`op` gives the return values of the calls before the loop. -/
def glc_thread_run (thread : glc_thread_t) (op : glc_thread_site → Nat)
    (es : List glc_thread_env) : glc_thread_exit × glc_thread_frame :=
  match glc_thread_enter thread op glc_thread_frame_init with
  | .error f => (.err, f)
  | .ok f => glc_thread_loop thread es f

/-- The section of `glc_thread` under the `finish` mutex: the counter of running
threads goes down, a non-zero `ret` is latched, and the thread that finds the
counter at zero calls `finish_callback` with the latched value (the second
component; `none` if the thread returns without the call). -/
def glc_thread_finish_section (priv : glc_thread_private_s) (ret : Nat) :
    glc_thread_private_s × Option Nat :=
  let priv := { priv with running_threads := size_t_sub priv.running_threads 1 }
  /- let other threads know about the error -/
  let priv := if ret ≠ 0 then { priv with ret := ret } else priv
  if priv.running_threads > 0 then (priv, none)
  else (priv, some priv.ret)

/-- What a thread leaves behind when `glc_thread` returns. -/
structure glc_thread_result where
  glc : glc_t
  priv : glc_thread_private_s
  from_buf : ps_buffer_t
  to_buf : ps_buffer_t
  frame : glc_thread_frame
  thread_finish_callback : Nat
  finish_callback : Option Nat
deriving DecidableEq, Repr

/-- The labels `err` and `finish` of `glc_thread`, entered with the frame `f`:
`thread_finish_callback` is the error argument of the thread finish callback,
`finish_callback` the argument of the finish callback if this thread calls
it. -/
def glc_thread_leave (thread : glc_thread_t) (exit : glc_thread_exit)
    (f : glc_thread_frame) (glc : glc_t) (priv : glc_thread_private_s)
    (from_buf to_buf : ps_buffer_t) : glc_thread_result :=
  /- err: -/
  let f :=
    if exit = .err ∧ f.has_locked then
      { f with calls := f.calls ++ [(.unlock_open, 0)] }
    else f
  let glc :=
    if exit = .err ∧ f.ret ≠ EINTR then
      glc_log { glc with cancel := true } GLC_ERROR "glc_thread" "%s (%d)"
    else glc
  let f := if exit = .err ∧ f.ret = EINTR then { f with ret := 0 } else f
  /- finish: wake up remaining threads -/
  let wake := decide (thread.flags &&& GLC_THREAD_READ ≠ 0) && !priv.stop
  let from_buf := if wake then ps_buffer_cancel from_buf else from_buf
  /- error might have happened @ write buffer so there could be blocking threads -/
  let to_buf :=
    if wake && glc.cancel && decide (thread.flags &&& GLC_THREAD_WRITE ≠ 0) then
      ps_buffer_cancel to_buf
    else to_buf
  let priv := if wake then { priv with stop := true } else priv
  let r := glc_thread_finish_section priv f.ret
  { glc := glc, priv := r.1, from_buf := from_buf, to_buf := to_buf, frame := f,
    thread_finish_callback := f.ret, finish_callback := r.2 }

/-- One pass of the creation loop of `glc_thread_create` with a successful
`pthread_create`, or the exit of a running thread with the given `ret`
through the section under the `finish` mutex. -/
inductive glc_thread_event where
  | create
  | exit (ret : Nat)
deriving DecidableEq, Repr

/-- The shared record and the arguments of the `finish_callback` calls made so
far, after a schedule of creations and exits. -/
def glc_thread_schedule (priv : glc_thread_private_s) (calls : List Nat) :
    List glc_thread_event → glc_thread_private_s × List Nat
  | [] => (priv, calls)
  | .create :: es =>
    glc_thread_schedule { priv with running_threads := (priv.running_threads + 1) % 2 ^ 64 }
      calls es
  | .exit ret :: es =>
    let r := glc_thread_finish_section priv ret
    glc_thread_schedule r.1 (calls ++ r.2.toList) es

/-- A schedule in which every exit is the exit of a thread that was created
before and has not exited yet; `running` counts such threads. -/
def glc_thread_schedule_valid (running : Nat) : List glc_thread_event → Bool
  | [] => true
  | .create :: es => glc_thread_schedule_valid (running + 1) es
  | .exit _ :: es => decide (0 < running) && glc_thread_schedule_valid (running - 1) es

/-- The record that `glc_thread_create` sets up with `memset`. -/
def glc_thread_private_init : glc_thread_private_s := ⟨0, false, 0⟩

/-- Every call of the record whose return value is stored and tested returned
0. -/
def glc_thread_calls_ok (calls : List (glc_thread_site × Nat)) : Prop :=
  ∀ c ∈ calls, c.1.checked = true → c.2 = 0

/-- A frame on a path on which no jump to `err` has happened. -/
def glc_thread_frame_ok (f : glc_thread_frame) : Prop :=
  glc_thread_calls_ok f.calls ∧ f.ret = 0

/-- A frame that has just jumped to `err`: the last call returned a non-zero
value, which is in `ret` unless the call is `ps_packet_init` of the write
packet. -/
def glc_thread_frame_err (f : glc_thread_frame) : Prop :=
  ∃ pre s r, f.calls = pre ++ [(s, r)] ∧ glc_thread_calls_ok pre ∧ r ≠ 0
    ∧ ((s.checked = true ∧ f.ret = r) ∨ (s = .init_write ∧ f.ret = 0))

/-- A piece of `glc_thread` that keeps the two frame properties. -/
def glc_thread_step_sound (s : glc_thread_step) : Prop :=
  ∀ f, glc_thread_frame_ok f →
    match s f with
    | .ok f1 => glc_thread_frame_ok f1
    | .error f1 => glc_thread_frame_err f1

/-- Modelled from the spec: `pack.h` is not under src. Selector of QuickLZ. -/
def PACK_QUICKLZ : Int := 0x1
/-- Modelled from the spec: `pack.h` is not under src. Selector of LZO. -/
def PACK_LZO : Int := 0x2
/-- Modelled from the spec: `pack.h` is not under src. Selector of LZJB. -/
def PACK_LZJB : Int := 0x3

/-- The preprocessor symbols that `pack.c` tests: `lzo` stands for `__LZO` (which
`__MINILZO` defines as well), `quicklz` for `__QUICKLZ`, `lzjb` for `__LZJB`. -/
structure pack_build where
  lzo : Bool
  quicklz : Bool
  lzjb : Bool
deriving DecidableEq, Repr

/-- The codec libraries that `pack.c` calls (minilzo or lzo, quicklz, lzjb are
not under src), as functions on byte strings.
`lzo_compress src` are the bytes `__lzo_compress` stores at its destination,
`lzo_decompress src` the bytes `__lzo_decompress` stores for the source bytes;
`quicklz_decompress src size` gets the uncompressed size, `lzjb_decompress src
d_len` the source bytes and the destination length. `quicklz_worstcase` and
`lzjb_worstcase` are the macros of `quicklz.h` and `lzjb.h`. -/
structure pack_codecs where
  lzo_compress : List UInt8 → List UInt8
  lzo_decompress : List UInt8 → List UInt8
  quicklz_compress : List UInt8 → List UInt8
  quicklz_decompress : List UInt8 → Nat → List UInt8
  quicklz_worstcase : Nat → Nat
  lzjb_compress : List UInt8 → List UInt8
  lzjb_decompress : List UInt8 → Nat → List UInt8
  lzjb_worstcase : Nat → Nat

/-- The macro `__lzo_worstcase(size)`. -/
def lzo_worstcase (size : Nat) : Nat := size + (size / 16) + 64 + 3

/-! ## glc/core/pack.c -/

/-- The function a `thread.write_callback` pointer of the compressor refers to. -/
inductive pack_write_callback_t where
  | quicklz
  | lzo
  | lzjb
deriving DecidableEq, Repr

/-- The record `struct pack_s`; of `thread` the `write_callback` pointer is
kept, the one member that changes after `pack_init`. -/
structure pack_s where
  glc : glc_t
  thread_write_callback : Option pack_write_callback_t
  compress_min : Nat
  running : Int
  compression : Int
deriving DecidableEq, Repr

def pack_set_compression (build : pack_build) (pack : pack_s) (compression : Int) :
    Nat × pack_s :=
  if pack.running ≠ 0 then (EALREADY, pack) else
  if compression = PACK_QUICKLZ then
    if build.quicklz then
      let pack := { pack with thread_write_callback := some .quicklz }
      let pack := { pack with
        glc := glc_log pack.glc GLC_INFORMATION "pack" "compressing using QuickLZ" }
      (0, { pack with compression := compression })
    else
      (ENOTSUP, { pack with glc := glc_log pack.glc GLC_ERROR "pack" "QuickLZ not supported" })
  else if compression = PACK_LZO then
    if build.lzo then
      let pack := { pack with thread_write_callback := some .lzo }
      let pack := { pack with
        glc := glc_log pack.glc GLC_INFORMATION "pack" "compressing using LZO" }
      (0, { pack with compression := compression })
    else
      (ENOTSUP, { pack with glc := glc_log pack.glc GLC_ERROR "pack" "LZO not supported" })
  else if compression = PACK_LZJB then
    if build.lzjb then
      let pack := { pack with thread_write_callback := some .lzjb }
      let pack := { pack with
        glc := glc_log pack.glc GLC_INFORMATION "pack" "compressing using LZJB" }
      (0, { pack with compression := compression })
    else
      (ENOTSUP, { pack with glc := glc_log pack.glc GLC_ERROR "pack" "LZJB not supported" })
  else
    (ENOTSUP, { pack with glc := glc_log pack.glc GLC_ERROR "pack"
                            "unknown/unsupported compression algorithm 0x%02x" })

def pack_init (build : pack_build) (glc : glc_t) : Nat × pack_s :=
  let pack : pack_s := ⟨glc, none, 0, 0, 0⟩
  let pack := { pack with compress_min := 1024 }
  if build.quicklz then
    let (_, pack) := pack_set_compression build pack PACK_QUICKLZ
    (0, pack)
  else if build.lzo then
    let (_, pack) := pack_set_compression build pack PACK_LZO
    (0, pack)
  else if build.lzjb then
    let (_, pack) := pack_set_compression build pack PACK_LZJB
    (0, pack)
  else
    (ENOTSUP, { pack with glc := glc_log pack.glc GLC_ERROR "pack"
                            "no supported compression algorithms found" })

/-- The function `pack_set_minimum_size`; its test `min_size < 0` is never true
for a `size_t`. -/
def pack_set_minimum_size (pack : pack_s) (min_size : Nat) : Nat × pack_s :=
  if pack.running ≠ 0 then (EALREADY, pack) else
  (0, { pack with compress_min := min_size })

/-- The label `copy` of `pack_read_callback`. -/
def pack_read_callback_copy (state : glc_thread_state_t) : Nat × glc_thread_state_t :=
  (0, { state with flags := state.flags ||| GLC_THREAD_COPY })

def pack_read_callback (build : pack_build) (codecs : pack_codecs) (pack : pack_s)
    (state : glc_thread_state_t) : Nat × glc_thread_state_t :=
  /- compress only audio and pictures -/
  if state.read_size > pack.compress_min ∧
      (state.header = GLC_MESSAGE_VIDEO_FRAME ∨ state.header = GLC_MESSAGE_AUDIO_DATA) then
    if pack.compression = PACK_QUICKLZ then
      if build.quicklz then
        (0, { state with write_size :=
                (sizeof_glc_container_message_header_t + sizeof_glc_quicklz_header_t
                  + codecs.quicklz_worstcase state.read_size) % 2 ^ 64 })
      else pack_read_callback_copy state
    else if pack.compression = PACK_LZO then
      if build.lzo then
        (0, { state with write_size :=
                (sizeof_glc_container_message_header_t + sizeof_glc_lzo_header_t
                  + lzo_worstcase state.read_size) % 2 ^ 64 })
      else pack_read_callback_copy state
    else if pack.compression = PACK_LZJB then
      if build.lzjb then
        (0, { state with write_size :=
                (sizeof_glc_container_message_header_t + sizeof_glc_lzjb_header_t
                  + codecs.lzjb_worstcase state.read_size) % 2 ^ 64 })
      else pack_read_callback_copy state
    else pack_read_callback_copy state
  else pack_read_callback_copy state

/-- The stores shared by the three write callbacks of the compressor after the
codec has run: the codec header (uncompressed size, original message header)
behind the container header, the container header (size, codec tag) at the
start of the area, and the outer message type. -/
def pack_write_headers (state : glc_thread_state_t) (compressed_size : Nat)
    (codec_header_size : Nat) (tag : glc_message_type_t) : glc_thread_state_t :=
  let wd := state.write_data
  let wd := store wd sizeof_glc_container_message_header_t (le_bytes 8 (state.read_size % 2 ^ 64))
  let wd := store wd (sizeof_glc_container_message_header_t + sizeof_glc_size_t) [state.header]
  let wd := store wd 0 (le_bytes 8 ((compressed_size + codec_header_size) % 2 ^ 64))
  let wd := store wd sizeof_glc_size_t [tag]
  { state with write_data := wd, header := GLC_MESSAGE_CONTAINER }

def pack_lzo_write_callback (build : pack_build) (codecs : pack_codecs)
    (state : glc_thread_state_t) : Nat × glc_thread_state_t :=
  if build.lzo then
    let out := codecs.lzo_compress (state.read_data.take state.read_size)
    let compressed_size := out.length
    let wd := store state.write_data
      (sizeof_glc_lzo_header_t + sizeof_glc_container_message_header_t) out
    let state := { state with write_data := wd }
    (0, pack_write_headers state compressed_size sizeof_glc_lzo_header_t GLC_MESSAGE_LZO)
  else (ENOTSUP, state)

def pack_quicklz_write_callback (build : pack_build) (codecs : pack_codecs)
    (state : glc_thread_state_t) : Nat × glc_thread_state_t :=
  if build.quicklz then
    let out := codecs.quicklz_compress (state.read_data.take state.read_size)
    let compressed_size := out.length
    let wd := store state.write_data
      (sizeof_glc_quicklz_header_t + sizeof_glc_container_message_header_t) out
    let state := { state with write_data := wd }
    (0, pack_write_headers state compressed_size sizeof_glc_quicklz_header_t
          GLC_MESSAGE_QUICKLZ)
  else (ENOTSUP, state)

def pack_lzjb_write_callback (build : pack_build) (codecs : pack_codecs)
    (state : glc_thread_state_t) : Nat × glc_thread_state_t :=
  if build.lzjb then
    let out := codecs.lzjb_compress (state.read_data.take state.read_size)
    let compressed_size := out.length
    let wd := store state.write_data
      (sizeof_glc_lzjb_header_t + sizeof_glc_container_message_header_t) out
    let state := { state with write_data := wd }
    (0, pack_write_headers state compressed_size sizeof_glc_lzjb_header_t GLC_MESSAGE_LZJB)
  else (ENOTSUP, state)

/-- The write callback that a `thread.write_callback` pointer of the compressor
refers to. -/
def pack_write_callback (which : pack_write_callback_t) (build : pack_build)
    (codecs : pack_codecs) : glc_thread_callback_t :=
  match which with
  | .quicklz => pack_quicklz_write_callback build codecs
  | .lzo => pack_lzo_write_callback build codecs
  | .lzjb => pack_lzjb_write_callback build codecs

/-- The `glc_thread_t` of the compressor as `pack_init` and `pack_set_compression`
set it up. -/
def pack_thread (build : pack_build) (codecs : pack_codecs) (pack : pack_s) : glc_thread_t :=
  { flags := GLC_THREAD_WRITE ||| GLC_THREAD_READ
    open_callback := none
    header_callback := none
    read_callback := some (pack_read_callback build codecs pack)
    write_callback :=
      pack.thread_write_callback.map (fun which => pack_write_callback which build codecs)
    close_callback := none
    thread_create_callback := some 0 }

/-- The record `struct unpack_s`. -/
structure unpack_s where
  glc : glc_t
  running : Int
deriving DecidableEq, Repr

def unpack_read_callback (build : pack_build) (state : glc_thread_state_t) :
    Nat × glc_thread_state_t :=
  if state.header = GLC_MESSAGE_LZO then
    if build.lzo then (0, { state with write_size := load_le state.read_data 0 8 })
    else (ENOTSUP, state)
  else if state.header = GLC_MESSAGE_QUICKLZ then
    if build.quicklz then (0, { state with write_size := load_le state.read_data 0 8 })
    else (ENOTSUP, state)
  else if state.header = GLC_MESSAGE_LZJB then
    if build.lzjb then (0, { state with write_size := load_le state.read_data 0 8 })
    else (ENOTSUP, state)
  else (0, { state with flags := state.flags ||| GLC_THREAD_COPY })

def unpack_write_callback (build : pack_build) (codecs : pack_codecs)
    (state : glc_thread_state_t) : Nat × glc_thread_state_t :=
  if state.header = GLC_MESSAGE_LZO then
    if build.lzo then
      let src := state.read_data.drop sizeof_glc_lzo_header_t
      let state := { state with header := state.read_data.getD sizeof_glc_size_t 0 }
      let out := codecs.lzo_decompress
        (src.take (size_t_sub state.read_size sizeof_glc_lzo_header_t))
      (0, { state with write_data := store state.write_data 0 out, write_size := out.length })
    else (ENOTSUP, state)
  else if state.header = GLC_MESSAGE_QUICKLZ then
    if build.quicklz then
      let src := state.read_data.drop sizeof_glc_quicklz_header_t
      let state := { state with header := state.read_data.getD sizeof_glc_size_t 0 }
      let out := codecs.quicklz_decompress src state.write_size
      (0, { state with write_data := store state.write_data 0 out })
    else (ENOTSUP, state)
  else if state.header = GLC_MESSAGE_LZJB then
    if build.lzjb then
      let src := state.read_data.drop sizeof_glc_lzjb_header_t
      let state := { state with header := state.read_data.getD sizeof_glc_size_t 0 }
      let out := codecs.lzjb_decompress
        (src.take (size_t_sub state.read_size sizeof_glc_lzjb_header_t)) state.write_size
      (0, { state with write_data := store state.write_data 0 out })
    else (ENOTSUP, state)
  else (ENOTSUP, state)

/-- The `glc_thread_t` of the decompressor as `unpack_init` sets it up. -/
def unpack_thread (build : pack_build) (codecs : pack_codecs) : glc_thread_t :=
  { flags := GLC_THREAD_WRITE ||| GLC_THREAD_READ
    open_callback := none
    header_callback := none
    read_callback := some (unpack_read_callback build)
    write_callback := some (unpack_write_callback build codecs)
    close_callback := none
    thread_create_callback := none }

/-! ## glc/capture/alsa_hook.c -/

def GLC_AUDIO_S16_LE : UInt8 := 0x1
def GLC_AUDIO_S24_LE : UInt8 := 0x2
def GLC_AUDIO_S32_LE : UInt8 := 0x3
def GLC_AUDIO_INTERLEAVED : Nat := 0x1

def ALSA_HOOK_CAPTURING : Nat := 0x1
def ALSA_HOOK_ALLOW_SKIP : Nat := 0x2

/-- Value of `SND_PCM_FORMAT_S16_LE` in alsa-lib. -/
def SND_PCM_FORMAT_S16_LE : Int := 2
/-- Value of `SND_PCM_FORMAT_S24_LE` in alsa-lib. -/
def SND_PCM_FORMAT_S24_LE : Int := 6
/-- Value of `SND_PCM_FORMAT_S32_LE` in alsa-lib. -/
def SND_PCM_FORMAT_S32_LE : Int := 10
/-- Value of `SND_PCM_ACCESS_MMAP_INTERLEAVED` in alsa-lib. -/
def SND_PCM_ACCESS_MMAP_INTERLEAVED : Int := 0
/-- Value of `SND_PCM_ACCESS_MMAP_NONINTERLEAVED` in alsa-lib. -/
def SND_PCM_ACCESS_MMAP_NONINTERLEAVED : Int := 1
/-- Value of `SND_PCM_ACCESS_MMAP_COMPLEX` in alsa-lib. -/
def SND_PCM_ACCESS_MMAP_COMPLEX : Int := 2
/-- Value of `SND_PCM_ACCESS_RW_INTERLEAVED` in alsa-lib. -/
def SND_PCM_ACCESS_RW_INTERLEAVED : Int := 3
/-- Value of `SND_PCM_ACCESS_RW_NONINTERLEAVED` in alsa-lib. -/
def SND_PCM_ACCESS_RW_NONINTERLEAVED : Int := 4
/-- Value of `SND_PCM_NONBLOCK` in alsa-lib. -/
def SND_PCM_NONBLOCK : Nat := 0x1
/-- Value of `SND_PCM_ASYNC` in alsa-lib. -/
def SND_PCM_ASYNC : Nat := 0x2

/-- What the translated code uses of a PCM handle `snd_pcm_t *`: the pointer value
and the sizes in bytes of one frame and of one sample, from which
`snd_pcm_frames_to_bytes` and `snd_pcm_samples_to_bytes` compute. -/
structure snd_pcm_t where
  handle : Nat
  frame_bytes : Nat
  sample_bytes : Nat
deriving DecidableEq, Repr

def snd_pcm_frames_to_bytes (pcm : snd_pcm_t) (frames : Nat) : Nat :=
  frames * pcm.frame_bytes

def snd_pcm_samples_to_bytes (pcm : snd_pcm_t) (samples : Nat) : Nat :=
  samples * pcm.sample_bytes

/-- The type `snd_pcm_channel_area_t`: the memory at `addr`, the offset of the
first sample in bits and the distance between samples in bits. -/
structure snd_pcm_channel_area_t where
  addr : List UInt8
  first : Nat
  step : Nat
deriving DecidableEq, Repr

/-- What the getters `snd_pcm_hw_params_get_*` deliver for a hardware parameter
set: return value (negative on failure) and value. -/
structure snd_pcm_hw_params_t where
  format : Int × Int
  rate : Int × Nat
  channels : Int × Nat
  period_size : Int × Nat
  access : Int × Int
deriving DecidableEq, Repr

/-- A mutex or spinlock: whether it is held, and how often lock and unlock were
called on it. -/
structure alsa_hook_lock_t where
  held : Bool
  locks : Nat
  unlocks : Nat
deriving DecidableEq, Repr

/-- The record `struct alsa_hook_stream_s`. The semaphores are their values, the
handoff buffer `capture_data` is the allocated memory (empty for NULL),
`mmap_areas` is `none` for NULL, `threads_created` counts `pthread_create`. -/
structure alsa_hook_stream_s where
  id : Int
  format : UInt8
  pcm : snd_pcm_t
  mode : Nat
  mmap_areas : Option (List snd_pcm_channel_area_t)
  frames : Nat
  offset : Nat
  channels : Nat
  rate : Nat
  flags : Nat
  complex : Nat
  fmt : Nat
  initialized : Nat
  packet : ps_packet_t
  threads_created : Nat
  capture_finished : Nat
  capture_running : Nat
  capture_empty : Nat
  capture_full : Nat
  write_mutex : alsa_hook_lock_t
  write_spinlock : alsa_hook_lock_t
  capture_ready : Nat
  capture_data : List UInt8
  capture_size : Nat
  capture_data_size : Nat
  capture_time : Nat
deriving DecidableEq, Repr

/-- The record `struct alsa_hook_s`; `streams` is the linked list from its head,
`to_buf` is `none` for a NULL pointer, `audio_streams` is the counter of audio
stream ids in the glc state. -/
structure alsa_hook_s where
  glc : glc_t
  flags : Nat
  to_buf : Option ps_buffer_t
  started : Nat
  streams : List alsa_hook_stream_s
  audio_streams : Nat
deriving DecidableEq, Repr

/-- What the surroundings supply for one call: the time `glc_state_time` reads
and whether `malloc` or `realloc` succeeds. -/
structure alsa_hook_env where
  time : Nat
  alloc_ok : Bool
deriving DecidableEq, Repr

def alsa_hook_init (glc : glc_t) : alsa_hook_s :=
  { glc := glc, flags := 0, to_buf := none, started := 0, streams := [], audio_streams := 0 }

def alsa_hook_set_buffer (alsa_hook : alsa_hook_s) (buffer : ps_buffer_t) :
    Nat × alsa_hook_s :=
  if alsa_hook.to_buf.isSome then (EALREADY, alsa_hook)
  else (0, { alsa_hook with to_buf := some buffer })

def alsa_hook_allow_skip (alsa_hook : alsa_hook_s) (allow_skip : Int) : Nat × alsa_hook_s :=
  if allow_skip ≠ 0 then (0, { alsa_hook with flags := alsa_hook.flags ||| ALSA_HOOK_ALLOW_SKIP })
  else (0, { alsa_hook with flags := clear_flags alsa_hook.flags ALSA_HOOK_ALLOW_SKIP })

/-- The record that `alsa_hook_get_stream` creates for a PCM handle it has not
seen. -/
def alsa_hook_stream_new (pcm : snd_pcm_t) : alsa_hook_stream_s :=
  { id := 0, format := 0, pcm := pcm, mode := 0, mmap_areas := none, frames := 0, offset := 0,
    channels := 0, rate := 0, flags := 0, complex := 0, fmt := 0, initialized := 0,
    packet := ps_packet_init, threads_created := 0, capture_finished := 0,
    capture_running := 0, capture_empty := 1, capture_full := 0,
    write_mutex := ⟨false, 0, 0⟩, write_spinlock := ⟨false, 0, 0⟩, capture_ready := 0,
    capture_data := [], capture_size := 0, capture_data_size := 0, capture_time := 0 }

/-- The function `alsa_hook_get_stream`: the record of the PCM handle, which is
put at the head of the list if it is new. -/
def alsa_hook_get_stream (alsa_hook : alsa_hook_s) (pcm : snd_pcm_t) :
    alsa_hook_s × alsa_hook_stream_s :=
  match alsa_hook.streams.find? (fun find => find.pcm.handle = pcm.handle) with
  | some find => (alsa_hook, find)
  | none =>
    ({ alsa_hook with streams := alsa_hook_stream_new pcm :: alsa_hook.streams },
     alsa_hook_stream_new pcm)

/-- A store through the `stream` pointer: the record of the same PCM handle in
the list is replaced. -/
def alsa_hook_put_stream (alsa_hook : alsa_hook_s) (stream : alsa_hook_stream_s) :
    alsa_hook_s :=
  let rec put : List alsa_hook_stream_s → List alsa_hook_stream_s
    | [] => []
    | s :: ss => if s.pcm.handle = stream.pcm.handle then stream :: ss else s :: put ss
  { alsa_hook with streams := put alsa_hook.streams }

def pcm_fmt_to_glc_fmt (pcm_fmt : Int) : UInt8 :=
  if pcm_fmt = SND_PCM_FORMAT_S16_LE then GLC_AUDIO_S16_LE
  else if pcm_fmt = SND_PCM_FORMAT_S24_LE then GLC_AUDIO_S24_LE
  else if pcm_fmt = SND_PCM_FORMAT_S32_LE then GLC_AUDIO_S32_LE
  else 0

/-- A call of `pthread_mutex_lock` or `pthread_spin_lock`; `none` if the lock is
held, in which case the call does not return. -/
def alsa_hook_lock (lock : alsa_hook_lock_t) : Option alsa_hook_lock_t :=
  if lock.held then none else some { lock with held := true, locks := lock.locks + 1 }

/-- A call of `pthread_mutex_unlock` or `pthread_spin_unlock`. -/
def alsa_hook_unlock (lock : alsa_hook_lock_t) : alsa_hook_lock_t :=
  { lock with held := false, unlocks := lock.unlocks + 1 }

def alsa_hook_lock_write (stream : alsa_hook_stream_s) : Option (Nat × alsa_hook_stream_s) :=
  if stream.mode &&& SND_PCM_ASYNC ≠ 0 then
    (alsa_hook_lock stream.write_spinlock).map
      (fun l => (0, { stream with write_spinlock := l }))
  else
    (alsa_hook_lock stream.write_mutex).map
      (fun l => (0, { stream with write_mutex := l }))

def alsa_hook_unlock_write (stream : alsa_hook_stream_s) : Nat × alsa_hook_stream_s :=
  if stream.mode &&& SND_PCM_ASYNC ≠ 0 then
    (0, { stream with write_spinlock := alsa_hook_unlock stream.write_spinlock })
  else
    (0, { stream with write_mutex := alsa_hook_unlock stream.write_mutex })

/-- The lock that `alsa_hook_lock_write` and `alsa_hook_unlock_write` use for the
stream: the spinlock in async mode, the mutex otherwise. -/
def alsa_hook_write_lock (stream : alsa_hook_stream_s) : alsa_hook_lock_t :=
  if stream.mode &&& SND_PCM_ASYNC ≠ 0 then stream.write_spinlock else stream.write_mutex

/-- The function `alsa_hook_wait_for_thread`; `none` where the call waits for the
capture thread: in the busy loop without ALLOW_SKIP, or in `sem_wait` on an
empty semaphore of value zero. The result carries the log. -/
def alsa_hook_wait_for_thread (alsa_hook : alsa_hook_s) (stream : alsa_hook_stream_s) :
    Option (Nat × glc_t × alsa_hook_stream_s) :=
  if stream.mode &&& SND_PCM_ASYNC ≠ 0 then
    if stream.capture_ready ≠ 0 then some (0, alsa_hook.glc, stream)
    else if alsa_hook.flags &&& ALSA_HOOK_ALLOW_SKIP ≠ 0 then
      some (EBUSY,
        glc_log alsa_hook.glc GLC_WARNING "alsa_hook"
          "dropped audio data, capture thread not ready", stream)
    else none
  else if stream.capture_empty > 0 then
    some (0, alsa_hook.glc, { stream with capture_empty := stream.capture_empty - 1 })
  else none

def alsa_hook_set_data_size (env : alsa_hook_env) (stream : alsa_hook_stream_s) (size : Nat) :
    Nat × alsa_hook_stream_s :=
  let stream := { stream with capture_size := size }
  if size ≤ stream.capture_data_size then (0, stream) else
  let stream := { stream with capture_data_size := size }
  if env.alloc_ok then
    (0, { stream with capture_data :=
            stream.capture_data.take size
              ++ List.replicate (size - stream.capture_data.length) 0 })
  else (ENOMEM, { stream with capture_data := [] })

/-- Modelled from the spec: `glc_state_audio_new` of `state.c` (not under src);
ids are allocated sequentially, id 0 means uninitialized. -/
def glc_state_audio_new (alsa_hook : alsa_hook_s) : alsa_hook_s × Int :=
  ({ alsa_hook with audio_streams := alsa_hook.audio_streams + 1 },
   (alsa_hook.audio_streams + 1 : Nat))

/-- The packed `glc_audio_format_message_t` in memory. -/
def glc_audio_format_message_bytes (id : Int) (flags rate channels : Nat) (format : UInt8) :
    List UInt8 :=
  le_bytes 4 (id % 2 ^ 32).toNat ++ le_bytes 4 flags ++ le_bytes 4 rate
    ++ le_bytes 4 channels ++ [format]

/-- The function `alsa_hook_stream_init`. The exchange with a running capture
thread (`sem_post` of the full semaphore, `sem_wait` for its end) leaves the
semaphores as they were and the thread not ready. -/
def alsa_hook_stream_init (alsa_hook : alsa_hook_s) (stream : alsa_hook_stream_s) :
    Nat × alsa_hook_s × alsa_hook_stream_s :=
  if stream.fmt = 0 then (EINVAL, alsa_hook, stream) else
  /- we need proper id for the stream -/
  let fresh := glc_state_audio_new alsa_hook
  let id := if stream.id < 1 then fresh.2 else stream.id
  let audio_streams := if stream.id < 1 then fresh.1.audio_streams else alsa_hook.audio_streams
  let stream := { stream with id := id }
  let glc := glc_log alsa_hook.glc GLC_INFORMATION "alsa_hook" "%p: initializing stream %d"
  let alsa_hook := { alsa_hook with glc := glc, audio_streams := audio_streams }
  /- init packet -/
  let stream := { stream with packet := ps_packet_init }
  /- prepare audio format message -/
  let to_buf := alsa_hook.to_buf.getD ps_buffer_init
  let (_, packet, to_buf) := ps_packet_open_write stream.packet to_buf
  let (_, packet) := ps_packet_write packet to_buf [GLC_MESSAGE_AUDIO_FORMAT]
  let (_, packet) := ps_packet_write packet to_buf
    (glc_audio_format_message_bytes stream.id stream.flags stream.rate stream.channels
      stream.format)
  let (_, packet, to_buf) := ps_packet_close packet to_buf
  let alsa_hook := { alsa_hook with to_buf := alsa_hook.to_buf.map (fun _ => to_buf) }
  let stream := { stream with packet := packet }
  /- kill old thread -/
  let ready := if stream.capture_running ≠ 0 then 0 else stream.capture_ready
  let stream := { stream with capture_ready := ready, capture_running := 1 }
  let stream := { stream with threads_created := stream.threads_created + 1 }
  (0, alsa_hook, { stream with initialized := 1 })

/-- The loop of `alsa_hook_init_streams` over the records of the list. -/
def alsa_hook_init_pending (alsa_hook : alsa_hook_s) :
    List alsa_hook_stream_s → alsa_hook_s × List alsa_hook_stream_s
  | [] => (alsa_hook, [])
  | stream :: rest =>
    if stream.fmt ≠ 0 ∧ stream.initialized = 0 then
      let r := alsa_hook_stream_init alsa_hook stream
      let rr := alsa_hook_init_pending r.2.1 rest
      (rr.1, r.2.2 :: rr.2)
    else
      let rr := alsa_hook_init_pending alsa_hook rest
      (rr.1, stream :: rr.2)

def alsa_hook_init_streams (alsa_hook : alsa_hook_s) : Nat × alsa_hook_s :=
  if alsa_hook.to_buf.isNone then (EAGAIN, alsa_hook) else
  if alsa_hook.started ≠ 0 then (EALREADY, alsa_hook) else
  /- initialize all pending streams -/
  let r := alsa_hook_init_pending alsa_hook alsa_hook.streams
  (0, { r.1 with streams := r.2, started := 1 })

def alsa_hook_start (alsa_hook : alsa_hook_s) : Nat × alsa_hook_s :=
  if alsa_hook.to_buf.isNone then
    (EAGAIN, { alsa_hook with
      glc := glc_log alsa_hook.glc GLC_ERROR "alsa_hook" "target buffer not specified" })
  else
    let alsa_hook :=
      if alsa_hook.started = 0 then (alsa_hook_init_streams alsa_hook).2 else alsa_hook
    let glc :=
      if alsa_hook.flags &&& ALSA_HOOK_CAPTURING ≠ 0 then
        glc_log alsa_hook.glc GLC_WARNING "alsa_hook" "capturing is already active"
      else glc_log alsa_hook.glc GLC_INFORMATION "alsa_hook" "starting capturing"
    (0, { alsa_hook with glc := glc, flags := alsa_hook.flags ||| ALSA_HOOK_CAPTURING })

def alsa_hook_stop (alsa_hook : alsa_hook_s) : Nat × alsa_hook_s :=
  let glc :=
    if alsa_hook.flags &&& ALSA_HOOK_CAPTURING ≠ 0 then
      glc_log alsa_hook.glc GLC_INFORMATION "alsa_hook" "stopping capturing"
    else glc_log alsa_hook.glc GLC_WARNING "alsa_hook" "capturing is already stopped"
  (0, { alsa_hook with glc := glc, flags := clear_flags alsa_hook.flags ALSA_HOOK_CAPTURING })

def alsa_hook_open (alsa_hook : alsa_hook_s) (pcm : snd_pcm_t) (mode : Nat) :
    Nat × alsa_hook_s :=
  let (alsa_hook, stream) := alsa_hook_get_stream alsa_hook pcm
  let stream := { stream with mode := mode }
  let glc := glc_log alsa_hook.glc GLC_INFORMATION "alsa_hook"
    "%p: opened device \"%s\" with mode is 0x%02x (async=%s, nonblock=%s)"
  (0, alsa_hook_put_stream { alsa_hook with glc := glc } stream)

def alsa_hook_close (alsa_hook : alsa_hook_s) (pcm : snd_pcm_t) : Nat × alsa_hook_s :=
  let (alsa_hook, stream) := alsa_hook_get_stream alsa_hook pcm
  let glc := glc_log alsa_hook.glc GLC_INFORMATION "alsa_hook" "%p: closing stream %d"
  /- no format -> do not initialize -/
  (0, alsa_hook_put_stream { alsa_hook with glc := glc } { stream with fmt := 0 })

/-- The label `err` of `alsa_hook_hw_params`. -/
def alsa_hook_hw_params_err (alsa_hook : alsa_hook_s) (stream : alsa_hook_stream_s)
    (ret : Int) : Int × alsa_hook_s :=
  let glc := glc_log alsa_hook.glc GLC_ERROR "alsa_hook"
    "%p: can't extract hardware configuration: %s (%d)"
  let stream := (alsa_hook_unlock_write stream).2
  (ret, alsa_hook_put_stream { alsa_hook with glc := glc } stream)

/-- The end of `alsa_hook_hw_params`, after the access mode was accepted: the
format is marked as known and, if the hook is started, the stream is
initialised. -/
def alsa_hook_hw_params_done (alsa_hook : alsa_hook_s) (stream : alsa_hook_stream_s) :
    Int × alsa_hook_s :=
  let glc := glc_log alsa_hook.glc GLC_DEBUG "alsa_hook"
    "%p: %d channels, rate %d, flags 0x%02x"
  let alsa_hook := { alsa_hook with glc := glc }
  let stream := { stream with fmt := 1 }
  if alsa_hook.started ≠ 0 then
    let r := alsa_hook_stream_init alsa_hook stream
    if r.1 ≠ 0 then alsa_hook_hw_params_err r.2.1 r.2.2 r.1
    else (0, alsa_hook_put_stream r.2.1 (alsa_hook_unlock_write r.2.2).2)
  else (0, alsa_hook_put_stream alsa_hook (alsa_hook_unlock_write stream).2)

/-- The function `alsa_hook_hw_params`; `none` where the call waits for the write
lock. -/
def alsa_hook_hw_params (alsa_hook : alsa_hook_s) (pcm : snd_pcm_t)
    (params : snd_pcm_hw_params_t) : Option (Int × alsa_hook_s) :=
  let (alsa_hook, stream) := alsa_hook_get_stream alsa_hook pcm
  match alsa_hook_lock_write stream with
  | none => none
  | some (_, stream) =>
    let glc := glc_log alsa_hook.glc GLC_DEBUG "alsa_hook"
      "%p: creating/updating configuration for stream %d"
    let alsa_hook := { alsa_hook with glc := glc }
    /- extract information -/
    if params.format.1 < 0 then some (alsa_hook_hw_params_err alsa_hook stream params.format.1)
    else
    let stream := { stream with flags := 0 } /- zero flags -/
    let stream := { stream with format := pcm_fmt_to_glc_fmt params.format.2 }
    if stream.format = 0 then
      let glc := glc_log alsa_hook.glc GLC_ERROR "alsa_hook"
        "%p: unsupported audio format 0x%02x"
      some (alsa_hook_hw_params_err { alsa_hook with glc := glc } stream ENOTSUP)
    else
    if params.rate.1 < 0 then some (alsa_hook_hw_params_err alsa_hook stream params.rate.1)
    else
    let stream := { stream with rate := params.rate.2 }
    if params.channels.1 < 0 then
      some (alsa_hook_hw_params_err alsa_hook stream params.channels.1)
    else
    let stream := { stream with channels := params.channels.2 }
    if params.period_size.1 < 0 then
      some (alsa_hook_hw_params_err alsa_hook stream params.period_size.1)
    else
    if params.access.1 < 0 then some (alsa_hook_hw_params_err alsa_hook stream params.access.1)
    else
    let access := params.access.2
    if access = SND_PCM_ACCESS_RW_INTERLEAVED ∨ access = SND_PCM_ACCESS_MMAP_INTERLEAVED then
      some (alsa_hook_hw_params_done alsa_hook
        { stream with flags := stream.flags ||| GLC_AUDIO_INTERLEAVED })
    else if access = SND_PCM_ACCESS_MMAP_COMPLEX then
      /- convert to interleaved, do conversion -/
      some (alsa_hook_hw_params_done alsa_hook
        { stream with flags := stream.flags ||| GLC_AUDIO_INTERLEAVED, complex := 1 })
    else
      let glc := glc_log alsa_hook.glc GLC_ERROR "alsa_hook"
        "%p: unsupported access mode 0x%02x"
      some (alsa_hook_hw_params_err { alsa_hook with glc := glc } stream ENOTSUP)

/-- The function `alsa_hook_mmap_pos`: the offset in bytes of the returned
pointer from `area->addr`. -/
def alsa_hook_mmap_pos (area : snd_pcm_channel_area_t) (offset : Nat) : Nat :=
  area.first / 8 + offset * (area.step / 8)

/-- The call `memcpy(&to[off], alsa_hook_mmap_pos(area, offset), n)`. -/
def alsa_hook_copy_area (to_data : List UInt8) (off : Nat) (area : snd_pcm_channel_area_t)
    (offset n : Nat) : List UInt8 :=
  store to_data off ((area.addr.drop (alsa_hook_mmap_pos area offset)).take n)

/-- The calls of `memcpy` that the loops of `alsa_hook_complex_to_interleaved`
make, in order: the value of `off`, the channel `c` and the frame `s`. -/
def alsa_hook_complex_writes (stream : alsa_hook_stream_s) (frames : Nat) :
    List (Nat × Nat × Nat) :=
  let add := snd_pcm_frames_to_bytes stream.pcm 1
  (List.range stream.channels).flatMap
    (fun c => (List.range frames).map (fun s => (add * c + s * add, c, s)))

/-- The function `alsa_hook_complex_to_interleaved`: the content of `to` after
the two loops. -/
def alsa_hook_complex_to_interleaved (stream : alsa_hook_stream_s)
    (areas : List snd_pcm_channel_area_t) (offset frames : Nat) (to_data : List UInt8) :
    List UInt8 :=
  let ssize := snd_pcm_samples_to_bytes stream.pcm 1
  (alsa_hook_complex_writes stream frames).foldl
    (fun to_data w =>
      alsa_hook_copy_area to_data w.1 (areas.getD w.2.1 ⟨[], 0, 0⟩) (offset + w.2.2) ssize)
    to_data

def alsa_hook_writei (env : alsa_hook_env) (alsa_hook : alsa_hook_s) (pcm : snd_pcm_t)
    (buffer : List UInt8) (size : Nat) : Option (Nat × alsa_hook_s) :=
  if alsa_hook.flags &&& ALSA_HOOK_CAPTURING = 0 then some (0, alsa_hook) else
  let (alsa_hook, stream) := alsa_hook_get_stream alsa_hook pcm
  if stream.initialized = 0 then
    some (EINVAL, alsa_hook_put_stream alsa_hook (alsa_hook_unlock_write stream).2)
  else
  match alsa_hook_lock_write stream with
  | none => none
  | some (_, stream) =>
    match alsa_hook_wait_for_thread alsa_hook stream with
    | none => none
    | some (ret, glc, stream) =>
      let alsa_hook := { alsa_hook with glc := glc }
      if ret ≠ 0 then
        some (ret, alsa_hook_put_stream alsa_hook (alsa_hook_unlock_write stream).2)
      else
      let (ret, stream) := alsa_hook_set_data_size env stream (snd_pcm_frames_to_bytes pcm size)
      if ret ≠ 0 then
        some (ret, alsa_hook_put_stream alsa_hook (alsa_hook_unlock_write stream).2)
      else
      let stream := { stream with capture_time := env.time }
      let data := store stream.capture_data 0 (buffer.take stream.capture_size)
      let stream := { stream with capture_data := data }
      let stream := { stream with capture_full := stream.capture_full + 1 }
      some (0, alsa_hook_put_stream alsa_hook (alsa_hook_unlock_write stream).2)

def alsa_hook_writen (env : alsa_hook_env) (alsa_hook : alsa_hook_s) (pcm : snd_pcm_t)
    (bufs : List (List UInt8)) (size : Nat) : Option (Nat × alsa_hook_s) :=
  if alsa_hook.flags &&& ALSA_HOOK_CAPTURING = 0 then some (0, alsa_hook) else
  let (alsa_hook, stream) := alsa_hook_get_stream alsa_hook pcm
  if stream.initialized = 0 then
    some (EINVAL, alsa_hook_put_stream alsa_hook (alsa_hook_unlock_write stream).2)
  else
  match alsa_hook_lock_write stream with
  | none => none
  | some (_, stream) =>
    if stream.flags &&& GLC_AUDIO_INTERLEAVED ≠ 0 then
      let glc := glc_log alsa_hook.glc GLC_ERROR "alsa_hook"
        "stream format (interleaved) incompatible with snd_pcm_writen()"
      some (EINVAL,
        alsa_hook_put_stream { alsa_hook with glc := glc } (alsa_hook_unlock_write stream).2)
    else
    match alsa_hook_wait_for_thread alsa_hook stream with
    | none => none
    | some (ret, glc, stream) =>
      let alsa_hook := { alsa_hook with glc := glc }
      if ret ≠ 0 then
        some (ret, alsa_hook_put_stream alsa_hook (alsa_hook_unlock_write stream).2)
      else
      let (ret, stream) := alsa_hook_set_data_size env stream (snd_pcm_frames_to_bytes pcm size)
      if ret ≠ 0 then
        some (ret, alsa_hook_put_stream alsa_hook (alsa_hook_unlock_write stream).2)
      else
      let stream := { stream with capture_time := env.time }
      let n := snd_pcm_samples_to_bytes pcm size
      let data := (List.range stream.channels).foldl
        (fun data c => store data (c * n) ((bufs.getD c []).take n)) stream.capture_data
      let stream := { stream with capture_data := data }
      let stream := { stream with capture_full := stream.capture_full + 1 }
      some (0, alsa_hook_put_stream alsa_hook (alsa_hook_unlock_write stream).2)

def alsa_hook_mmap_begin (alsa_hook : alsa_hook_s) (pcm : snd_pcm_t)
    (areas : Option (List snd_pcm_channel_area_t)) (offset frames : Nat) :
    Option (Nat × alsa_hook_s) :=
  if alsa_hook.flags &&& ALSA_HOOK_CAPTURING = 0 then some (0, alsa_hook) else
  let (alsa_hook, stream) := alsa_hook_get_stream alsa_hook pcm
  if stream.initialized = 0 then
    some (EINVAL, alsa_hook_put_stream alsa_hook (alsa_hook_unlock_write stream).2)
  else
  match alsa_hook_lock_write stream with
  | none => none
  | some (_, stream) =>
    let stream := { stream with mmap_areas := areas, frames := frames, offset := offset }
    some (0, alsa_hook_put_stream alsa_hook (alsa_hook_unlock_write stream).2)

def alsa_hook_mmap_commit (env : alsa_hook_env) (alsa_hook : alsa_hook_s) (pcm : snd_pcm_t)
    (offset frames : Nat) : Option (Nat × alsa_hook_s) :=
  if alsa_hook.flags &&& ALSA_HOOK_CAPTURING = 0 then some (0, alsa_hook) else
  let (alsa_hook, stream) := alsa_hook_get_stream alsa_hook pcm
  match alsa_hook_lock_write stream with
  | none => none
  | some (_, stream) =>
    if stream.channels = 0 then
      /- 0 channels :P -/
      some (0, alsa_hook_put_stream alsa_hook (alsa_hook_unlock_write stream).2)
    else
    match stream.mmap_areas with
    | none =>
      /- this might actually happen -/
      let glc := glc_log alsa_hook.glc GLC_WARNING "alsa_hook"
        "snd_pcm_mmap_commit() before snd_pcm_mmap_begin()"
      some (EINVAL, alsa_hook_put_stream { alsa_hook with glc := glc } stream) /- not locked -/
    | some areas =>
      let glc :=
        if offset ≠ stream.offset then
          glc_log alsa_hook.glc GLC_WARNING "alsa_hook" "offset=%lu != stream->offset=%lu"
        else alsa_hook.glc
      let alsa_hook := { alsa_hook with glc := glc }
      match alsa_hook_wait_for_thread alsa_hook stream with
      | none => none
      | some (ret, glc, stream) =>
        let alsa_hook := { alsa_hook with glc := glc }
        if ret ≠ 0 then
          some (ret, alsa_hook_put_stream alsa_hook (alsa_hook_unlock_write stream).2)
        else
        let (ret, stream) :=
          alsa_hook_set_data_size env stream (snd_pcm_frames_to_bytes pcm frames)
        if ret ≠ 0 then
          some (ret, alsa_hook_put_stream alsa_hook (alsa_hook_unlock_write stream).2)
        else
        let stream := { stream with capture_time := env.time }
        let data :=
          if stream.flags &&& GLC_AUDIO_INTERLEAVED ≠ 0 then
            alsa_hook_copy_area stream.capture_data 0 (areas.getD 0 ⟨[], 0, 0⟩) offset
              stream.capture_size
          else if stream.complex ≠ 0 then
            alsa_hook_complex_to_interleaved stream areas offset frames stream.capture_data
          else
            let n := snd_pcm_samples_to_bytes stream.pcm frames
            (List.range stream.channels).foldl
              (fun data c =>
                alsa_hook_copy_area data (c * n) (areas.getD c ⟨[], 0, 0⟩) offset n)
              stream.capture_data
        let stream := { stream with capture_data := data }
        let stream := { stream with capture_full := stream.capture_full + 1 }
        some (0, alsa_hook_put_stream alsa_hook (alsa_hook_unlock_write stream).2)

/-! ## hook/x11.c -/

def X11_KEY_CTRL : Nat := 1
def X11_KEY_ALT : Nat := 2
def X11_KEY_SHIFT : Nat := 4

/-- The libc function `strncmp` on two C strings, given by their characters before
the terminating NUL: at most `n` characters are compared, and the comparison
stops where both strings end. -/
def strncmp : List Char → List Char → Nat → Int
  | _, _, 0 => 0
  | [], [], _ + 1 => 0
  | [], b :: _, _ + 1 => - (b.toNat : Int)
  | a :: _, [], _ + 1 => (a.toNat : Int)
  | a :: as, b :: bs, n + 1 =>
    if a = b then strncmp as bs n else (a.toNat : Int) - (b.toNat : Int)

/-- The `while` loop of `x11_parse_key` from index `c` on, where `rest` holds the
characters `str[c]`, `str[c + 1]`, ... before the NUL: EINVAL if the loop
returns, else 0, with the final `s` and `*mask`. -/
def x11_parse_key_loop (str : List Char) : List Char → Nat → Nat → Nat → Nat × Nat × Nat
  | [], _, s, mask => (0, s, mask)
  | ch :: rest, c, s, mask =>
    if ch = '<' then x11_parse_key_loop str rest (c + 1) c mask
    else if ch = '>' then
      if strncmp (str.drop s) "<Ctrl>".toList (c - s) = 0 then
        x11_parse_key_loop str rest (c + 1) (c + 1) (mask ||| X11_KEY_CTRL)
      else if strncmp (str.drop s) "<Shift>".toList (c - s) = 0 then
        x11_parse_key_loop str rest (c + 1) (c + 1) (mask ||| X11_KEY_SHIFT)
      else (EINVAL, s, mask)
    else x11_parse_key_loop str rest (c + 1) s mask

/-- The function `x11_parse_key`: return value, `*key` and `*mask`. The libX11
function `XStringToKeysym` is a parameter; it returns 0 (`NoSymbol`) for a name
it does not know. `*key` is given as 0 where the function returns before it
stores the key. -/
def x11_parse_key (XStringToKeysym : List Char → Nat) (str : List Char) : Nat × Nat × Nat :=
  let r := x11_parse_key_loop str str 0 0 0
  if r.1 ≠ 0 then (r.1, 0, r.2.2) else
  let key := XStringToKeysym (str.drop r.2.1)
  if key = 0 then (EINVAL, key, r.2.2) else (0, key, r.2.2)

/-! ## Messages, on-disk frames and drivers used to state the properties -/

/-- Whether the build has the codec compiled in. -/
def codec_compiled (build : pack_build) : pack_write_callback_t → Bool
  | .quicklz => build.quicklz
  | .lzo => build.lzo
  | .lzjb => build.lzjb

/-- The `pack.h` selector of the codec. -/
def codec_selector : pack_write_callback_t → Int
  | .quicklz => PACK_QUICKLZ
  | .lzo => PACK_LZO
  | .lzjb => PACK_LZJB

/-- The message type that tags packets of the codec. -/
def codec_tag : pack_write_callback_t → glc_message_type_t
  | .quicklz => GLC_MESSAGE_QUICKLZ
  | .lzo => GLC_MESSAGE_LZO
  | .lzjb => GLC_MESSAGE_LZJB

/-- The encoder of the codec. -/
def codec_compress (codecs : pack_codecs) : pack_write_callback_t → List UInt8 → List UInt8
  | .quicklz => codecs.quicklz_compress
  | .lzo => codecs.lzo_compress
  | .lzjb => codecs.lzjb_compress

/-- The decoder of the codec on the compressed bytes of a payload of `size`
bytes. -/
def codec_decompress (codecs : pack_codecs) :
    pack_write_callback_t → List UInt8 → Nat → List UInt8
  | .quicklz => codecs.quicklz_decompress
  | .lzo => fun src _ => codecs.lzo_decompress src
  | .lzjb => codecs.lzjb_decompress

/-- The worst-case macro of the codec. -/
def codec_worstcase (codecs : pack_codecs) : pack_write_callback_t → Nat → Nat
  | .quicklz => codecs.quicklz_worstcase
  | .lzo => lzo_worstcase
  | .lzjb => codecs.lzjb_worstcase

/-- The compressor has selected the codec `which`, and the build has it compiled
in: the state in which `pack_init` and every `pack_set_compression` leave a
compressor. -/
def pack_selected (build : pack_build) (pack : pack_s) (which : pack_write_callback_t) :
    Prop :=
  pack.compression = codec_selector which ∧ pack.thread_write_callback = some which
    ∧ codec_compiled build which = true

instance (build : pack_build) (pack : pack_s) (which : pack_write_callback_t) :
    Decidable (pack_selected build pack which) := by
  unfold pack_selected; infer_instance


/-- A stream message: the header type and the payload bytes. -/
structure glc_message where
  header : glc_message_type_t
  data : List UInt8
deriving DecidableEq, Repr

/-- The bytes of a message as a packet of a packet stream: header byte, then
payload. -/
def glc_message.packet (m : glc_message) : List UInt8 := m.header :: m.data

/-- On-disk packet frame of stream version 0x4 as the format description gives
it: `<size: u64><header: u8><payload: size bytes>`, integers little-endian. -/
def frame_v4 (m : glc_message) : List UInt8 :=
  le_bytes 8 m.data.length ++ m.header :: m.data

/-- On-disk packet frame of stream version 0x3 as the format description gives
it: header and size swapped, `<header: u8><size: u64><payload>`. -/
def frame_v3 (m : glc_message) : List UInt8 :=
  m.header :: (le_bytes 8 m.data.length ++ m.data)

/-- The on-disk packet frame of a message in the layout of the stream version. -/
def frame (version : Nat) (m : glc_message) : List UInt8 :=
  if version = 0x03 then frame_v3 m else frame_v4 m

/-- The frames of a message sequence, one after the other, in the layout of the
stream version. -/
def frames (version : Nat) : List glc_message → List UInt8
  | [] => []
  | m :: S => frame version m ++ frames version S

/-- The thread state that the stage worker of the file sink (flags
`GLC_THREAD_READ`, no header callback) hands to its read callback for a packet
with the given header and payload. -/
def file_thread_state (m : glc_message) : glc_thread_state_t :=
  (glc_thread_read ⟨GLC_THREAD_READ, none, none, none, none, none, none⟩
    glc_thread_state_init m.header m.data).2

/-- The file sink on a message sequence: every message is passed through
`file_read_callback` in order. -/
def file_sink (callback : Option callback_request_func_t) (file : file_s) :
    List glc_message → file_s
  | [] => file
  | m :: S => file_sink callback (file_read_callback callback file (file_thread_state m)).2 S

/-- The packets that a run of `file_read` has published, together with its
return value; `none` if the run did not return. -/
def file_read_packets (file : file_s) (to_buf : ps_buffer_t) :
    Option (Nat × List (List UInt8)) :=
  (file_read file to_buf).map (fun r => (r.1, r.2.2.packets))

/-- A buffer after one more packet was opened, written and closed. -/
def ps_buffer_push (buffer : ps_buffer_t) (packet : List UInt8) : ps_buffer_t :=
  { buffer with packets := buffer.packets ++ [packet],
                opens := buffer.opens + 1, closes := buffer.closes + 1 }

/-- What a caller of `file_read` observes besides the descriptor: return value,
log and state, flag word, output buffer. -/
def file_read_view (r : Nat × file_s × ps_buffer_t) : Nat × glc_t × Nat × ps_buffer_t :=
  (r.1, r.2.1.glc, r.2.1.flags, r.2.2)

/-- A source that is open for reading with a stream info header read and found
valid, as `file_read` requires. -/
def file_source_ready (file : file_s) : Prop :=
  0 ≤ file.fd ∧ file.flags &&& FILE_READING ≠ 0 ∧ file.flags &&& FILE_INFO_READ ≠ 0
    ∧ file.flags &&& FILE_INFO_VALID ≠ 0

instance (file : file_s) : Decidable (file_source_ready file) := by
  unfold file_source_ready; infer_instance

/-- The codec message that stands for `m` after compression with the codec:
the codec tag as header; as payload the codec header (uncompressed size,
original message header) and the compressed bytes. -/
def codec_message (codecs : pack_codecs) (which : pack_write_callback_t)
    (m : glc_message) : glc_message :=
  ⟨codec_tag which,
   le_bytes 8 m.data.length ++ m.header :: codec_compress codecs which m.data⟩

/-- The packet that a stage worker publishes for an input packet (header byte
and payload), with its return value: one loop iteration entered with a
cleared thread state. -/
def glc_thread_stage (thread : glc_thread_t) (arena : Nat → UInt8)
    (header : glc_message_type_t) (data : List UInt8) : Nat × Option (List UInt8) :=
  let r := glc_thread_iteration thread arena glc_thread_state_init header data
  (r.1, r.2.1)

/-- The frame nested in a CONTAINER packet, as a packet: the header byte of the
container header, then `size` payload bytes. This is what `file_read` publishes
for the bytes that `file_read_callback` writes for the CONTAINER packet. Any
other packet is left as it is. -/
def container_unwrap (packet : List UInt8) : List UInt8 :=
  match packet with
  | [] => []
  | h :: data =>
    if h = GLC_MESSAGE_CONTAINER then
      data.getD 8 0 :: (data.drop 9).take (load_le data 0 8)
    else packet

/-- The compressor stage followed directly by the decompressor stage, on one
message: the packet that comes out, if both stages return 0. -/
def pack_unpack_direct (build : pack_build) (codecs : pack_codecs) (pack : pack_s)
    (arena : Nat → UInt8) (m : glc_message) : Option (List UInt8) :=
  match glc_thread_stage (pack_thread build codecs pack) arena m.header m.data with
  | (0, some (h :: data)) =>
    match glc_thread_stage (unpack_thread build codecs) arena h data with
    | (0, some packet) => some packet
    | _ => none
  | _ => none

/-- The compressor stage followed by the decompressor stage on one message, with
every CONTAINER packet unwrapped in between. -/
def pack_unpack_unwrapped (build : pack_build) (codecs : pack_codecs) (pack : pack_s)
    (arena : Nat → UInt8) (m : glc_message) : Option (List UInt8) :=
  match glc_thread_stage (pack_thread build codecs pack) arena m.header m.data with
  | (0, some packet) =>
    match container_unwrap packet with
    | h :: data =>
      match glc_thread_stage (unpack_thread build codecs) arena h data with
      | (0, some packet) => some packet
      | _ => none
    | [] => none
  | _ => none

/-- A build with the three codecs compiled in. -/
def example_build : pack_build := ⟨true, true, true⟩

/-- Codecs that store the bytes as they are: each decoder inverts its encoder,
and the worst case of `n` bytes is `n` bytes (for LZO the macro of `pack.c`
applies). -/
def example_codecs : pack_codecs :=
  { lzo_compress := id
    lzo_decompress := id
    quicklz_compress := id
    quicklz_decompress := fun src size => src.take size
    quicklz_worstcase := id
    lzjb_compress := id
    lzjb_decompress := fun src d_len => src.take d_len
    lzjb_worstcase := id }

/-- A compressor after `pack_init` on `example_build` (which selects QuickLZ) and
`pack_set_minimum_size` with threshold 2. -/
def example_pack : pack_s :=
  (pack_set_minimum_size (pack_init example_build ⟨[], false⟩).2 2).2

/-- The thread state that the stage worker hands to the read callback of the
compressor for a VIDEO_FRAME packet with the payload [1, 2]. -/
def example_read_state : glc_thread_state_t :=
  ⟨0, GLC_MESSAGE_VIDEO_FRAME, [1, 2], [], 2, 2⟩

/-- The thread state that the stage worker hands to the write callback of the
compressor for a VIDEO_FRAME packet with the payload [1, 2, 3] and a
worst case of three bytes: a write area of 21 bytes. -/
def example_write_state : glc_thread_state_t :=
  ⟨0, GLC_MESSAGE_VIDEO_FRAME, [1, 2, 3], dma_area (fun _ => 0xee) 21, 3, 21⟩

/-- A CALLBACK_REQUEST message whose argument is the null pointer. -/
def example_request : glc_message := ⟨GLC_CALLBACK_REQUEST, [0, 0, 0, 0, 0, 0, 0, 0]⟩

/-- The surroundings of a loop iteration in which every packet operation
succeeds, the input packet is the message `m`, and no cancel or stop is seen. -/
def example_env (m : glc_message) : glc_thread_env :=
  { op := fun _ => 0, header := m.header, data := m.data, arena := fun _ => 0,
    cancel := false, stop := false }

/-- Return values of the packet operations: `r` at the call site `site`, 0 at
every other. -/
def example_op (site : glc_thread_site) (r : Nat) : glc_thread_site → Nat :=
  fun s => if s = site then r else 0

/-- A sink with an open target (descriptor 3) whose worker is running. -/
def example_sink : file_s :=
  { file_init ⟨[], false⟩ with
    fd := 3, flags := FILE_WRITING ||| FILE_INFO_WRITTEN ||| FILE_RUNNING }

/-- A source (descriptor 3) whose stream info was read and found valid, about to
deliver `bytes` in the frame layout of stream version `version`. -/
def example_source (version : Nat) (bytes : List UInt8) : file_s :=
  { file_init ⟨[], false⟩ with
    fd := 3, flags := FILE_READING ||| FILE_INFO_READ ||| FILE_INFO_VALID,
    stream_version := version, fd_in := bytes }

/-- A stream info header with the signature 'G','L','C',0, the given version
byte and all other fields zero. -/
def example_prologue (version : UInt8) : List UInt8 :=
  [0x47, 0x4c, 0x43, 0x00, version, 0, 0, 0] ++ List.replicate 40 0

/-- A message sequence with a CALLBACK_REQUEST, a CONTAINER that wraps an LZO
message, and the final CLOSE. -/
def example_wrapped : List glc_message :=
  [⟨GLC_CALLBACK_REQUEST, [0, 0, 0, 0, 0, 0, 0, 0]⟩,
   ⟨GLC_MESSAGE_CONTAINER,
    [10, 0, 0, 0, 0, 0, 0, 0, 0x04, 1, 0, 0, 0, 0, 0, 0, 0, 0x02, 0xaa]⟩,
   ⟨GLC_MESSAGE_CLOSE, []⟩]

/-- A VIDEO_FORMAT message: stream 1, no flags, 320 x 240, BGR. -/
def example_format : glc_message :=
  ⟨GLC_MESSAGE_VIDEO_FORMAT, [1, 0, 0, 0, 0, 0, 0, 0, 0x40, 1, 0, 0, 0xf0, 0, 0, 0, 1]⟩

/-- A VIDEO_FRAME message with a payload of three bytes. -/
def example_video : glc_message := ⟨GLC_MESSAGE_VIDEO_FRAME, [1, 2, 3]⟩

/-- The CLOSE message. -/
def example_close : glc_message := ⟨GLC_MESSAGE_CLOSE, []⟩

/-- A PCM handle with frames of four bytes and samples of two bytes. -/
def example_pcm : snd_pcm_t := ⟨1, 4, 2⟩

/-- Hardware parameters S16_LE, 44100 Hz, two channels, RW_INTERLEAVED; all
getters succeed. -/
def example_hw_params : snd_pcm_hw_params_t :=
  ⟨(0, SND_PCM_FORMAT_S16_LE), (0, 44100), (0, 2), (0, 1024), (0, SND_PCM_ACCESS_RW_INTERLEAVED)⟩

/-- The state of the hook after `alsa_hook_init`, `alsa_hook_set_buffer`,
`alsa_hook_allow_skip`, `alsa_hook_open` of `example_pcm` with `mode`,
`alsa_hook_hw_params` with `params` and `alsa_hook_start`. -/
def example_alsa_hook (mode : Nat) (allow_skip : Int) (params : snd_pcm_hw_params_t) :
    alsa_hook_s :=
  let h := (alsa_hook_set_buffer (alsa_hook_init ⟨[], false⟩) ps_buffer_init).2
  let h := (alsa_hook_allow_skip h allow_skip).2
  let h := (alsa_hook_open h example_pcm mode).2
  let h := ((alsa_hook_hw_params h example_pcm params).map (fun r => r.2)).getD h
  (alsa_hook_start h).2

/-- The record of `example_pcm` in a hook. -/
def example_alsa_stream (alsa_hook : alsa_hook_s) : alsa_hook_stream_s :=
  (alsa_hook_get_stream alsa_hook example_pcm).2

/-- Hardware parameters whose sample format is `SND_PCM_FORMAT_S8` (value 0),
which `pcm_fmt_to_glc_fmt` does not know. -/
def example_hw_params_s8 : snd_pcm_hw_params_t :=
  ⟨(0, 0), (0, 44100), (0, 2), (0, 1024), (0, SND_PCM_ACCESS_RW_INTERLEAVED)⟩

/-- The state of a hook that is not started yet, after `alsa_hook_init`,
`alsa_hook_set_buffer`, `alsa_hook_open` of `example_pcm` and a successful
`alsa_hook_hw_params` with `example_hw_params`. -/
def example_alsa_hook_configured : alsa_hook_s :=
  let h := (alsa_hook_set_buffer (alsa_hook_init ⟨[], false⟩) ps_buffer_init).2
  let h := (alsa_hook_open h example_pcm 0).2
  ((alsa_hook_hw_params h example_pcm example_hw_params).map (fun r => r.2)).getD h

/-- The state of `example_alsa_hook_configured` after a further call of
`alsa_hook_hw_params` with `example_hw_params_s8`. -/
def example_alsa_hook_reconfigured : alsa_hook_s :=
  ((alsa_hook_hw_params example_alsa_hook_configured example_pcm example_hw_params_s8).map
    (fun r => r.2)).getD example_alsa_hook_configured

/-- A second PCM handle. -/
def example_pcm_other : snd_pcm_t := ⟨2, 4, 2⟩

/-- The surroundings of a call at time 7 in which allocation succeeds. -/
def example_alsa_env : alsa_hook_env := ⟨7, true⟩

/-- The state of the hook `example_alsa_hook 0 1 example_hw_params` (a stream
that is not in async mode, ALLOW_SKIP set) after one `alsa_hook_writei`, which
the capture thread has not taken yet. -/
def example_alsa_hook_full : alsa_hook_s :=
  ((alsa_hook_writei example_alsa_env (example_alsa_hook 0 1 example_hw_params) example_pcm
    [1, 2, 3, 4] 1).map (fun r => r.2)).getD (example_alsa_hook 0 1 example_hw_params)

/-- Hardware parameters S16_LE, 44100 Hz, two channels, MMAP_COMPLEX. -/
def example_hw_params_complex : snd_pcm_hw_params_t :=
  ⟨(0, SND_PCM_FORMAT_S16_LE), (0, 44100), (0, 2), (0, 1024), (0, SND_PCM_ACCESS_MMAP_COMPLEX)⟩

/-- Two channel areas in separate memory, samples of two bytes one after the
other (step 16 bits). -/
def example_areas : List snd_pcm_channel_area_t :=
  [⟨[10, 11, 12, 13, 14, 15, 16, 17], 0, 16⟩, ⟨[20, 21, 22, 23, 24, 25, 26, 27], 0, 16⟩]

/-- The state of the hook `example_alsa_hook 0 0 example_hw_params_complex` after
`alsa_hook_mmap_begin` recorded `example_areas` for two frames at offset 0. -/
def example_alsa_hook_begun : alsa_hook_s :=
  ((alsa_hook_mmap_begin (example_alsa_hook 0 0 example_hw_params_complex) example_pcm
    (some example_areas) 0 2).map (fun r => r.2)).getD
      (example_alsa_hook 0 0 example_hw_params_complex)

/-- The state of the hook after `alsa_hook_init`, `alsa_hook_set_buffer` and
`alsa_hook_open` of `example_pcm`. -/
def example_alsa_hook_opened : alsa_hook_s :=
  (alsa_hook_open (alsa_hook_set_buffer (alsa_hook_init ⟨[], false⟩) ps_buffer_init).2
    example_pcm 0).2

/-- A stream record of two channels on a PCM handle with frames of two bytes and
samples of one byte. -/
def example_alsa_stream_small : alsa_hook_stream_s :=
  { alsa_hook_stream_new ⟨1, 2, 1⟩ with channels := 2 }

/-- A descriptor table in which descriptor 3 is a file of three bytes with the
file offset at 2, not locked by anyone. -/
def example_os : os_table := [none, none, none, some ⟨[1, 2, 3], 2, false, false⟩]

/-- An empty stream info header with signature and version 0x4. -/
def example_info : glc_stream_info_t := ⟨GLC_SIGNATURE, 0x4, 0, 0, 0, 0, 0, 0, 0⟩

/-- The value of `XK_F8` in `X11/keysymdef.h`. -/
def XK_F8 : Nat := 0xffc5

/-- A keysym table that knows the names F8 and F9. -/
def example_keysym (name : List Char) : Nat :=
  if name = "F8".toList then XK_F8 else if name = "F9".toList then 0xffc6 else 0

/-- Surroundings of `file_read` that disturb one packet call: `r` at the call
`site` of the first iteration, nothing anywhere else. -/
def example_file_op (site : file_read_site) (r : Nat) : Nat → file_read_site → Nat :=
  fun i s => if i = 0 ∧ s = site then r else 0

/-- The compressor stage with a close callback that fails with EINVAL. -/
def example_thread_close : glc_thread_t :=
  { pack_thread example_build example_codecs example_pack with
    close_callback := some (fun state => (EINVAL, state)) }

/-! ## Lemmas: bytes, flag words -/

theorem le_bytes_length (k n : Nat) : (le_bytes k n).length = k := by
  induction k generalizing n with
  | zero => rfl
  | succ k ih => simp [le_bytes, ih]

theorem uint8_ofNat_toNat (n : Nat) : (UInt8.ofNat n).toNat = n % 256 := by
  simp [UInt8.ofNat, UInt8.toNat]

theorem le_value_le_bytes (k n : Nat) : le_value (le_bytes k n) = n % 256 ^ k := by
  induction k generalizing n with
  | zero => simp [le_bytes, le_value, Nat.mod_one]
  | succ k ih =>
    simp only [le_bytes, le_value, ih, uint8_ofNat_toNat]
    rw [pow_succ', Nat.mod_mul]

theorem le_value_le_bytes_8 (n : Nat) (h : n < 2 ^ 64) : le_value (le_bytes 8 n) = n := by
  rw [le_value_le_bytes]
  exact Nat.mod_eq_of_lt (by simpa using h)

theorem store_end (mem bytes : List UInt8) : store mem mem.length bytes = mem ++ bytes := by
  simp [store]

theorem file_read_frame_head_v4 (file : file_s) (m : glc_message) (tail : List UInt8)
    (hv : file.stream_version ≠ 0x03) (hin : file.fd_in = frame_v4 m ++ tail)
    (hsz : m.data.length < 2 ^ 64) :
    file_read_frame_head file
      = (some (m.header, m.data.length), { file with fd_in := m.data ++ tail }) := by
  have h8 : (le_bytes 8 m.data.length).length = 8 := le_bytes_length _ _
  simp only [file_read_frame_head, if_neg hv, os_read, hin, frame_v4, sizeof_glc_size_t,
    sizeof_glc_message_header_t, List.append_assoc]
  rw [List.take_left' h8, List.drop_left' h8]
  simp [h8, le_value_le_bytes_8 _ hsz]

theorem file_read_frame_head_v3 (file : file_s) (m : glc_message) (tail : List UInt8)
    (hv : file.stream_version = 0x03) (hin : file.fd_in = frame_v3 m ++ tail)
    (hsz : m.data.length < 2 ^ 64) :
    file_read_frame_head file
      = (some (m.header, m.data.length), { file with fd_in := m.data ++ tail }) := by
  have h8 : (le_bytes 8 m.data.length).length = 8 := le_bytes_length _ _
  simp only [file_read_frame_head, if_pos hv, os_read, hin, frame_v3, sizeof_glc_size_t,
    sizeof_glc_message_header_t, List.append_assoc, List.cons_append, List.take_succ_cons,
    List.take_zero, List.drop_succ_cons, List.drop_zero]
  rw [List.take_left' h8, List.drop_left' h8]
  simp [h8, le_value_le_bytes_8 _ hsz]


theorem file_read_frame_head_frame (file : file_s) (m : glc_message) (tail : List UInt8)
    (hin : file.fd_in = frame file.stream_version m ++ tail) (hsz : m.data.length < 2 ^ 64) :
    file_read_frame_head file
      = (some (m.header, m.data.length), { file with fd_in := m.data ++ tail }) := by
  by_cases hv : file.stream_version = 0x03
  · exact file_read_frame_head_v3 file m tail hv (by simpa [frame, hv] using hin) hsz
  · exact file_read_frame_head_v4 file m tail hv (by simpa [frame, hv] using hin) hsz

/-- One iteration of the loop of `file_read` on a complete frame. -/
theorem file_read_loop_frame (fuel : Nat) (file : file_s) (packet : ps_packet_t)
    (to_buf : ps_buffer_t) (m : glc_message) (tail : List UInt8)
    (hin : file.fd_in = frame file.stream_version m ++ tail) (hsz : m.data.length < 2 ^ 64) :
    file_read_loop (fuel + 1) file packet to_buf =
      if to_buf.cancelled then
        some (file_read_err EINTR { file with fd_in := m.data ++ tail } to_buf)
      else if m.header ≠ GLC_MESSAGE_CLOSE ∧ ¬ file.glc.cancel then
        file_read_loop fuel { file with fd_in := tail }
          ⟨false, m.packet, 1 + m.data.length⟩ (ps_buffer_push to_buf m.packet)
      else some (file_read_finish { file with fd_in := tail } (ps_buffer_push to_buf m.packet)) := by
  rw [file_read_loop, file_read_frame_head_frame file m tail hin hsz]
  by_cases hc : to_buf.cancelled = true
  · simp [ps_packet_open_write, hc, EINTR]
  · simp only [Bool.not_eq_true] at hc
    have hd : List.drop (1 + m.data.length) [m.header] = [] :=
      List.drop_eq_nil_of_le (by simp)
    simp [hd, ps_packet_open_write, hc, ps_packet_write, ps_packet_dma, ps_dma_store, os_read,
      ps_packet_close, store, ps_buffer_push, glc_message.packet]


theorem file_read_frame_head_fd_in (file : file_s) :
    (file_read_frame_head file).2.fd_in.length ≤ file.fd_in.length
    ∧ ∀ r, (file_read_frame_head file).1 = some r →
        (file_read_frame_head file).2.fd_in.length + 9 = file.fd_in.length := by
  unfold file_read_frame_head
  simp only [os_read, sizeof_glc_size_t, sizeof_glc_message_header_t]
  split_ifs <;> simp_all <;> omega


/-- The loop of `file_read` returns whenever the iteration bound exceeds the
number of bytes left in the descriptor. -/
theorem file_read_loop_isSome (fuel : Nat) (file : file_s) (packet : ps_packet_t)
    (to_buf : ps_buffer_t) (h : file.fd_in.length < fuel) :
    (file_read_loop fuel file packet to_buf).isSome = true := by
  induction fuel generalizing file packet to_buf with
  | zero => omega
  | succ fuel ih =>
    have hfd := file_read_frame_head_fd_in file
    rw [file_read_loop]
    rcases hfh : file_read_frame_head file with ⟨o, f1⟩
    rw [hfh] at hfd
    cases o with
    | none => simp
    | some r =>
      obtain ⟨header, glc_ps⟩ := r
      have h9 := hfd.2 _ rfl
      simp only
      split_ifs <;> try simp
      apply ih
      simp only [os_read, List.length_drop]
      simp only at h9
      omega

theorem file_read_isSome (file : file_s) (to_buf : ps_buffer_t) :
    (file_read file to_buf).isSome = true := by
  unfold file_read
  split_ifs <;> try simp
  exact file_read_loop_isSome _ _ _ _ (Nat.lt_succ_self _)


theorem file_read_frame_head_nil (file : file_s) (hin : file.fd_in = []) :
    file_read_frame_head file = (none, file) := by
  unfold file_read_frame_head
  have : file = { file with fd_in := [] } := by rw [← hin]
  split_ifs <;> simp [os_read, hin, sizeof_glc_size_t, sizeof_glc_message_header_t] <;>
    exact this.symm

theorem frames_length_eq (v w : Nat) (S : List glc_message) :
    (frames v S).length = (frames w S).length := by
  induction S with
  | nil => rfl
  | cons m S ih =>
    simp only [frames, List.length_append, ih, frame]
    split_ifs <;> simp [frame_v3, frame_v4] <;> omega

theorem file_read_loop_versions (S : List glc_message)
    (hS : ∀ m ∈ S, m.data.length < 2 ^ 64) (fuel : Nat) (f3 f4 : file_s)
    (packet : ps_packet_t) (to_buf : ps_buffer_t)
    (hglc : f3.glc = f4.glc) (hflags : f3.flags = f4.flags)
    (hin3 : f3.fd_in = frames f3.stream_version S)
    (hin4 : f4.fd_in = frames f4.stream_version S) :
    (file_read_loop fuel f3 packet to_buf).map file_read_view
      = (file_read_loop fuel f4 packet to_buf).map file_read_view := by
  induction S generalizing fuel f3 f4 packet to_buf with
  | nil =>
    cases fuel with
    | zero => simp [file_read_loop]
    | succ fuel =>
      simp only [frames] at hin3 hin4
      rw [file_read_loop, file_read_loop, file_read_frame_head_nil f3 hin3,
        file_read_frame_head_nil f4 hin4]
      simp [file_read_send_eof, file_read_finish, file_read_view, hglc, hflags]
  | cons m S ih =>
    cases fuel with
    | zero => simp [file_read_loop]
    | succ fuel =>
      have hm : m.data.length < 2 ^ 64 := hS m (List.mem_cons_self _ _)
      rw [file_read_loop_frame fuel f3 packet to_buf m _ hin3 hm,
        file_read_loop_frame fuel f4 packet to_buf m _ hin4 hm, hglc]
      split_ifs
      · simp [file_read_err, file_read_finish, file_read_view, hglc, hflags]
      · exact ih (fun x hx => hS x (List.mem_cons_of_mem _ hx)) fuel _ _ _ _ (by simp [hglc]) hflags rfl rfl
      · simp [file_read_finish, file_read_view, hglc, hflags]


theorem file_read_of_ready (file : file_s) (to_buf : ps_buffer_t) (h : file_source_ready file) :
    file_read file to_buf = file_read_loop (file.fd_in.length + 1) file ps_packet_init to_buf := by
  obtain ⟨h1, h2, h3, h4⟩ := h
  unfold file_read
  rw [if_neg, if_neg h3, if_neg h4]
  simp only [not_or, not_lt]
  exact ⟨h1, h2⟩

theorem frames_append (v : Nat) (S T : List glc_message) :
    frames v (S ++ T) = frames v S ++ frames v T := by
  induction S with
  | nil => rfl
  | cons m S ih => simp [frames, ih]

theorem frame_length (v : Nat) (m : glc_message) : (frame v m).length = 9 + m.data.length := by
  unfold frame
  split_ifs <;> simp [frame_v3, frame_v4, le_bytes_length] <;> omega

theorem frames_length_ge (v : Nat) (S : List glc_message) :
    S.length ≤ (frames v S).length := by
  induction S with
  | nil => simp
  | cons m S ih =>
    simp only [frames, List.length_append, List.length_cons, frame_length]
    omega

theorem file_read_loop_frames (pre : List glc_message)
    (hpre : ∀ x ∈ pre, x.header ≠ GLC_MESSAGE_CLOSE ∧ x.data.length < 2 ^ 64)
    (fuel : Nat) (file : file_s) (packet : ps_packet_t) (to_buf : ps_buffer_t)
    (tail : List UInt8)
    (hin : file.fd_in = frames file.stream_version pre ++ tail)
    (hcancel : file.glc.cancel = false) (hto : to_buf.cancelled = false) :
    ∃ packet1 to1, to1.packets = to_buf.packets ++ pre.map glc_message.packet
      ∧ to1.cancelled = false
      ∧ to1.opens = to_buf.opens + pre.length ∧ to1.closes = to_buf.closes + pre.length
      ∧ file_read_loop (fuel + pre.length) file packet to_buf
        = file_read_loop fuel { file with fd_in := tail } packet1 to1 := by
  induction pre generalizing file packet to_buf with
  | nil => exact ⟨packet, to_buf, by simp, hto, rfl, rfl, by simp [frames] at hin; simp [← hin]⟩
  | cons m pre ih =>
    obtain ⟨hmc, hms⟩ := hpre m (List.mem_cons_self _ _)
    have hin1 : file.fd_in = frame file.stream_version m
        ++ (frames file.stream_version pre ++ tail) := by
      simp [hin, frames]
    have hstep := file_read_loop_frame (fuel + pre.length) file packet to_buf m _ hin1 hms
    simp only [hto, hmc, hcancel] at hstep
    simp only [Bool.false_eq_true, if_false, ne_eq, not_false_eq_true, and_self, if_true] at hstep
    obtain ⟨p1, t1, h1, h2, h3, h4, h5⟩ :=
      ih (fun x hx => hpre x (List.mem_cons_of_mem _ hx))
        { file with fd_in := frames file.stream_version pre ++ tail }
        ⟨false, m.packet, 1 + m.data.length⟩ (ps_buffer_push to_buf m.packet) rfl hcancel
        (by simp [ps_buffer_push, hto])
    refine ⟨p1, t1, ?_, h2, ?_, ?_, ?_⟩
    · simp [h1, ps_buffer_push]
    · simp [h3, ps_buffer_push]; omega
    · simp [h4, ps_buffer_push]; omega
    · rw [List.length_cons, ← Nat.add_assoc, hstep, if_pos ⟨hmc, trivial⟩, h5]


theorem file_thread_state_eq (m : glc_message) :
    file_thread_state m = ⟨0, m.header, m.data, [], m.data.length, m.data.length⟩ := by
  simp [file_thread_state, glc_thread_read, glc_thread_state_init, glc_thread_call,
    GLC_THREAD_READ, GLC_THREAD_STATE_SKIP_READ, sizeof_glc_message_header_t]

theorem file_read_callback_plain (callback : Option callback_request_func_t) (file : file_s)
    (m : glc_message) (h1 : m.header ≠ GLC_CALLBACK_REQUEST)
    (h2 : m.header ≠ GLC_MESSAGE_CONTAINER) (hs : m.data.length < 2 ^ 64) :
    file_read_callback callback file (file_thread_state m)
      = (0, { file with
                state_tracker :=
                  tracker_submit file.state_tracker m.header m.data m.data.length,
                fd_out := file.fd_out ++ frame_v4 m }) := by
  rw [file_thread_state_eq]
  have hmod : m.data.length % 18446744073709551616 = m.data.length :=
    Nat.mod_eq_of_lt (by simpa using hs)
  have htake : ∀ n, List.take 8 (le_bytes 8 n) = le_bytes 8 n :=
    fun n => List.take_of_length_le (by simp [le_bytes_length])
  simp [file_read_callback, h1, h2, os_write, hmod, htake, frame_v4,
    sizeof_glc_size_t, sizeof_glc_message_header_t]

theorem file_sink_plain (callback : Option callback_request_func_t) (S : List glc_message)
    (file : file_s)
    (hS : ∀ m ∈ S, m.header ≠ GLC_CALLBACK_REQUEST ∧ m.header ≠ GLC_MESSAGE_CONTAINER
      ∧ m.data.length < 2 ^ 64) :
    (file_sink callback file S).fd_out = file.fd_out ++ frames GLC_STREAM_VERSION S := by
  induction S generalizing file with
  | nil => simp [file_sink, frames]
  | cons m S ih =>
    obtain ⟨h1, h2, h3⟩ := hS m (List.mem_cons_self _ _)
    rw [file_sink, file_read_callback_plain callback file m h1 h2 h3,
      ih _ (fun x hx => hS x (List.mem_cons_of_mem _ hx))]
    simp [frames, frame, GLC_STREAM_VERSION]


theorem file_read_frames (pre : List glc_message)
    (hpre : ∀ x ∈ pre, x.header ≠ GLC_MESSAGE_CLOSE ∧ x.data.length < 2 ^ 64)
    (file : file_s) (to_buf : ps_buffer_t) (tail : List UInt8)
    (hready : file_source_ready file)
    (hin : file.fd_in = frames file.stream_version pre ++ tail)
    (hcancel : file.glc.cancel = false) (hto : to_buf.cancelled = false) :
    ∃ fuel packet1 to1, to1.packets = to_buf.packets ++ pre.map glc_message.packet
      ∧ to1.cancelled = false
      ∧ to1.opens = to_buf.opens + pre.length ∧ to1.closes = to_buf.closes + pre.length
      ∧ file_read file to_buf
        = file_read_loop (fuel + 1) { file with fd_in := tail } packet1 to1 := by
  have hlen : file.fd_in.length = (frames file.stream_version pre).length + tail.length := by
    rw [hin, List.length_append]
  have hge := frames_length_ge file.stream_version pre
  obtain ⟨p1, t1, h1, h2, h3, h4, h5⟩ :=
    file_read_loop_frames pre hpre (file.fd_in.length - pre.length + 1) file ps_packet_init
      to_buf tail hin hcancel hto
  refine ⟨file.fd_in.length - pre.length, p1, t1, h1, h2, h3, h4, ?_⟩
  rw [file_read_of_ready file to_buf hready, ← h5]
  congr 1
  omega


theorem file_read_frame_head_v4_raw (file : file_s) (n : Nat) (h : glc_message_type_t)
    (rest : List UInt8) (hv : file.stream_version ≠ 0x03)
    (hin : file.fd_in = le_bytes 8 n ++ h :: rest) (hn : n < 2 ^ 64) :
    file_read_frame_head file = (some (h, n), { file with fd_in := rest }) := by
  have h8 : (le_bytes 8 n).length = 8 := le_bytes_length _ _
  simp only [file_read_frame_head, if_neg hv, os_read, hin, sizeof_glc_size_t,
    sizeof_glc_message_header_t]
  rw [List.take_left' h8, List.drop_left' h8]
  simp [h8, le_value_le_bytes_8 _ hn]

theorem file_read_frame_head_short (file : file_s) (hv : file.stream_version ≠ 0x03)
    (hlen : file.fd_in.length < 9) : (file_read_frame_head file).1 = none := by
  unfold file_read_frame_head
  simp only [if_neg hv, os_read, sizeof_glc_size_t, sizeof_glc_message_header_t]
  split_ifs <;> simp_all
  omega

theorem frame_v4_take (m : glc_message) (k : Nat) (hk : 9 ≤ k) :
    (frame_v4 m).take k = le_bytes 8 m.data.length ++ m.header :: m.data.take (k - 9) := by
  have h8 : (le_bytes 8 m.data.length).length = 8 := le_bytes_length _ _
  obtain ⟨j, rfl⟩ : ∃ j, k = j + 9 := ⟨k - 9, by omega⟩
  rw [frame_v4, List.take_append_eq_append_take, h8,
    List.take_of_length_le (by omega : (le_bytes 8 m.data.length).length ≤ j + 9)]
  simp [show j + 9 - 8 = j + 1 by omega]

/-- C1 (amended): for every message sequence that ends in CLOSE, has no other
CLOSE, and contains no CONTAINER and no CALLBACK_REQUEST message (payloads
shorter than 2^64 bytes), passing each message through `file_read_callback`
and decoding the bytes written with `file_read` at stream version 0x4 returns 0
and publishes exactly the packets of the sequence, in order. -/
theorem file_sink_source_roundtrip (callback : Option callback_request_func_t)
    (sink src : file_s) (to_buf : ps_buffer_t) (S : List glc_message) (c : glc_message)
    (hS : ∀ m ∈ S, m.header ≠ GLC_MESSAGE_CLOSE ∧ m.data.length < 2 ^ 64)
    (hplain : ∀ m ∈ S ++ [c], m.header ≠ GLC_CALLBACK_REQUEST
      ∧ m.header ≠ GLC_MESSAGE_CONTAINER ∧ m.data.length < 2 ^ 64)
    (hc : c.header = GLC_MESSAGE_CLOSE)
    (hsink : sink.fd_out = [])
    (hready : file_source_ready src) (hv : src.stream_version = GLC_STREAM_VERSION)
    (hin : src.fd_in = (file_sink callback sink (S ++ [c])).fd_out)
    (hcancel : src.glc.cancel = false) (hto : to_buf.cancelled = false) :
    file_read_packets src to_buf
      = some (0, to_buf.packets ++ (S ++ [c]).map glc_message.packet) := by
  have hcs : c.data.length < 2 ^ 64 := (hplain c (by simp)).2.2
  have hin1 : src.fd_in = frames src.stream_version S ++ (frame src.stream_version c ++ []) := by
    rw [hin, file_sink_plain callback _ sink hplain, hsink, hv, frames_append]
    simp [frames]
  obtain ⟨fuel, p1, t1, h1, h2, -, -, h5⟩ :=
    file_read_frames S hS src to_buf _ hready hin1 hcancel hto
  rw [file_read_packets, h5, file_read_loop_frame fuel _ p1 t1 c [] rfl hcs]
  simp [h2, hc, file_read_finish, ps_buffer_push, h1]

/-- C4: for every message sequence (payloads shorter than 2^64 bytes), `file_read`
on the version-0x3 byte stream `<header><size><payload>` returns, and returns
the same value, logs the same, leaves the same flag word and the same output
buffer, hence the same sequence of packets, as `file_read` on the version-0x4
byte stream `<size><header><payload>` of the same messages. -/
theorem file_read_version_3_eq_version_4 (file : file_s) (to_buf : ps_buffer_t)
    (S : List glc_message) (hS : ∀ m ∈ S, m.data.length < 2 ^ 64) :
    (file_read { file with stream_version := 0x03, fd_in := frames 0x03 S } to_buf).isSome
      = true
    ∧ (file_read { file with stream_version := 0x03, fd_in := frames 0x03 S } to_buf).map
        file_read_view
      = (file_read { file with stream_version := GLC_STREAM_VERSION,
                               fd_in := frames GLC_STREAM_VERSION S } to_buf).map
        file_read_view := by
  refine ⟨file_read_isSome _ _, ?_⟩
  unfold file_read
  simp only [frames_length_eq 0x03 GLC_STREAM_VERSION S]
  split_ifs
  · simp [file_read_view]
  · simp [file_read_view]
  · simp [file_read_view]
  · exact file_read_loop_versions S hS _ _ _ _ _ rfl rfl rfl rfl


/-- C6 (amended): for a version-0x4 stream whose complete frames (none of them
CLOSE) are followed by a frame cut after `k` of its bytes, `file_read`
publishes the complete frames that precede the cut and then: if the cut lies
in the size field or the header byte (`k < 9`), exactly one synthetic CLOSE
packet, returning 0; if the cut lies in the payload (`9 ≤ k`), no further
packet, and it cancels the output buffer and returns EBADMSG. -/
theorem file_read_truncated (src : file_s) (to_buf : ps_buffer_t)
    (pre : List glc_message) (m : glc_message) (k : Nat)
    (hready : file_source_ready src) (hv : src.stream_version = GLC_STREAM_VERSION)
    (hcancel : src.glc.cancel = false) (hto : to_buf.cancelled = false)
    (hpre : ∀ x ∈ pre, x.header ≠ GLC_MESSAGE_CLOSE ∧ x.data.length < 2 ^ 64)
    (hm : m.data.length < 2 ^ 64) (hk : k < (frame_v4 m).length)
    (hin : src.fd_in = frames GLC_STREAM_VERSION pre ++ (frame_v4 m).take k) :
    (k < 9 → file_read_packets src to_buf
        = some (0, to_buf.packets ++ pre.map glc_message.packet ++ [[GLC_MESSAGE_CLOSE]]))
    ∧ (9 ≤ k → (file_read src to_buf).map (fun r => (r.1, r.2.2.packets, r.2.2.cancelled))
        = some (EBADMSG, to_buf.packets ++ pre.map glc_message.packet, true)) := by
  have hv3 : src.stream_version ≠ 0x03 := by rw [hv]; decide
  obtain ⟨fuel, p1, t1, h1, h2, -, -, h5⟩ :=
    file_read_frames pre hpre src to_buf _ hready (by rw [hv]; exact hin) hcancel hto
  have hlen : (frame_v4 m).length = 9 + m.data.length := by
    simpa [frame, GLC_STREAM_VERSION] using frame_length GLC_STREAM_VERSION m
  constructor
  · intro hk9
    have hshort := file_read_frame_head_short { src with fd_in := (frame_v4 m).take k } hv3
      (by simp only [List.length_take]; omega)
    rw [file_read_packets, h5, file_read_loop]
    rcases hfh : file_read_frame_head { src with fd_in := (frame_v4 m).take k } with ⟨o, f1⟩
    rw [hfh] at hshort
    simp only at hshort
    subst hshort
    simp [file_read_send_eof, file_read_finish, ps_packet_open_write, ps_packet_write,
      ps_packet_close, h2, store, h1]
  · intro hk9
    have hhead := file_read_frame_head_v4_raw { src with fd_in := (frame_v4 m).take k }
      m.data.length m.header (m.data.take (k - 9)) hv3 (frame_v4_take m k hk9) hm
    have hne : ¬ min (k - 9) m.data.length = m.data.length := by omega
    rw [h5, file_read_loop, hhead]
    simp [ps_packet_open_write, ps_packet_write, ps_packet_dma, ps_dma_store, os_read,
      h2, hne, file_read_err, EBADMSG, EINTR, ps_buffer_cancel, h1]


theorem uint8_eq_of_toNat (a b : UInt8) (h : a.toNat = b.toNat) : a = b :=
  UInt8.ext_iff.mpr h

theorem load_le_take (l : List UInt8) (n off k : Nat) (h : off + k ≤ n) :
    load_le (l.take n) off k = load_le l off k := by
  unfold load_le
  rw [List.drop_take, List.take_take]
  congr 2
  omega

theorem le_value_signature (l : List UInt8) (hl : l.length = 4) :
    le_value l = GLC_SIGNATURE ↔ l = [0x47, 0x4c, 0x43, 0x00] := by
  match l, hl with
  | [a, b, c, d], _ =>
    constructor
    · intro h
      simp only [le_value, GLC_SIGNATURE] at h
      have ha := a.toNat_lt
      have hb := b.toNat_lt
      have hc := c.toNat_lt
      have hd := d.toNat_lt
      have h1 : a = 0x47 := uint8_eq_of_toNat _ _ (by show a.toNat = 0x47; omega)
      have h2 : b = 0x4c := uint8_eq_of_toNat _ _ (by show b.toNat = 0x4c; omega)
      have h3 : c = 0x43 := uint8_eq_of_toNat _ _ (by show c.toNat = 0x43; omega)
      have h4 : d = 0x00 := uint8_eq_of_toNat _ _ (by show d.toNat = 0x00; omega)
      rw [h1, h2, h3, h4]
    · intro h
      rw [h]; decide

theorem or_and_two_pow_of_ne (x a b : Nat) (h : a ≠ b) :
    (x ||| 2 ^ a) &&& 2 ^ b = x &&& 2 ^ b := by
  apply Nat.eq_of_testBit_eq
  intro i
  simp only [Nat.testBit_and, Nat.testBit_or, Nat.testBit_two_pow]
  by_cases hb : b = i
  · subst hb; simp [h]
  · simp [hb]

theorem or_and_two_pow_self (x a : Nat) : (x ||| 2 ^ a) &&& 2 ^ a = 2 ^ a := by
  apply Nat.eq_of_testBit_eq
  intro i
  simp only [Nat.testBit_and, Nat.testBit_or, Nat.testBit_two_pow]
  by_cases hb : a = i <;> simp [hb]

theorem flags_info_read_valid (x : Nat) :
    (x ||| FILE_INFO_READ) &&& FILE_INFO_VALID = x &&& FILE_INFO_VALID := by
  simpa [FILE_INFO_READ, FILE_INFO_VALID] using or_and_two_pow_of_ne x 4 5 (by decide)

theorem flags_info_read_reading (x : Nat) :
    (x ||| FILE_INFO_READ) &&& FILE_READING = x &&& FILE_READING := by
  simpa [FILE_INFO_READ, FILE_READING] using or_and_two_pow_of_ne x 4 0 (by decide)

theorem flags_info_read_read (x : Nat) :
    (x ||| FILE_INFO_READ) &&& FILE_INFO_READ = FILE_INFO_READ := by
  simpa [FILE_INFO_READ] using or_and_two_pow_self x 4

/-- The result of `file_read_info` on an open source that holds a whole stream
info header, up to the version test. -/
theorem file_read_info_header (file : file_s) (hfd : 0 ≤ file.fd)
    (hrd : file.flags &&& FILE_READING ≠ 0)
    (hlen : sizeof_glc_stream_info_t ≤ file.fd_in.length) :
    (file.fd_in.take 4 ≠ [0x47, 0x4c, 0x43, 0x00] →
      file_read_info file =
        ⟨EINVAL,
         { file with
           fd_in := file.fd_in.drop sizeof_glc_stream_info_t,
           flags := file.flags ||| FILE_INFO_READ,
           glc := glc_log file.glc GLC_ERROR "file" "signature 0x%08x does not match 0x%08x" },
         some (glc_stream_info_of_bytes (file.fd_in.take sizeof_glc_stream_info_t)),
         none, none⟩)
    ∧ (file.fd_in.take 4 = [0x47, 0x4c, 0x43, 0x00] →
        file_test_stream_version (load_le file.fd_in 4 4) ≠ 0 →
      file_read_info file =
        ⟨ENOTSUP,
         { file with
           fd_in := file.fd_in.drop sizeof_glc_stream_info_t,
           flags := file.flags ||| FILE_INFO_READ,
           glc := glc_log file.glc GLC_ERROR "file" "unsupported stream version 0x%02x" },
         some (glc_stream_info_of_bytes (file.fd_in.take sizeof_glc_stream_info_t)),
         none, none⟩) := by
  have hsig : load_le (file.fd_in.take sizeof_glc_stream_info_t) 0 4 = GLC_SIGNATURE
      ↔ file.fd_in.take 4 = [0x47, 0x4c, 0x43, 0x00] := by
    rw [load_le_take _ _ _ _ (by decide), load_le, List.drop_zero]
    exact le_value_signature _ (by rw [List.length_take]; unfold sizeof_glc_stream_info_t at hlen; omega)
  have hver : load_le (file.fd_in.take sizeof_glc_stream_info_t) 4 4 = load_le file.fd_in 4 4 :=
    load_le_take _ _ _ _ (by decide)
  have hnot : ¬ (file.fd < 0 ∨ file.flags &&& FILE_READING = 0) := by
    simp only [not_or, not_lt]; exact ⟨hfd, hrd⟩
  have hl : (file.fd_in.take sizeof_glc_stream_info_t).length = sizeof_glc_stream_info_t := by
    rw [List.length_take]; omega
  constructor
  · intro h
    have h1 := mt hsig.mp h
    simp only [file_read_info, if_neg hnot, os_read, hl, ne_eq, not_true_eq_false, if_false,
      glc_stream_info_of_bytes, h1, not_false_eq_true, if_true]
  · intro h hv
    have h1 := hsig.mpr h
    simp only [file_read_info, if_neg hnot, os_read, hl, ne_eq, not_true_eq_false, if_false,
      glc_stream_info_of_bytes, h1, hver, hv, not_false_eq_true, if_true]


theorem file_read_info_version_ok (file : file_s) (hfd : 0 ≤ file.fd)
    (hrd : file.flags &&& FILE_READING ≠ 0)
    (hlen : sizeof_glc_stream_info_t ≤ file.fd_in.length)
    (hsig : file.fd_in.take 4 = [0x47, 0x4c, 0x43, 0x00])
    (hv : file_test_stream_version (load_le file.fd_in 4 4) = 0) :
    (file_read_info file).file.glc
      = glc_log file.glc GLC_INFORMATION "file" "stream version 0x%02x" := by
  have hsig1 : load_le (file.fd_in.take sizeof_glc_stream_info_t) 0 4 = GLC_SIGNATURE := by
    rw [load_le_take _ _ _ _ (by decide), load_le, List.drop_zero]
    exact (le_value_signature _ (by
      rw [List.length_take]; unfold sizeof_glc_stream_info_t at hlen; omega)).mpr hsig
  have hver : load_le (file.fd_in.take sizeof_glc_stream_info_t) 4 4 = load_le file.fd_in 4 4 :=
    load_le_take _ _ _ _ (by decide)
  have hnot : ¬ (file.fd < 0 ∨ file.flags &&& FILE_READING = 0) := by
    simp only [not_or, not_lt]; exact ⟨hfd, hrd⟩
  have hl : (file.fd_in.take sizeof_glc_stream_info_t).length = sizeof_glc_stream_info_t := by
    rw [List.length_take]; omega
  simp only [file_read_info, if_neg hnot, os_read, hl, ne_eq, not_true_eq_false, if_false,
    glc_stream_info_of_bytes, hsig1, hver, hv]
  split_ifs <;> rfl

/-- C7: `file_test_stream_version` returns 0 exactly for the versions 0x3 and 0x4
and ENOTSUP for every other value; so `file_read_info` on an open source whose
prologue has the signature 'G','L','C',0 and any other version returns
ENOTSUP, and a source that was not marked valid is not marked valid after. -/
theorem file_test_stream_version_supported (version : Nat) (file : file_s)
    (hfd : 0 ≤ file.fd) (hrd : file.flags &&& FILE_READING ≠ 0)
    (hlen : sizeof_glc_stream_info_t ≤ file.fd_in.length)
    (hsig : file.fd_in.take 4 = [0x47, 0x4c, 0x43, 0x00])
    (hver : ¬ (load_le file.fd_in 4 4 = 0x3 ∨ load_le file.fd_in 4 4 = 0x4))
    (hvalid : file.flags &&& FILE_INFO_VALID = 0) :
    (file_test_stream_version version = 0 ↔ version = 0x3 ∨ version = 0x4)
    ∧ (¬ (version = 0x3 ∨ version = 0x4) → file_test_stream_version version = ENOTSUP)
    ∧ (file_read_info file).ret = ENOTSUP
    ∧ (file_read_info file).file.flags &&& FILE_INFO_VALID = 0 := by
  have key : ∀ v : Nat, ¬ (v = 0x3 ∨ v = 0x4) → file_test_stream_version v = ENOTSUP := by
    intro v hv
    simp only [not_or] at hv
    simp [file_test_stream_version, GLC_STREAM_VERSION, hv.1, hv.2]
  have hres := (file_read_info_header file hfd hrd hlen).2 hsig
    (by rw [key _ hver]; decide)
  refine ⟨?_, key version, ?_, ?_⟩
  · constructor
    · intro h
      by_contra hn
      rw [key version hn] at h
      exact absurd h (by decide)
    · rintro (h | h) <;> subst h <;> rfl
  · rw [hres]
  · rw [hres]; simp only; rw [flags_info_read_valid, hvalid]

/-- C8: the little-endian value of the bytes 'G','L','C',0 is `GLC_SIGNATURE`;
`file_read_info` on an open source that holds a whole stream info header
fails the signature check (logs the mismatch) if and only if the first four
bytes differ from 'G','L','C',0; it then returns EINVAL, a source that was not
marked valid is not marked valid after, and a following `file_read` returns
EINVAL and leaves the output buffer as it was. -/
theorem file_read_info_signature (file : file_s) (to_buf : ps_buffer_t)
    (hfd : 0 ≤ file.fd) (hrd : file.flags &&& FILE_READING ≠ 0)
    (hlen : sizeof_glc_stream_info_t ≤ file.fd_in.length)
    (hvalid : file.flags &&& FILE_INFO_VALID = 0) :
    le_value [0x47, 0x4c, 0x43, 0x00] = GLC_SIGNATURE
    ∧ ((file_read_info file).file.glc.log
          = file.glc.log ++ [⟨GLC_ERROR, "file", "signature 0x%08x does not match 0x%08x"⟩]
        ↔ file.fd_in.take 4 ≠ [0x47, 0x4c, 0x43, 0x00])
    ∧ (file.fd_in.take 4 ≠ [0x47, 0x4c, 0x43, 0x00] →
        (file_read_info file).ret = EINVAL
        ∧ (file_read_info file).file.flags &&& FILE_INFO_VALID = 0
        ∧ (file_read (file_read_info file).file to_buf).map (fun r => (r.1, r.2.2))
            = some (EINVAL, to_buf)) := by
  refine ⟨by decide, ⟨?_, ?_⟩, ?_⟩
  · intro hlog hsig
    by_cases hv : file_test_stream_version (load_le file.fd_in 4 4) = 0
    · rw [file_read_info_version_ok file hfd hrd hlen hsig hv] at hlog
      simp [glc_log, GLC_INFORMATION, GLC_ERROR] at hlog
    · rw [(file_read_info_header file hfd hrd hlen).2 hsig hv] at hlog
      simp [glc_log] at hlog
  · intro hsig
    rw [(file_read_info_header file hfd hrd hlen).1 hsig]
    simp [glc_log]
  · intro hsig
    rw [(file_read_info_header file hfd hrd hlen).1 hsig]
    refine ⟨rfl, ?_, ?_⟩
    · simp only; rw [flags_info_read_valid, hvalid]
    · have h1 : ¬ (file.fd < 0 ∨ (file.flags ||| FILE_INFO_READ) &&& FILE_READING = 0) := by
        rw [flags_info_read_reading]; simp only [not_or, not_lt]; exact ⟨hfd, hrd⟩
      have h2 : ¬ ((file.flags ||| FILE_INFO_READ) &&& FILE_INFO_READ = 0) := by
        rw [flags_info_read_read]; decide
      have h3 : (file.flags ||| FILE_INFO_READ) &&& FILE_INFO_VALID = 0 := by
        rw [flags_info_read_valid, hvalid]
      simp only [file_read, if_neg h1, if_neg h2, h3, if_true, Option.map_some']


/-- C1 (counterexample): on the sequence CALLBACK_REQUEST, CONTAINER wrapping an
LZO message, CLOSE, the sink followed by the source yields two packets, the
unwrapped LZO message and CLOSE, not the three packets of the sequence. -/
theorem file_sink_source_roundtrip_counterexample :
    file_read_packets
        (example_source GLC_STREAM_VERSION (file_sink none example_sink example_wrapped).fd_out)
        ps_buffer_init
      = some (0, [[0x04, 1, 0, 0, 0, 0, 0, 0, 0, 0x02, 0xaa], [0x01]])
    ∧ file_read_packets
        (example_source GLC_STREAM_VERSION (file_sink none example_sink example_wrapped).fd_out)
        ps_buffer_init
      ≠ some (0, example_wrapped.map glc_message.packet) := by
  decide

theorem file_sink_source_roundtrip_witness :
    file_read_packets
        (example_source GLC_STREAM_VERSION
          (file_sink none example_sink ([example_format, example_video] ++ [example_close])).fd_out)
        ps_buffer_init
      = some (0, ps_buffer_init.packets ++
          ([example_format, example_video] ++ [example_close]).map glc_message.packet) :=
  file_sink_source_roundtrip none example_sink _ ps_buffer_init
    [example_format, example_video] example_close
    (by decide) (by decide) rfl rfl (by decide) rfl rfl rfl rfl

theorem file_read_version_3_eq_version_4_witness :
    (∀ m ∈ [example_format, example_video, example_close], m.data.length < 2 ^ 64)
    ∧ (file_read (example_source 0x03
          (frames 0x03 [example_format, example_video, example_close]))
        ps_buffer_init).map file_read_view
      = (file_read (example_source GLC_STREAM_VERSION
          (frames GLC_STREAM_VERSION [example_format, example_video, example_close]))
        ps_buffer_init).map file_read_view :=
  ⟨by decide,
   (file_read_version_3_eq_version_4 (example_source 0 []) ps_buffer_init
      [example_format, example_video, example_close] (by decide)).2⟩

/-- C6 (counterexample): a version-0x4 file with the one frame VIDEO_FRAME [1,2,3]
cut after ten bytes, inside the payload: `file_read` returns EBADMSG, publishes
no packet (no synthetic CLOSE) and cancels the output buffer. -/
theorem file_read_truncated_counterexample :
    (file_read
        (example_source GLC_STREAM_VERSION
          ((frames GLC_STREAM_VERSION
            [example_video, example_close]).take 10))
        ps_buffer_init).map (fun r => (r.1, r.2.2.packets, r.2.2.cancelled))
      = some (EBADMSG, [], true) := by
  decide

theorem file_read_truncated_witness :
    (5 < 9 → file_read_packets
        (example_source GLC_STREAM_VERSION
          (frames GLC_STREAM_VERSION [example_format]
            ++ (frame_v4 example_video).take 5))
        ps_buffer_init
      = some (0, ps_buffer_init.packets
          ++ [example_format].map glc_message.packet
          ++ [[GLC_MESSAGE_CLOSE]]))
    ∧ (9 ≤ 5 → (file_read
        (example_source GLC_STREAM_VERSION
          (frames GLC_STREAM_VERSION [example_format]
            ++ (frame_v4 example_video).take 5))
        ps_buffer_init).map (fun r => (r.1, r.2.2.packets, r.2.2.cancelled))
      = some (EBADMSG, ps_buffer_init.packets
          ++ [example_format].map glc_message.packet, true)) :=
  file_read_truncated _ ps_buffer_init [example_format]
    example_video 5 (by decide) rfl rfl rfl (by decide) (by decide)
    (by decide) rfl

theorem file_test_stream_version_supported_witness :
    (file_test_stream_version 5 = 0 ↔ 5 = 0x3 ∨ 5 = 0x4)
    ∧ (¬ (5 = 0x3 ∨ 5 = 0x4) → file_test_stream_version 5 = ENOTSUP)
    ∧ (file_read_info (file_set_source (file_init ⟨[], false⟩) 3 (example_prologue 5)).2).ret
        = ENOTSUP
    ∧ (file_read_info
        (file_set_source (file_init ⟨[], false⟩) 3 (example_prologue 5)).2).file.flags
          &&& FILE_INFO_VALID = 0 :=
  file_test_stream_version_supported 5
    (file_set_source (file_init ⟨[], false⟩) 3 (example_prologue 5)).2
    (by decide) (by decide) (by decide) (by decide) (by decide) (by decide)

theorem file_read_info_signature_witness :
    le_value [0x47, 0x4c, 0x43, 0x00] = GLC_SIGNATURE
    ∧ ((file_read_info
          (file_set_source (file_init ⟨[], false⟩) 3 (List.replicate 48 0)).2).file.glc.log
          = (file_set_source (file_init ⟨[], false⟩) 3 (List.replicate 48 0)).2.glc.log
            ++ [⟨GLC_ERROR, "file", "signature 0x%08x does not match 0x%08x"⟩]
        ↔ (file_set_source (file_init ⟨[], false⟩) 3 (List.replicate 48 0)).2.fd_in.take 4
            ≠ [0x47, 0x4c, 0x43, 0x00])
    ∧ ((file_set_source (file_init ⟨[], false⟩) 3 (List.replicate 48 0)).2.fd_in.take 4
          ≠ [0x47, 0x4c, 0x43, 0x00] →
        (file_read_info
          (file_set_source (file_init ⟨[], false⟩) 3 (List.replicate 48 0)).2).ret = EINVAL
        ∧ (file_read_info
            (file_set_source (file_init ⟨[], false⟩) 3 (List.replicate 48 0)).2).file.flags
              &&& FILE_INFO_VALID = 0
        ∧ (file_read
            (file_read_info
              (file_set_source (file_init ⟨[], false⟩) 3 (List.replicate 48 0)).2).file
            ps_buffer_init).map (fun r => (r.1, r.2.2))
            = some (EINVAL, ps_buffer_init)) :=
  file_read_info_signature
    (file_set_source (file_init ⟨[], false⟩) 3 (List.replicate 48 0)).2 ps_buffer_init
    (by decide) (by decide) (by decide) (by decide)


theorem pack_set_compression_selected (build : pack_build) (pack pack1 : pack_s)
    (compression : Int) (which : pack_write_callback_t)
    (hsel : pack_selected build pack which) (ret : Nat)
    (h : pack_set_compression build pack compression = (ret, pack1)) :
    ∃ which1, pack_selected build pack1 which1 := by
  unfold pack_set_compression at h
  obtain ⟨h1, h2, h3⟩ := hsel
  split_ifs at h <;> simp only [Prod.mk.injEq] at h <;> obtain ⟨-, rfl⟩ := h
  · exact ⟨which, h1, h2, h3⟩
  · exact ⟨.quicklz, by simp_all [pack_selected, codec_selector, codec_compiled]⟩
  · exact ⟨which, h1, h2, h3⟩
  · exact ⟨.lzo, by simp_all [pack_selected, codec_selector, codec_compiled]⟩
  · exact ⟨which, h1, h2, h3⟩
  · exact ⟨.lzjb, by simp_all [pack_selected, codec_selector, codec_compiled]⟩
  · exact ⟨which, h1, h2, h3⟩
  · exact ⟨which, h1, h2, h3⟩

theorem pack_init_selected (build : pack_build) (glc : glc_t) (pack : pack_s)
    (h : pack_init build glc = (0, pack)) : ∃ which, pack_selected build pack which := by
  unfold pack_init at h
  split_ifs at h with hq hl hj
  · refine ⟨.quicklz, ?_⟩
    simp only [pack_set_compression, hq, Prod.mk.injEq, true_and] at h
    subst h
    simp [pack_selected, codec_selector, codec_compiled, hq, PACK_QUICKLZ]
  · refine ⟨.lzo, ?_⟩
    simp only [pack_set_compression, hl, Prod.mk.injEq, true_and] at h
    subst h
    simp [pack_selected, codec_selector, codec_compiled, hl, PACK_QUICKLZ, PACK_LZO]
  · refine ⟨.lzjb, ?_⟩
    simp only [pack_set_compression, hj, Prod.mk.injEq, true_and] at h
    subst h
    simp [pack_selected, codec_selector, codec_compiled, hj, PACK_QUICKLZ, PACK_LZO, PACK_LZJB]
  · simp [ENOTSUP] at h


theorem pack_read_callback_compress (build : pack_build) (codecs : pack_codecs)
    (pack : pack_s) (which : pack_write_callback_t) (state : glc_thread_state_t)
    (hsel : pack_selected build pack which) (hsize : state.read_size > pack.compress_min)
    (htype : state.header = GLC_MESSAGE_VIDEO_FRAME ∨ state.header = GLC_MESSAGE_AUDIO_DATA) :
    pack_read_callback build codecs pack state
      = (0, { state with write_size :=
                (sizeof_glc_container_message_header_t + 9
                  + codec_worstcase codecs which state.read_size) % 2 ^ 64 }) := by
  obtain ⟨h1, -, h3⟩ := hsel
  unfold pack_read_callback
  rw [if_pos ⟨hsize, htype⟩]
  cases which <;>
    simp_all [codec_selector, codec_compiled, codec_worstcase, PACK_QUICKLZ, PACK_LZO,
      PACK_LZJB, sizeof_glc_quicklz_header_t, sizeof_glc_lzo_header_t, sizeof_glc_lzjb_header_t]

theorem pack_read_callback_pass (build : pack_build) (codecs : pack_codecs)
    (pack : pack_s) (state : glc_thread_state_t)
    (h : ¬ (state.read_size > pack.compress_min ∧
      (state.header = GLC_MESSAGE_VIDEO_FRAME ∨ state.header = GLC_MESSAGE_AUDIO_DATA))) :
    pack_read_callback build codecs pack state
      = (0, { state with flags := state.flags ||| GLC_THREAD_COPY }) := by
  unfold pack_read_callback
  rw [if_neg h]
  rfl

theorem flags_copy_set (x : Nat) : (x ||| GLC_THREAD_COPY) &&& GLC_THREAD_COPY ≠ 0 := by
  have := or_and_two_pow_self x 2
  simp only [GLC_THREAD_COPY]
  norm_num at this
  rw [this]
  decide

/-- C9: after `pack_set_minimum_size` has set the threshold `N` on a compressor
whose selected codec is compiled in, `pack_read_callback` returns 0 and, for a
VIDEO_FRAME or AUDIO_DATA message, sets the COPY flag and changes nothing else
(so `write_size` stays the `read_size` that the stage worker stored) when the
payload size is exactly `N`, and leaves the COPY flag clear when the payload
size is `N + 1`; for a message of any other type it sets the COPY flag and
changes nothing else, whatever the size. -/
theorem pack_read_callback_threshold (build : pack_build) (codecs : pack_codecs)
    (pack0 pack : pack_s) (which : pack_write_callback_t) (N : Nat)
    (state : glc_thread_state_t)
    (hsel : pack_selected build pack0 which)
    (hset : pack_set_minimum_size pack0 N = (0, pack))
    (hflags : state.flags &&& GLC_THREAD_COPY = 0) :
    ((state.header = GLC_MESSAGE_VIDEO_FRAME ∨ state.header = GLC_MESSAGE_AUDIO_DATA) →
        state.read_size = N →
        pack_read_callback build codecs pack state
          = (0, { state with flags := state.flags ||| GLC_THREAD_COPY })
        ∧ (pack_read_callback build codecs pack state).2.flags &&& GLC_THREAD_COPY ≠ 0)
    ∧ ((state.header = GLC_MESSAGE_VIDEO_FRAME ∨ state.header = GLC_MESSAGE_AUDIO_DATA) →
        state.read_size = N + 1 →
        (pack_read_callback build codecs pack state).1 = 0
        ∧ (pack_read_callback build codecs pack state).2.flags &&& GLC_THREAD_COPY = 0)
    ∧ (¬ (state.header = GLC_MESSAGE_VIDEO_FRAME ∨ state.header = GLC_MESSAGE_AUDIO_DATA) →
        pack_read_callback build codecs pack state
          = (0, { state with flags := state.flags ||| GLC_THREAD_COPY })
        ∧ (pack_read_callback build codecs pack state).2.flags &&& GLC_THREAD_COPY ≠ 0) := by
  have hpack : pack = { pack0 with compress_min := N } := by
    unfold pack_set_minimum_size at hset
    split_ifs at hset
    · simp [EALREADY] at hset
    · simpa using hset.symm
  have hmin : pack.compress_min = N := by rw [hpack]
  have hsel1 : pack_selected build pack which := by rw [hpack]; exact hsel
  refine ⟨?_, ?_, ?_⟩
  · intro _ hN
    have := pack_read_callback_pass build codecs pack state (by rw [hmin, hN]; simp)
    rw [this]
    exact ⟨rfl, flags_copy_set _⟩
  · intro htype hN
    rw [pack_read_callback_compress build codecs pack which state hsel1
      (by rw [hmin, hN]; exact Nat.lt_succ_self _) htype]
    exact ⟨rfl, hflags⟩
  · intro htype
    have := pack_read_callback_pass build codecs pack state (fun h => htype h.2)
    rw [this]
    exact ⟨rfl, flags_copy_set _⟩


theorem store_append (p rest bytes : List UInt8) (off : Nat) (hp : p.length = off) :
    store (p ++ rest) off bytes = p ++ bytes ++ rest.drop bytes.length := by
  subst hp
  simp [store]

theorem split_headers (l : List UInt8) (h : 18 ≤ l.length) :
    ∃ s0 x0 s1 x1, s0.length = 8 ∧ s1.length = 8
      ∧ l = s0 ++ x0 :: (s1 ++ x1 :: l.drop 18) := by
  have h1 : l = l.take 8 ++ l.drop 8 := (List.take_append_drop 8 l).symm
  obtain ⟨x0, r0, hr0⟩ : ∃ x0 r0, l.drop 8 = x0 :: r0 := by
    cases hd : l.drop 8 with
    | nil => have := congrArg List.length hd; simp at this; omega
    | cons a b => exact ⟨a, b, rfl⟩
  have hr0l : r0 = l.drop 9 := by
    have := congrArg (List.drop 1) hr0
    simpa [List.drop_drop] using this.symm
  obtain ⟨x1, r1, hr1⟩ : ∃ x1 r1, r0.drop 8 = x1 :: r1 := by
    cases hd : r0.drop 8 with
    | nil => have := congrArg List.length hd; rw [hr0l] at this; simp at this; omega
    | cons a b => exact ⟨a, b, rfl⟩
  have hr1l : r1 = l.drop 18 := by
    have := congrArg (List.drop 1) hr1
    rw [hr0l] at this
    simpa [List.drop_drop] using this.symm
  refine ⟨l.take 8, x0, r0.take 8, x1, by simp; omega, by rw [hr0l]; simp; omega, ?_⟩
  rw [← hr1l, ← hr1, List.take_append_drop, ← hr0, List.take_append_drop]

theorem store_headers (s0 s1 r A B : List UInt8) (x0 x1 h t : UInt8)
    (h0 : s0.length = 8) (h1 : s1.length = 8) (hA : A.length = 8) (hB : B.length = 8) :
    store (store (store (store (s0 ++ x0 :: (s1 ++ x1 :: r)) 9 B) 17 [h]) 0 A) 8 [t]
      = A ++ t :: (B ++ h :: r) := by
  have a1 : store (s0 ++ x0 :: (s1 ++ x1 :: r)) 9 B = s0 ++ x0 :: (B ++ x1 :: r) := by
    have := store_append (s0 ++ [x0]) (s1 ++ x1 :: r) B 9 (by simp [h0])
    rw [hB, List.drop_left' h1] at this
    simpa using this
  have a2 : store (s0 ++ x0 :: (B ++ x1 :: r)) 17 [h] = s0 ++ x0 :: (B ++ h :: r) := by
    have := store_append (s0 ++ x0 :: B) (x1 :: r) [h] 17 (by simp [h0, hB])
    simpa using this
  have a3 : store (s0 ++ x0 :: (B ++ h :: r)) 0 A = A ++ x0 :: (B ++ h :: r) := by
    have := store_append [] (s0 ++ x0 :: (B ++ h :: r)) A 0 rfl
    rw [hA, List.drop_left' h0] at this
    simpa using this
  have a4 : store (A ++ x0 :: (B ++ h :: r)) 8 [t] = A ++ t :: (B ++ h :: r) := by
    have := store_append A (x0 :: (B ++ h :: r)) [t] 8 hA
    simpa using this
  rw [a1, a2, a3, a4]

theorem pack_write_headers_layout (state : glc_thread_state_t) (out : List UInt8)
    (codec_header_size : Nat) (tag : glc_message_type_t) (wd : List UInt8)
    (hlen : 18 ≤ wd.length) (hwd : state.write_data = store wd 18 out) :
    pack_write_headers state out.length codec_header_size tag
      = { state with
          header := GLC_MESSAGE_CONTAINER,
          write_data := le_bytes 8 ((out.length + codec_header_size) % 2 ^ 64)
            ++ tag :: (le_bytes 8 (state.read_size % 2 ^ 64)
            ++ state.header :: (out ++ wd.drop (18 + out.length))) } := by
  obtain ⟨s0, x0, s1, x1, h0, h1, hl⟩ := split_headers wd hlen
  have e1 : store wd 18 out = s0 ++ x0 :: (s1 ++ x1 :: (out ++ wd.drop (18 + out.length))) := by
    have := store_append (s0 ++ x0 :: (s1 ++ [x1])) (wd.drop 18) out 18 (by simp [h0, h1])
    rw [show (s0 ++ x0 :: (s1 ++ [x1])) ++ wd.drop 18 = wd by
      conv_rhs => rw [hl]
      simp] at this
    rw [this]
    simp [List.drop_drop, Nat.add_comm]
  have key := store_headers s0 s1 (out ++ wd.drop (18 + out.length))
    (le_bytes 8 ((out.length + codec_header_size) % 2 ^ 64))
    (le_bytes 8 (state.read_size % 2 ^ 64)) x0 x1 state.header tag h0 h1
    (le_bytes_length _ _) (le_bytes_length _ _)
  unfold pack_write_headers
  simp only [hwd, e1]
  exact congrArg (fun w => ({ state with header := GLC_MESSAGE_CONTAINER, write_data := w } :
    glc_thread_state_t)) key

/-- C10: for an input message with header `h` and a payload of `n` bytes that the
codec compresses to the `c` bytes `out`, the write callback of the codec
returns 0, sets the outer message type to CONTAINER (0x09) and leaves a write
area that starts with the container header (size `c + 9`, type the codec tag:
LZO 0x04, QUICKLZ 0x07, LZJB 0x0a), then the codec header (size `n`, header
`h`), then the `c` compressed bytes; the rest of the area is untouched. -/
theorem pack_write_callback_layout (build : pack_build) (codecs : pack_codecs)
    (which : pack_write_callback_t) (state : glc_thread_state_t) (out : List UInt8)
    (hcompiled : codec_compiled build which = true)
    (harea : 18 ≤ state.write_data.length)
    (hout : out = codec_compress codecs which (state.read_data.take state.read_size))
    (hn : state.read_size < 2 ^ 64) (hc : out.length + 9 < 2 ^ 64) :
    pack_write_callback which build codecs state
      = (0, { state with
              header := GLC_MESSAGE_CONTAINER,
              write_data := le_bytes 8 (out.length + 9)
                ++ codec_tag which :: (le_bytes 8 state.read_size
                ++ state.header :: (out ++ state.write_data.drop (18 + out.length))) })
    ∧ le_value (le_bytes 8 (out.length + 9)) = out.length + 9
    ∧ le_value (le_bytes 8 state.read_size) = state.read_size
    ∧ codec_tag .lzo = 0x04 ∧ codec_tag .quicklz = 0x07 ∧ codec_tag .lzjb = 0x0a
    ∧ GLC_MESSAGE_CONTAINER = 0x09 := by
  refine ⟨?_, le_value_le_bytes_8 _ hc, le_value_le_bytes_8 _ hn, rfl, rfl, rfl, rfl⟩
  have h1 : (out.length + 9) % 2 ^ 64 = out.length + 9 := Nat.mod_eq_of_lt hc
  have h2 : state.read_size % 2 ^ 64 = state.read_size := Nat.mod_eq_of_lt hn
  cases which
  · simp only [codec_compiled] at hcompiled
    simp only [codec_compress] at hout
    have := pack_write_headers_layout
      { state with write_data := store state.write_data 18 out } out
      sizeof_glc_quicklz_header_t GLC_MESSAGE_QUICKLZ state.write_data harea rfl
    simp only [pack_write_callback, pack_quicklz_write_callback, hcompiled, if_true, ← hout,
      sizeof_glc_quicklz_header_t, sizeof_glc_container_message_header_t] at this ⊢
    rw [this, h1, h2]
    rfl
  · simp only [codec_compiled] at hcompiled
    simp only [codec_compress] at hout
    have := pack_write_headers_layout
      { state with write_data := store state.write_data 18 out } out
      sizeof_glc_lzo_header_t GLC_MESSAGE_LZO state.write_data harea rfl
    simp only [pack_write_callback, pack_lzo_write_callback, hcompiled, if_true, ← hout,
      sizeof_glc_lzo_header_t, sizeof_glc_container_message_header_t] at this ⊢
    rw [this, h1, h2]
    rfl
  · simp only [codec_compiled] at hcompiled
    simp only [codec_compress] at hout
    have := pack_write_headers_layout
      { state with write_data := store state.write_data 18 out } out
      sizeof_glc_lzjb_header_t GLC_MESSAGE_LZJB state.write_data harea rfl
    simp only [pack_write_callback, pack_lzjb_write_callback, hcompiled, if_true, ← hout,
      sizeof_glc_lzjb_header_t, sizeof_glc_container_message_header_t] at this ⊢
    rw [this, h1, h2]
    rfl


theorem dma_area_length (arena : Nat → UInt8) (size : Nat) :
    (dma_area arena size).length = size := by
  simp [dma_area]

theorem pack_thread_read (build : pack_build) (codecs : pack_codecs) (pack : pack_s)
    (h : glc_message_type_t) (data : List UInt8) :
    glc_thread_read (pack_thread build codecs pack) glc_thread_state_init h data
      = pack_read_callback build codecs pack ⟨0, h, data, [], data.length, data.length⟩ := by
  simp [glc_thread_read, pack_thread, glc_thread_state_init, glc_thread_call,
    GLC_THREAD_READ, GLC_THREAD_WRITE, GLC_THREAD_STATE_SKIP_READ, sizeof_glc_message_header_t]

theorem unpack_thread_read (build : pack_build) (codecs : pack_codecs)
    (h : glc_message_type_t) (data : List UInt8) :
    glc_thread_read (unpack_thread build codecs) glc_thread_state_init h data
      = unpack_read_callback build ⟨0, h, data, [], data.length, data.length⟩ := by
  simp [glc_thread_read, unpack_thread, glc_thread_state_init, glc_thread_call,
    GLC_THREAD_READ, GLC_THREAD_WRITE, GLC_THREAD_STATE_SKIP_READ, sizeof_glc_message_header_t]

/-- The stage worker on a state whose read callback has set the COPY flag and
left the sizes alone: the packet goes through unchanged. -/
theorem glc_thread_stage_copy (thread : glc_thread_t) (arena : Nat → UInt8)
    (h : glc_message_type_t) (data : List UInt8)
    (hflags : thread.flags = GLC_THREAD_WRITE ||| GLC_THREAD_READ)
    (hopen : thread.open_callback = none) (hclose : thread.close_callback = none)
    (hread : glc_thread_read thread glc_thread_state_init h data
      = (0, ⟨GLC_THREAD_COPY, h, data, [], data.length, data.length⟩)) :
    glc_thread_stage thread arena h data = (0, some (h :: data)) := by
  have e1 : (4 : Nat) &&& 2 = 0 := by decide
  have e2 : (3 : Nat) &&& 2 = 2 := by decide
  have e3 : (3 : Nat) &&& 1 = 1 := by decide
  simp [e1, e2, e3, glc_thread_stage, glc_thread_iteration, hopen, hclose, glc_thread_call, hread,
    glc_thread_write, hflags, GLC_THREAD_WRITE, GLC_THREAD_READ, GLC_THREAD_COPY,
    GLC_THREAD_STATE_SKIP_WRITE, GLC_THREAD_STATE_SKIP_READ]

/-- The stage worker on a state whose read callback has set `write_size` and no
flag: the packet is the header that the write callback leaves, followed by
the first `write_size` bytes of the write area. -/
theorem glc_thread_stage_write (thread : glc_thread_t) (arena : Nat → UInt8)
    (h : glc_message_type_t) (data : List UInt8) (ws : Nat)
    (f : glc_thread_callback_t) (st : glc_thread_state_t)
    (hflags : thread.flags = GLC_THREAD_WRITE ||| GLC_THREAD_READ)
    (hopen : thread.open_callback = none) (hclose : thread.close_callback = none)
    (hwrite : thread.write_callback = some f)
    (hread : glc_thread_read thread glc_thread_state_init h data
      = (0, ⟨0, h, data, [], data.length, ws⟩))
    (hf : f ⟨0, h, data, dma_area arena ws, data.length, ws⟩ = (0, st)) :
    glc_thread_stage thread arena h data
      = (0, some ((st.header :: st.write_data).take (1 + ws))) := by
  have e2 : (3 : Nat) &&& 2 = 2 := by decide
  have e3 : (3 : Nat) &&& 1 = 1 := by decide
  simp [e2, e3, glc_thread_stage, glc_thread_iteration, hopen, hclose, glc_thread_call, hread,
    glc_thread_write, hflags, hwrite, hf, GLC_THREAD_WRITE, GLC_THREAD_READ, GLC_THREAD_COPY,
    GLC_THREAD_STATE_SKIP_WRITE, GLC_THREAD_STATE_SKIP_READ,
    GLC_THREAD_STATE_UNKNOWN_FINAL_SIZE, sizeof_glc_message_header_t]


theorem pack_stage_pass (build : pack_build) (codecs : pack_codecs) (pack : pack_s)
    (arena : Nat → UInt8) (m : glc_message)
    (h : ¬ (m.data.length > pack.compress_min ∧
      (m.header = GLC_MESSAGE_VIDEO_FRAME ∨ m.header = GLC_MESSAGE_AUDIO_DATA))) :
    glc_thread_stage (pack_thread build codecs pack) arena m.header m.data
      = (0, some m.packet) := by
  apply glc_thread_stage_copy _ _ _ _ rfl rfl rfl
  rw [pack_thread_read, pack_read_callback_pass build codecs pack _ h]
  simp

theorem codec_message_frame (codecs : pack_codecs) (which : pack_write_callback_t)
    (m : glc_message) :
    frame_v4 (codec_message codecs which m)
      = le_bytes 8 ((codec_compress codecs which m.data).length + 9)
        ++ codec_tag which :: (le_bytes 8 m.data.length
        ++ m.header :: codec_compress codecs which m.data) := by
  simp [frame_v4, codec_message, le_bytes_length]
  congr 1
  omega

theorem pack_stage_compress (build : pack_build) (codecs : pack_codecs) (pack : pack_s)
    (which : pack_write_callback_t) (arena : Nat → UInt8) (m : glc_message)
    (hsel : pack_selected build pack which)
    (hsize : m.data.length > pack.compress_min)
    (htype : m.header = GLC_MESSAGE_VIDEO_FRAME ∨ m.header = GLC_MESSAGE_AUDIO_DATA)
    (hworst : (codec_compress codecs which m.data).length
      ≤ codec_worstcase codecs which m.data.length)
    (hn : m.data.length < 2 ^ 64)
    (hfit : 18 + codec_worstcase codecs which m.data.length < 2 ^ 64) :
    glc_thread_stage (pack_thread build codecs pack) arena m.header m.data
      = (0, some (GLC_MESSAGE_CONTAINER :: (frame_v4 (codec_message codecs which m)
          ++ (dma_area arena (18 + codec_worstcase codecs which m.data.length)).drop
              (18 + (codec_compress codecs which m.data).length)))) := by
  have hws : (sizeof_glc_container_message_header_t + 9
      + codec_worstcase codecs which m.data.length) % 2 ^ 64
      = 18 + codec_worstcase codecs which m.data.length := by
    simp only [sizeof_glc_container_message_header_t]
    exact Nat.mod_eq_of_lt hfit
  have hread : glc_thread_read (pack_thread build codecs pack) glc_thread_state_init
      m.header m.data
      = (0, ⟨0, m.header, m.data, [], m.data.length,
          18 + codec_worstcase codecs which m.data.length⟩) := by
    rw [pack_thread_read, pack_read_callback_compress build codecs pack which _ hsel hsize htype]
    simp only [hws]
  have hlay := (pack_write_callback_layout build codecs which
    ⟨0, m.header, m.data, dma_area arena (18 + codec_worstcase codecs which m.data.length),
      m.data.length, 18 + codec_worstcase codecs which m.data.length⟩
    (codec_compress codecs which m.data) hsel.2.2
    (by simp only [dma_area_length]; omega) (by simp) hn (by omega)).1
  have hwcb : (pack_thread build codecs pack).write_callback
      = some (pack_write_callback which build codecs) := by
    simp [pack_thread, hsel.2.1]
  rw [glc_thread_stage_write _ arena _ _ _ _ _ rfl rfl rfl hwcb hread hlay]
  simp only [codec_message_frame]
  rw [List.take_of_length_le]
  · simp
  · simp [le_bytes_length, dma_area_length]
    omega


theorem unpack_stage_pass (build : pack_build) (codecs : pack_codecs)
    (arena : Nat → UInt8) (h : glc_message_type_t) (data : List UInt8)
    (h1 : h ≠ GLC_MESSAGE_LZO) (h2 : h ≠ GLC_MESSAGE_QUICKLZ) (h3 : h ≠ GLC_MESSAGE_LZJB) :
    glc_thread_stage (unpack_thread build codecs) arena h data = (0, some (h :: data)) := by
  apply glc_thread_stage_copy _ _ _ _ rfl rfl rfl
  rw [unpack_thread_read]
  simp [unpack_read_callback, h1, h2, h3]

theorem load_le_le_bytes_8 (n : Nat) (rest : List UInt8) (hn : n < 2 ^ 64) :
    load_le (le_bytes 8 n ++ rest) 0 8 = n := by
  rw [load_le, List.drop_zero, List.take_left' (le_bytes_length 8 n), le_value_le_bytes_8 n hn]

theorem getD_le_bytes_8 (n : Nat) (x : UInt8) (rest : List UInt8) :
    (le_bytes 8 n ++ x :: rest).getD 8 0 = x := by
  have := le_bytes_length 8 n
  rw [List.getD_eq_getElem?_getD, List.getElem?_append_right (by omega)]
  simp [this]

theorem size_t_sub_mod (a b : Nat) :
    size_t_sub a b = (a % 2 ^ 64 + 2 ^ 64 - b % 2 ^ 64) % 2 ^ 64 := by
  unfold size_t_sub
  have ha := Nat.mod_lt a (show 2 ^ 64 > 0 by norm_num)
  have hb := Nat.mod_lt b (show 2 ^ 64 > 0 by norm_num)
  generalize a % 2 ^ 64 = x at ha ⊢
  generalize b % 2 ^ 64 = y at hb ⊢
  norm_num at ha hb ⊢
  split_ifs <;> omega

theorem size_t_sub_add (c : Nat) (h : c + 9 < 2 ^ 64) : size_t_sub (c + 9) 9 = c := by
  rw [size_t_sub_mod]
  norm_num at h ⊢
  omega

theorem drop_9_le_bytes_8 (n : Nat) (x : UInt8) (rest : List UInt8) :
    (le_bytes 8 n ++ x :: rest).drop 9 = rest := by
  rw [show le_bytes 8 n ++ x :: rest = (le_bytes 8 n ++ [x]) ++ rest by simp]
  exact List.drop_left' (by simp [le_bytes_length])

theorem store_dma_area (arena : Nat → UInt8) (d : List UInt8) :
    store (dma_area arena d.length) 0 d = d := by
  simp [store, List.drop_eq_nil_of_le, dma_area_length]

theorem unpack_write_callback_codec (build : pack_build) (codecs : pack_codecs)
    (which : pack_write_callback_t) (arena : Nat → UInt8) (h : glc_message_type_t)
    (out d : List UInt8)
    (hcompiled : codec_compiled build which = true)
    (hinv : codec_decompress codecs which out d.length = d)
    (hc : out.length + 9 < 2 ^ 64) :
    unpack_write_callback build codecs
        ⟨0, codec_tag which, le_bytes 8 d.length ++ h :: out, dma_area arena d.length,
          out.length + 9, d.length⟩
      = (0, ⟨0, h, le_bytes 8 d.length ++ h :: out, d, out.length + 9, d.length⟩) := by
  have hsub := size_t_sub_add _ hc
  have hhdr := getD_le_bytes_8 d.length h out
  have hsrc := drop_9_le_bytes_8 d.length h out
  have hst := store_dma_area arena d
  cases which
  · simp only [codec_compiled] at hcompiled
    simp only [codec_decompress] at hinv
    have t1 : GLC_MESSAGE_QUICKLZ ≠ GLC_MESSAGE_LZO := by decide
    simp only [unpack_write_callback, codec_tag, t1, if_false, if_true, hcompiled,
      sizeof_glc_quicklz_header_t, sizeof_glc_size_t, hsrc, hinv, hst]
    rw [show (le_bytes 8 d.length ++ h :: out).getD 8 0 = h from hhdr]
  · simp only [codec_compiled] at hcompiled
    simp only [codec_decompress] at hinv
    simp only [unpack_write_callback, codec_tag, if_true, hcompiled,
      sizeof_glc_lzo_header_t, sizeof_glc_size_t, hsrc, hsub, List.take_length, hinv, hst]
    rw [show (le_bytes 8 d.length ++ h :: out).getD 8 0 = h from hhdr]
  · simp only [codec_compiled] at hcompiled
    simp only [codec_decompress] at hinv
    have t1 : GLC_MESSAGE_LZJB ≠ GLC_MESSAGE_LZO := by decide
    have t2 : GLC_MESSAGE_LZJB ≠ GLC_MESSAGE_QUICKLZ := by decide
    simp only [unpack_write_callback, codec_tag, t1, t2, if_false, if_true, hcompiled,
      sizeof_glc_lzjb_header_t, sizeof_glc_size_t, hsrc, hsub, List.take_length, hinv, hst]
    rw [show (le_bytes 8 d.length ++ h :: out).getD 8 0 = h from hhdr]

theorem unpack_read_callback_codec (build : pack_build)
    (which : pack_write_callback_t) (h : glc_message_type_t) (out : List UInt8) (n : Nat)
    (hcompiled : codec_compiled build which = true) (hn : n < 2 ^ 64) :
    unpack_read_callback build
        ⟨0, codec_tag which, le_bytes 8 n ++ h :: out, [], out.length + 9, out.length + 9⟩
      = (0, ⟨0, codec_tag which, le_bytes 8 n ++ h :: out, [], out.length + 9, n⟩) := by
  have hsize := load_le_le_bytes_8 n (h :: out) hn
  cases which
  · simp only [codec_compiled] at hcompiled
    have t1 : GLC_MESSAGE_QUICKLZ ≠ GLC_MESSAGE_LZO := by decide
    simp only [unpack_read_callback, codec_tag, t1, if_false, if_true, hcompiled, hsize]
  · simp only [codec_compiled] at hcompiled
    simp only [unpack_read_callback, codec_tag, if_true, hcompiled, hsize]
  · simp only [codec_compiled] at hcompiled
    have t1 : GLC_MESSAGE_LZJB ≠ GLC_MESSAGE_LZO := by decide
    have t2 : GLC_MESSAGE_LZJB ≠ GLC_MESSAGE_QUICKLZ := by decide
    simp only [unpack_read_callback, codec_tag, t1, t2, if_false, if_true, hcompiled, hsize]

theorem unpack_stage_codec (build : pack_build) (codecs : pack_codecs)
    (which : pack_write_callback_t) (arena : Nat → UInt8) (m : glc_message)
    (hcompiled : codec_compiled build which = true)
    (hinv : codec_decompress codecs which (codec_compress codecs which m.data) m.data.length
      = m.data)
    (hn : m.data.length < 2 ^ 64)
    (hc : (codec_compress codecs which m.data).length + 9 < 2 ^ 64) :
    glc_thread_stage (unpack_thread build codecs) arena
        (codec_message codecs which m).header (codec_message codecs which m).data
      = (0, some m.packet) := by
  have hlen : (le_bytes 8 m.data.length ++ m.header :: codec_compress codecs which m.data).length
      = (codec_compress codecs which m.data).length + 9 := by
    simp [le_bytes_length]; omega
  have hread : glc_thread_read (unpack_thread build codecs) glc_thread_state_init
      (codec_message codecs which m).header (codec_message codecs which m).data
      = (0, ⟨0, codec_tag which,
          le_bytes 8 m.data.length ++ m.header :: codec_compress codecs which m.data, [],
          (le_bytes 8 m.data.length ++ m.header :: codec_compress codecs which m.data).length,
          m.data.length⟩) := by
    rw [unpack_thread_read]
    simp only [codec_message, hlen]
    exact unpack_read_callback_codec build which m.header _ _ hcompiled hn
  have hwrite := unpack_write_callback_codec build codecs which arena m.header
    (codec_compress codecs which m.data) m.data hcompiled hinv hc
  rw [← hlen] at hwrite
  rw [glc_thread_stage_write _ arena _ _ _ _ _ rfl rfl rfl rfl hread hwrite]
  simp only [glc_message.packet]
  rw [List.take_of_length_le (by simp only [List.length_cons]; omega)]


theorem container_unwrap_frame (x : glc_message) (junk : List UInt8)
    (hx : x.data.length < 2 ^ 64) :
    container_unwrap (GLC_MESSAGE_CONTAINER :: (frame_v4 x ++ junk)) = x.packet := by
  have h1 : (frame_v4 x ++ junk).getD 8 0 = x.header := by
    simp only [frame_v4, List.append_assoc, List.cons_append]
    exact getD_le_bytes_8 _ _ _
  have h2 : (frame_v4 x ++ junk).drop 9 = x.data ++ junk := by
    simp only [frame_v4, List.append_assoc, List.cons_append]
    exact drop_9_le_bytes_8 _ _ _
  have h3 : load_le (frame_v4 x ++ junk) 0 8 = x.data.length := by
    simp only [frame_v4, List.append_assoc]
    exact load_le_le_bytes_8 _ _ hx
  simp only [container_unwrap, if_true, h1, h2, h3, glc_message.packet]
  rw [List.take_left' rfl]

theorem codec_tag_ne_close (which : pack_write_callback_t) :
    codec_tag which ≠ GLC_MESSAGE_CLOSE := by
  cases which <;> decide

theorem codec_message_length (codecs : pack_codecs) (which : pack_write_callback_t)
    (m : glc_message) :
    (codec_message codecs which m).data.length
      = (codec_compress codecs which m.data).length + 9 := by
  simp [codec_message, le_bytes_length]; omega

theorem pack_unpack_unwrapped_message (build : pack_build) (codecs : pack_codecs)
    (pack : pack_s) (which : pack_write_callback_t) (arena : Nat → UInt8) (m : glc_message)
    (hsel : pack_selected build pack which)
    (hinv : codec_decompress codecs which (codec_compress codecs which m.data) m.data.length
      = m.data)
    (hworst : (codec_compress codecs which m.data).length
      ≤ codec_worstcase codecs which m.data.length)
    (h1 : m.header ≠ GLC_MESSAGE_LZO) (h2 : m.header ≠ GLC_MESSAGE_QUICKLZ)
    (h3 : m.header ≠ GLC_MESSAGE_LZJB) (h4 : m.header ≠ GLC_MESSAGE_CONTAINER)
    (hfit : 18 + codec_worstcase codecs which m.data.length < 2 ^ 64)
    (hn : m.data.length < 2 ^ 64) :
    pack_unpack_unwrapped build codecs pack arena m = some m.packet := by
  by_cases hcomp : m.data.length > pack.compress_min ∧
      (m.header = GLC_MESSAGE_VIDEO_FRAME ∨ m.header = GLC_MESSAGE_AUDIO_DATA)
  · have hc : (codec_compress codecs which m.data).length + 9 < 2 ^ 64 := by omega
    simp only [pack_unpack_unwrapped,
      pack_stage_compress build codecs pack which arena m hsel hcomp.1 hcomp.2 hworst hn hfit]
    rw [container_unwrap_frame _ _ (by rw [codec_message_length]; exact hc)]
    simp only [glc_message.packet,
      unpack_stage_codec build codecs which arena m hsel.2.2 hinv hn hc]
  · simp only [pack_unpack_unwrapped, pack_stage_pass build codecs pack arena m hcomp,
      glc_message.packet, container_unwrap, if_neg h4,
      unpack_stage_pass build codecs arena m.header m.data h1 h2 h3]

/-- C2 (amended): for every message sequence without LZO, QUICKLZ, LZJB and
CONTAINER messages and every codec whose decoder inverts its encoder and whose
compressed length stays within its worst case (sizes below 2^64), feeding
each packet emitted by the compressor stage to the decompressor stage after
unwrapping a CONTAINER packet into the frame nested in it yields the sequence
byte for byte, each message under its original header tag. -/
theorem pack_unpack_roundtrip (build : pack_build) (codecs : pack_codecs)
    (pack : pack_s) (which : pack_write_callback_t) (arena : Nat → UInt8)
    (S : List glc_message)
    (hsel : pack_selected build pack which)
    (hinv : ∀ d, codec_decompress codecs which (codec_compress codecs which d) d.length = d)
    (hworst : ∀ d, (codec_compress codecs which d).length
      ≤ codec_worstcase codecs which d.length)
    (hS : ∀ m ∈ S, m.header ≠ GLC_MESSAGE_LZO ∧ m.header ≠ GLC_MESSAGE_QUICKLZ
      ∧ m.header ≠ GLC_MESSAGE_LZJB ∧ m.header ≠ GLC_MESSAGE_CONTAINER
      ∧ 18 + codec_worstcase codecs which m.data.length < 2 ^ 64
      ∧ m.data.length < 2 ^ 64) :
    S.map (pack_unpack_unwrapped build codecs pack arena)
      = S.map (fun m => some m.packet) := by
  apply List.map_congr_left
  intro m hm
  obtain ⟨h1, h2, h3, h4, h5, h6⟩ := hS m hm
  exact pack_unpack_unwrapped_message build codecs pack which arena m hsel (hinv _)
    (hworst _) h1 h2 h3 h4 h5 h6

/-- C2 (counterexample): with codecs whose decoders invert their encoders, the
VIDEO_FRAME message with payload [1,2,3] and threshold 2 leaves the compressor
as a CONTAINER packet, and the decompressor fed with that packet passes it on
unchanged: the result is the CONTAINER packet, not the original message. -/
theorem pack_unpack_direct_counterexample :
    (∀ d, example_codecs.quicklz_decompress (example_codecs.quicklz_compress d) d.length = d)
    ∧ pack_unpack_direct example_build example_codecs example_pack (fun _ => 0) example_video
        = some [0x09, 12, 0, 0, 0, 0, 0, 0, 0, 0x07, 3, 0, 0, 0, 0, 0, 0, 0, 0x02, 1, 2, 3]
    ∧ pack_unpack_direct example_build example_codecs example_pack (fun _ => 0) example_video
        ≠ some example_video.packet := by
  refine ⟨fun d => by simp [example_codecs], by decide, by decide⟩

theorem pack_unpack_roundtrip_witness :
    [example_format, example_video, example_close].map
        (pack_unpack_unwrapped example_build example_codecs example_pack (fun _ => 0))
      = [example_format, example_video, example_close].map (fun m => some m.packet) :=
  pack_unpack_roundtrip example_build example_codecs example_pack .quicklz (fun _ => 0)
    [example_format, example_video, example_close] (by decide)
    (fun d => by simp [codec_decompress, codec_compress, example_codecs])
    (fun d => by simp [codec_compress, codec_worstcase, example_codecs])
    (by decide)


theorem file_read_callback_container (callback : Option callback_request_func_t)
    (file : file_s) (x : glc_message) (junk : List UInt8) (hx : x.data.length + 9 < 2 ^ 64) :
    (file_read_callback callback file
        (file_thread_state ⟨GLC_MESSAGE_CONTAINER, frame_v4 x ++ junk⟩)).1 = 0
    ∧ (file_read_callback callback file
        (file_thread_state ⟨GLC_MESSAGE_CONTAINER, frame_v4 x ++ junk⟩)).2.fd_out
      = file.fd_out ++ frame_v4 x := by
  have h3 : load_le (frame_v4 x ++ junk) 0 8 = x.data.length := by
    simp only [frame_v4, List.append_assoc]
    exact load_le_le_bytes_8 _ _ (by omega)
  have hmod : (sizeof_glc_container_message_header_t + x.data.length) % 2 ^ 64
      = (frame_v4 x).length := by
    rw [Nat.mod_eq_of_lt (by simp only [sizeof_glc_container_message_header_t]; omega)]
    simp [frame_v4, le_bytes_length, sizeof_glc_container_message_header_t]
    omega
  have t1 : GLC_MESSAGE_CONTAINER ≠ GLC_CALLBACK_REQUEST := by decide
  rw [file_thread_state_eq]
  simp only [file_read_callback, t1, if_false, if_true, h3, hmod, os_write, ne_eq,
    not_true_eq_false, List.take_left' rfl, and_self]

/-- C3: for every VIDEO_FRAME or AUDIO_DATA message whose payload exceeds the
threshold, and a selected codec whose decoder inverts its encoder on the
payload and whose compressed length stays within its worst case (sizes below
2^64): the compressor stage publishes a CONTAINER packet; the file sink
writes that packet; `file_read` at stream version 0x4 reads back the codec
message (codec tag, codec header, compressed bytes) followed by the CLOSE it
makes up at the end of the file, and returns 0; and the decompressor stage
turns the codec message into the packet with the original header type and the
original payload bytes. -/
theorem pack_file_unpack_roundtrip (build : pack_build) (codecs : pack_codecs)
    (pack : pack_s) (which : pack_write_callback_t) (arena : Nat → UInt8)
    (callback : Option callback_request_func_t) (sink src : file_s) (to_buf : ps_buffer_t)
    (m : glc_message)
    (hsel : pack_selected build pack which)
    (hinv : codec_decompress codecs which (codec_compress codecs which m.data) m.data.length
      = m.data)
    (hworst : (codec_compress codecs which m.data).length
      ≤ codec_worstcase codecs which m.data.length)
    (htype : m.header = GLC_MESSAGE_VIDEO_FRAME ∨ m.header = GLC_MESSAGE_AUDIO_DATA)
    (hsize : m.data.length > pack.compress_min)
    (hn : m.data.length < 2 ^ 64)
    (hfit : 18 + codec_worstcase codecs which m.data.length < 2 ^ 64)
    (hsink : sink.fd_out = [])
    (hready : file_source_ready src) (hv : src.stream_version = GLC_STREAM_VERSION)
    (hcancel : src.glc.cancel = false) (hto : to_buf.cancelled = false) :
    ∃ payload,
      glc_thread_stage (pack_thread build codecs pack) arena m.header m.data
        = (0, some (GLC_MESSAGE_CONTAINER :: payload))
      ∧ (file_read_callback callback sink
          (file_thread_state ⟨GLC_MESSAGE_CONTAINER, payload⟩)).1 = 0
      ∧ file_read_packets
          { src with fd_in := (file_read_callback callback sink
              (file_thread_state ⟨GLC_MESSAGE_CONTAINER, payload⟩)).2.fd_out } to_buf
        = some (0, to_buf.packets
            ++ [(codec_message codecs which m).packet, [GLC_MESSAGE_CLOSE]])
      ∧ glc_thread_stage (unpack_thread build codecs) arena
          (codec_message codecs which m).header (codec_message codecs which m).data
        = (0, some m.packet) := by
  have hc : (codec_compress codecs which m.data).length + 9 < 2 ^ 64 := by omega
  have hlen := codec_message_length codecs which m
  have hsinkw := file_read_callback_container callback sink (codec_message codecs which m)
    ((dma_area arena (18 + codec_worstcase codecs which m.data.length)).drop
      (18 + (codec_compress codecs which m.data).length)) (by rw [hlen]; omega)
  refine ⟨_, pack_stage_compress build codecs pack which arena m hsel hsize htype hworst hn hfit,
    hsinkw.1, ?_, unpack_stage_codec build codecs which arena m hsel.2.2 hinv hn hc⟩
  rw [hsinkw.2, hsink, List.nil_append]
  have hready1 : file_source_ready
      { src with fd_in := frame_v4 (codec_message codecs which m) } := hready
  obtain ⟨fuel, p1, t1, h1, h2, -, -, h5⟩ :=
    file_read_frames [codec_message codecs which m]
      (by
        intro x hx
        rw [List.mem_singleton] at hx
        subst hx
        exact ⟨codec_tag_ne_close which, by rw [hlen]; omega⟩)
      { src with fd_in := frame_v4 (codec_message codecs which m) } to_buf [] hready1
      (by simp [frames, frame, hv, GLC_STREAM_VERSION]) hcancel hto
  rw [file_read_packets, h5, file_read_loop, file_read_frame_head_nil _ rfl]
  simp [file_read_send_eof, file_read_finish, ps_packet_open_write, ps_packet_write,
    ps_packet_close, h2, store, h1]

theorem pack_file_unpack_roundtrip_witness :
    ∃ payload,
      glc_thread_stage (pack_thread example_build example_codecs example_pack) (fun _ => 0)
          example_video.header example_video.data
        = (0, some (GLC_MESSAGE_CONTAINER :: payload))
      ∧ (file_read_callback none example_sink
          (file_thread_state ⟨GLC_MESSAGE_CONTAINER, payload⟩)).1 = 0
      ∧ file_read_packets
          { example_source GLC_STREAM_VERSION [] with
            fd_in := (file_read_callback none example_sink
              (file_thread_state ⟨GLC_MESSAGE_CONTAINER, payload⟩)).2.fd_out } ps_buffer_init
        = some (0, ps_buffer_init.packets
            ++ [(codec_message example_codecs .quicklz example_video).packet,
                [GLC_MESSAGE_CLOSE]])
      ∧ glc_thread_stage (unpack_thread example_build example_codecs) (fun _ => 0)
          (codec_message example_codecs .quicklz example_video).header
          (codec_message example_codecs .quicklz example_video).data
        = (0, some example_video.packet) :=
  pack_file_unpack_roundtrip example_build example_codecs example_pack .quicklz (fun _ => 0)
    none example_sink (example_source GLC_STREAM_VERSION []) ps_buffer_init example_video
    (by decide) (by decide) (by decide) (by decide) (by decide) (by decide) (by decide)
    rfl (by decide) rfl rfl rfl


theorem pack_read_callback_threshold_witness :
    pack_read_callback example_build example_codecs example_pack example_read_state
        = (0, { example_read_state with
                flags := example_read_state.flags ||| GLC_THREAD_COPY })
      ∧ (pack_read_callback example_build example_codecs example_pack
          example_read_state).2.flags &&& GLC_THREAD_COPY ≠ 0 :=
  (pack_read_callback_threshold example_build example_codecs
    (pack_init example_build ⟨[], false⟩).2 example_pack .quicklz 2 example_read_state
    (by decide) rfl (by decide)).1 (Or.inl rfl) rfl

theorem pack_write_callback_layout_witness :
    pack_write_callback .quicklz example_build example_codecs example_write_state
      = (0, { example_write_state with
              header := GLC_MESSAGE_CONTAINER,
              write_data := le_bytes 8 ([1, 2, 3].length + 9)
                ++ codec_tag .quicklz :: (le_bytes 8 example_write_state.read_size
                ++ example_write_state.header :: ([1, 2, 3]
                ++ example_write_state.write_data.drop (18 + [1, 2, 3].length))) }) :=
  (pack_write_callback_layout example_build example_codecs .quicklz example_write_state
    [1, 2, 3] rfl (by decide) rfl (by decide) (by decide)).1


theorem file_write_message_frame (file : file_s) (h : glc_message_type_t) (p : List UInt8)
    (hs : p.length < 2 ^ 64) :
    file_write_message file h p p.length
      = (0, { file with fd_out := file.fd_out ++ (le_bytes 8 p.length ++ h :: p) }) := by
  have hmod : p.length % 18446744073709551616 = p.length :=
    Nat.mod_eq_of_lt (by simpa using hs)
  have htake : ∀ n, List.take 8 (le_bytes 8 n) = le_bytes 8 n :=
    fun n => List.take_of_length_le (by simp [le_bytes_length])
  by_cases hp : p = []
  · subst hp
    simp [file_write_message, os_write, htake, sizeof_glc_size_t, sizeof_glc_message_header_t]
  · have hpos : 0 < p.length := List.length_pos.mpr hp
    simp [file_write_message, os_write, htake, hmod, hpos, sizeof_glc_size_t,
      sizeof_glc_message_header_t]

/-- C11: for a message that is neither CALLBACK_REQUEST nor CONTAINER, with header
byte `h` and a payload `p` of `n` bytes, `file_read_callback` returns 0 and
appends to the file exactly the `9 + n` bytes `n` as unsigned 64-bit
little-endian integer, `h`, `p` (the size field is the payload length);
`file_write_message` appends the same bytes, and `file_write_eof` on a sink
that is open for writing and not running appends eight zero bytes and 0x01. -/
theorem file_frame_written (callback : Option callback_request_func_t)
    (file sink : file_s) (m : glc_message)
    (h1 : m.header ≠ GLC_CALLBACK_REQUEST) (h2 : m.header ≠ GLC_MESSAGE_CONTAINER)
    (hs : m.data.length < 2 ^ 64)
    (hfd : 0 ≤ sink.fd) (hrun : sink.flags &&& FILE_RUNNING = 0)
    (hwr : sink.flags &&& FILE_WRITING ≠ 0) :
    (file_read_callback callback file (file_thread_state m)).1 = 0
    ∧ (file_read_callback callback file (file_thread_state m)).2.fd_out
        = file.fd_out ++ (le_bytes 8 m.data.length ++ m.header :: m.data)
    ∧ (le_bytes 8 m.data.length ++ m.header :: m.data).length = 9 + m.data.length
    ∧ le_value (le_bytes 8 m.data.length) = m.data.length
    ∧ file_write_message file m.header m.data m.data.length
        = (0, { file with
                fd_out := file.fd_out ++ (le_bytes 8 m.data.length ++ m.header :: m.data) })
    ∧ file_write_eof sink
        = (0, { sink with fd_out := sink.fd_out ++ [0, 0, 0, 0, 0, 0, 0, 0, 0x01] }) := by
  refine ⟨?_, ?_, ?_, le_value_le_bytes_8 _ hs, file_write_message_frame file _ _ hs, ?_⟩
  · rw [file_read_callback_plain callback file m h1 h2 hs]
  · rw [file_read_callback_plain callback file m h1 h2 hs]
    rfl
  · simp [le_bytes_length]; omega
  · have hnot : ¬ (sink.fd < 0 ∨ sink.flags &&& FILE_RUNNING ≠ 0
        ∨ sink.flags &&& FILE_WRITING = 0) := by
      simp only [not_or, not_lt, ne_eq, not_not]
      exact ⟨hfd, hrun, hwr⟩
    have hw := file_write_message_frame sink GLC_MESSAGE_CLOSE [] (by decide)
    simp only [List.length_nil] at hw
    rw [file_write_eof, if_neg hnot, hw]
    rfl

theorem file_frame_written_witness :
    (file_read_callback none example_sink (file_thread_state example_video)).1 = 0
    ∧ (file_read_callback none example_sink (file_thread_state example_video)).2.fd_out
        = example_sink.fd_out
          ++ (le_bytes 8 example_video.data.length
              ++ example_video.header :: example_video.data)
    ∧ (le_bytes 8 example_video.data.length
          ++ example_video.header :: example_video.data).length
        = 9 + example_video.data.length
    ∧ le_value (le_bytes 8 example_video.data.length) = example_video.data.length
    ∧ file_write_message example_sink example_video.header example_video.data
          example_video.data.length
        = (0, { example_sink with
                fd_out := example_sink.fd_out
                  ++ (le_bytes 8 example_video.data.length
                      ++ example_video.header :: example_video.data) })
    ∧ file_write_eof { example_sink with flags := FILE_WRITING ||| FILE_INFO_WRITTEN }
        = (0, { example_sink with
                flags := FILE_WRITING ||| FILE_INFO_WRITTEN,
                fd_out := example_sink.fd_out ++ [0, 0, 0, 0, 0, 0, 0, 0, 0x01] }) :=
  file_frame_written none example_sink
    { example_sink with flags := FILE_WRITING ||| FILE_INFO_WRITTEN } example_video
    (by decide) (by decide) (by decide) (by decide) (by decide) (by decide)


theorem clear_flags_testBit (flags k i : Nat) (hflags : flags < 2 ^ 32) :
    (clear_flags flags (2 ^ k)).testBit i = (flags.testBit i && decide (k ≠ i)) := by
  have hmask : (0xffffffff : Nat) = 2 ^ 32 - 1 := by norm_num
  unfold clear_flags
  rw [Nat.testBit_and, Nat.testBit_xor, Nat.testBit_two_pow, hmask,
    Nat.testBit_two_pow_sub_one]
  by_cases hi : i < 32
  · by_cases hk : k = i <;> simp [hi, hk]
  · have : flags.testBit i = false :=
      Nat.testBit_lt_two_pow (lt_of_lt_of_le hflags (Nat.pow_le_pow_right (by norm_num) (by omega)))
    simp [this]

theorem or_two_pow_testBit (x k i : Nat) :
    (x ||| 2 ^ k).testBit i = (x.testBit i || decide (k = i)) := by
  rw [Nat.testBit_or, Nat.testBit_two_pow]

/-- C12: for a CALLBACK_REQUEST message `file_read_callback` returns 0 and writes
nothing: without a registered callback the sink is left as it was; with a
callback, the callback is called with the argument of the request on the sink
with FILE_RUNNING cleared and no other flag changed, and after the callback
has returned FILE_RUNNING is set and no other flag changed, so the bytes of
the target file are those the callback left. -/
theorem file_read_callback_request (cb : callback_request_func_t) (file : file_s)
    (m : glc_message) (hm : m.header = GLC_CALLBACK_REQUEST) (hflags : file.flags < 2 ^ 32) :
    file_read_callback none file (file_thread_state m) = (0, file)
    ∧ file_read_callback (some cb) file (file_thread_state m)
        = (0, { cb (load_le m.data 0 8)
                  { file with flags := clear_flags file.flags FILE_RUNNING } with
                flags := (cb (load_le m.data 0 8)
                  { file with flags := clear_flags file.flags FILE_RUNNING }).flags
                    ||| FILE_RUNNING })
    ∧ (file_read_callback (some cb) file (file_thread_state m)).2.fd_out
        = (cb (load_le m.data 0 8)
            { file with flags := clear_flags file.flags FILE_RUNNING }).fd_out
    ∧ (clear_flags file.flags FILE_RUNNING) &&& FILE_RUNNING = 0
    ∧ (∀ i, i ≠ 2 → (clear_flags file.flags FILE_RUNNING).testBit i = file.flags.testBit i)
    ∧ (∀ x, (x ||| FILE_RUNNING) &&& FILE_RUNNING = FILE_RUNNING
        ∧ ∀ i, i ≠ 2 → (x ||| FILE_RUNNING).testBit i = x.testBit i) := by
  have htr : tracker_submit file.state_tracker GLC_CALLBACK_REQUEST m.data m.data.length
      = file.state_tracker := by
    have t1 : GLC_CALLBACK_REQUEST ≠ GLC_MESSAGE_VIDEO_FORMAT := by decide
    have t2 : GLC_CALLBACK_REQUEST ≠ GLC_MESSAGE_AUDIO_FORMAT := by decide
    have t3 : GLC_CALLBACK_REQUEST ≠ GLC_MESSAGE_COLOR := by decide
    simp [tracker_submit, t1, t2, t3]
  have hrun : FILE_RUNNING = 2 ^ 2 := by decide
  have e1 : file_read_callback (some cb) file (file_thread_state m)
        = (0, { cb (load_le m.data 0 8)
                  { file with flags := clear_flags file.flags FILE_RUNNING } with
                flags := (cb (load_le m.data 0 8)
                  { file with flags := clear_flags file.flags FILE_RUNNING }).flags
                    ||| FILE_RUNNING }) := by
    rw [file_thread_state_eq]
    simp only [file_read_callback, hm, htr, if_true]
  refine ⟨?_, e1, by rw [e1], ?_, ?_, ?_⟩
  · rw [file_thread_state_eq]
    simp only [file_read_callback, hm, htr, if_true]
  · apply Nat.eq_of_testBit_eq
    intro i
    rw [Nat.testBit_and, hrun, clear_flags_testBit _ _ _ hflags, Nat.testBit_two_pow]
    by_cases h : 2 = i <;> simp [h]
  · intro i hi
    rw [hrun, clear_flags_testBit _ _ _ hflags]
    simp [Ne.symm hi]
  · intro x
    refine ⟨by rw [hrun]; exact or_and_two_pow_self x 2, ?_⟩
    intro i hi
    rw [hrun, or_two_pow_testBit]
    simp [Ne.symm hi]

theorem file_read_callback_request_witness :
    file_read_callback none example_sink (file_thread_state example_request)
      = (0, example_sink) :=
  (file_read_callback_request (fun _ file => file) example_sink example_request rfl
    (by decide)).1


theorem glc_thread_assign_sound (g : glc_thread_frame → glc_thread_frame) :
    glc_thread_step_sound (glc_thread_assign g) := by
  intro f hf
  exact hf

theorem glc_thread_calls_ok_append (calls : List (glc_thread_site × Nat))
    (c : glc_thread_site × Nat) (h : glc_thread_calls_ok calls)
    (hc : c.1.checked = true → c.2 = 0) : glc_thread_calls_ok (calls ++ [c]) := by
  intro x hx
  rw [List.mem_append, List.mem_singleton] at hx
  rcases hx with hx | hx
  · exact h x hx
  · subst hx; exact hc

theorem glc_thread_checked_sound (site : glc_thread_site) (r : Nat)
    (hsite : site.checked = true) : glc_thread_step_sound (glc_thread_checked site r) := by
  intro f hf
  by_cases hr : r = 0
  · subst hr
    simp only [glc_thread_checked, ne_eq, not_true_eq_false, if_false]
    exact ⟨glc_thread_calls_ok_append _ _ hf.1 (fun _ => rfl), rfl⟩
  · simp only [glc_thread_checked, ne_eq, hr, not_false_eq_true, if_true]
    exact ⟨f.calls, site, r, rfl, hf.1, hr, Or.inl ⟨hsite, rfl⟩⟩

theorem glc_thread_unchecked_sound (site : glc_thread_site) (r : Nat)
    (hsite : site.checked = false) : glc_thread_step_sound (glc_thread_unchecked site r) := by
  intro f hf
  exact ⟨glc_thread_calls_ok_append _ _ hf.1 (fun h => by simp [hsite] at h), hf.2⟩

theorem glc_thread_tested_sound (r : Nat) :
    glc_thread_step_sound (glc_thread_tested .init_write r) := by
  intro f hf
  by_cases hr : r = 0
  · subst hr
    simp only [glc_thread_tested, ne_eq, not_true_eq_false, if_false]
    exact ⟨glc_thread_calls_ok_append _ _ hf.1 (fun _ => rfl), hf.2⟩
  · simp only [glc_thread_tested, ne_eq, hr, not_false_eq_true, if_true]
    exact ⟨f.calls, .init_write, r, rfl, hf.1, hr, Or.inr ⟨rfl, hf.2⟩⟩

theorem glc_thread_callback_sound (site : glc_thread_site)
    (callback : Option glc_thread_callback_t) (hsite : site.checked = true) :
    glc_thread_step_sound (glc_thread_callback site callback) := by
  intro f hf
  cases callback with
  | none => exact hf
  | some c =>
    exact glc_thread_checked_sound site (c f.state).1 hsite { f with state := (c f.state).2 } hf

theorem glc_thread_seq_sound (ss : List glc_thread_step)
    (h : ∀ s ∈ ss, glc_thread_step_sound s) : glc_thread_step_sound (glc_thread_seq ss) := by
  induction ss with
  | nil => intro f hf; exact hf
  | cons s ss ih =>
    intro f hf
    have hs := h s (List.mem_cons_self _ _) f hf
    simp only [glc_thread_seq]
    cases hsf : s f with
    | error f1 => rw [hsf] at hs; exact hs
    | ok f1 =>
      rw [hsf] at hs
      exact ih (fun x hx => h x (List.mem_cons_of_mem _ hx)) f1 hs

theorem glc_thread_when_sound (cond : glc_thread_frame → Bool) (body : glc_thread_step)
    (h : glc_thread_step_sound body) : glc_thread_step_sound (glc_thread_when cond body) := by
  intro f hf
  simp only [glc_thread_when]
  split_ifs
  · exact h f hf
  · exact hf

theorem glc_thread_branch_sound (cond : glc_thread_frame → Bool) (yes no : glc_thread_step)
    (hy : glc_thread_step_sound yes) (hn : glc_thread_step_sound no) :
    glc_thread_step_sound (glc_thread_branch cond yes no) := by
  intro f hf
  simp only [glc_thread_branch]
  split_ifs
  · exact hy f hf
  · exact hn f hf

theorem glc_thread_unlock_sound : glc_thread_step_sound glc_thread_unlock := by
  apply glc_thread_when_sound
  apply glc_thread_seq_sound
  intro s hs
  simp only [List.mem_cons, List.mem_singleton, List.not_mem_nil, or_false] at hs
  rcases hs with rfl | rfl
  · exact glc_thread_assign_sound _
  · exact glc_thread_unchecked_sound _ _ rfl

theorem glc_thread_enter_sound (thread : glc_thread_t) (op : glc_thread_site → Nat) :
    glc_thread_step_sound (glc_thread_enter thread op) := by
  apply glc_thread_seq_sound
  intro s hs
  simp only [List.mem_cons, List.mem_singleton, List.not_mem_nil, or_false] at hs
  rcases hs with rfl | rfl | rfl | rfl
  · exact glc_thread_when_sound _ _ (glc_thread_checked_sound _ _ rfl)
  · exact glc_thread_when_sound _ _ (glc_thread_tested_sound _)
  · exact glc_thread_assign_sound _
  · intro f hf
    cases h : thread.thread_create_callback with
    | none => exact hf
    | some r => exact glc_thread_checked_sound .thread_create_callback r rfl f hf

theorem glc_thread_body_read_sound (thread : glc_thread_t) (e : glc_thread_env) :
    glc_thread_step_sound (glc_thread_body_read thread e) := by
  apply glc_thread_when_sound
  apply glc_thread_seq_sound
  intro s hs
  simp only [List.mem_cons, List.mem_singleton, List.not_mem_nil, or_false] at hs
  rcases hs with rfl | rfl | rfl | rfl | rfl | rfl | rfl | rfl | rfl | rfl | rfl
  all_goals first
    | exact glc_thread_checked_sound _ _ rfl
    | exact glc_thread_assign_sound _
    | exact glc_thread_callback_sound _ _ rfl

theorem glc_thread_body_write_sound (thread : glc_thread_t) (e : glc_thread_env) :
    glc_thread_step_sound (glc_thread_body_write thread e) := by
  apply glc_thread_when_sound
  apply glc_thread_seq_sound
  intro s hs
  simp only [List.mem_cons, List.mem_singleton, List.not_mem_nil, or_false] at hs
  rcases hs with rfl | rfl | rfl | rfl | rfl | rfl | rfl | rfl | rfl
  · exact glc_thread_checked_sound _ _ rfl
  · exact glc_thread_assign_sound _
  · exact glc_thread_unlock_sound
  · exact glc_thread_checked_sound _ _ rfl
  · apply glc_thread_when_sound
    apply glc_thread_seq_sound
    intro s hs
    simp only [List.mem_cons, List.mem_singleton, List.not_mem_nil, or_false] at hs
    rcases hs with rfl | rfl | rfl
    · exact glc_thread_checked_sound _ _ rfl
    · exact glc_thread_assign_sound _
    · exact glc_thread_assign_sound _
  · apply glc_thread_branch_sound
    · apply glc_thread_seq_sound
      intro s hs
      simp only [List.mem_cons, List.mem_singleton, List.not_mem_nil, or_false] at hs
      rcases hs with rfl | rfl
      · exact glc_thread_checked_sound _ _ rfl
      · exact glc_thread_assign_sound _
    · apply glc_thread_seq_sound
      intro s hs
      simp only [List.mem_cons, List.mem_singleton, List.not_mem_nil, or_false] at hs
      rcases hs with rfl | rfl | rfl | rfl
      · exact glc_thread_checked_sound _ _ rfl
      · exact glc_thread_assign_sound _
      · exact glc_thread_callback_sound _ _ rfl
      · exact glc_thread_assign_sound _
  · exact glc_thread_checked_sound _ _ rfl
  · exact glc_thread_checked_sound _ _ rfl
  · exact glc_thread_assign_sound _

theorem glc_thread_body_close_sound (thread : glc_thread_t) (e : glc_thread_env) :
    glc_thread_step_sound (glc_thread_body_close thread e) := by
  apply glc_thread_seq_sound
  intro s hs
  simp only [List.mem_cons, List.mem_singleton, List.not_mem_nil, or_false] at hs
  rcases hs with rfl | rfl | rfl | rfl
  · exact glc_thread_unlock_sound
  · apply glc_thread_when_sound
    apply glc_thread_seq_sound
    intro s hs
    simp only [List.mem_cons, List.mem_singleton, List.not_mem_nil, or_false] at hs
    rcases hs with rfl | rfl
    · exact glc_thread_unchecked_sound _ _ rfl
    · exact glc_thread_assign_sound _
  · apply glc_thread_when_sound
    apply glc_thread_seq_sound
    intro s hs
    simp only [List.mem_cons, List.mem_singleton, List.not_mem_nil, or_false] at hs
    rcases hs with rfl | rfl | rfl | rfl
    · apply glc_thread_when_sound
      apply glc_thread_seq_sound
      intro s hs
      simp only [List.mem_cons, List.mem_singleton, List.not_mem_nil, or_false] at hs
      rcases hs with rfl | rfl
      · exact glc_thread_checked_sound _ _ rfl
      · exact glc_thread_assign_sound _
    · exact glc_thread_unchecked_sound _ _ rfl
    · exact glc_thread_when_sound _ _ (glc_thread_assign_sound _)
    · exact glc_thread_assign_sound _
  · exact glc_thread_callback_sound _ _ rfl

theorem glc_thread_body_sound (thread : glc_thread_t) (e : glc_thread_env) :
    glc_thread_step_sound (glc_thread_body thread e) := by
  apply glc_thread_seq_sound
  intro s hs
  simp only [List.mem_cons, List.mem_singleton, List.not_mem_nil, or_false] at hs
  rcases hs with rfl | rfl | rfl | rfl | rfl
  · exact glc_thread_callback_sound _ _ rfl
  · apply glc_thread_when_sound
    apply glc_thread_seq_sound
    intro s hs
    simp only [List.mem_cons, List.mem_singleton, List.not_mem_nil, or_false] at hs
    rcases hs with rfl | rfl
    · exact glc_thread_unchecked_sound _ _ rfl
    · exact glc_thread_assign_sound _
  · exact glc_thread_body_read_sound thread e
  · exact glc_thread_body_write_sound thread e
  · exact glc_thread_body_close_sound thread e

theorem glc_thread_loop_sound (thread : glc_thread_t) (es : List glc_thread_env)
    (f : glc_thread_frame) (hf : glc_thread_frame_ok f) :
    if (glc_thread_loop thread es f).1 = .err then
      glc_thread_frame_err (glc_thread_loop thread es f).2
    else glc_thread_frame_ok (glc_thread_loop thread es f).2 := by
  induction es generalizing f with
  | nil => simpa [glc_thread_loop] using hf
  | cons e es ih =>
    have hb := glc_thread_body_sound thread e f hf
    simp only [glc_thread_loop]
    cases hbf : glc_thread_body thread e f with
    | error f1 => rw [hbf] at hb; simpa using hb
    | ok f1 =>
      rw [hbf] at hb
      have hb1 : glc_thread_frame_ok f1 := hb
      simp only
      by_cases h1 : f1.state.flags &&& GLC_THREAD_STOP ≠ 0
      · rw [if_pos h1]
        simpa using hb1
      · rw [if_neg h1]
        by_cases h2 : (!e.cancel && decide (({ f1 with
            state := { f1.state with flags := 0 }, write_size_set := false } :
            glc_thread_frame).state.header ≠ GLC_MESSAGE_CLOSE) && !e.stop) = true
        · rw [if_pos h2]
          exact ih _ hb1
        · rw [if_neg h2]
          simpa using hb1

theorem glc_thread_run_sound (thread : glc_thread_t) (op : glc_thread_site → Nat)
    (es : List glc_thread_env) :
    if (glc_thread_run thread op es).1 = .err then
      glc_thread_frame_err (glc_thread_run thread op es).2
    else glc_thread_frame_ok (glc_thread_run thread op es).2 := by
  have he := glc_thread_enter_sound thread op glc_thread_frame_init
    ⟨fun c hc => by simp [glc_thread_frame_init] at hc, rfl⟩
  simp only [glc_thread_run]
  cases hef : glc_thread_enter thread op glc_thread_frame_init with
  | error f1 => rw [hef] at he; simpa using he
  | ok f1 =>
    rw [hef] at he
    exact glc_thread_loop_sound thread es f1 he


theorem glc_thread_run_err_of_call (thread : glc_thread_t) (op : glc_thread_site → Nat)
    (es : List glc_thread_env) (site : glc_thread_site) (r : Nat)
    (hsite : site.checked = true) (hr : r ≠ 0)
    (hcall : (site, r) ∈ (glc_thread_run thread op es).2.calls) :
    (glc_thread_run thread op es).1 = .err ∧ (glc_thread_run thread op es).2.ret = r := by
  have hs := glc_thread_run_sound thread op es
  by_cases he : (glc_thread_run thread op es).1 = .err
  · rw [if_pos he] at hs
    refine ⟨he, ?_⟩
    obtain ⟨pre, s, r1, hcalls, hpre, hr1, hlast⟩ := hs
    rw [hcalls, List.mem_append, List.mem_singleton] at hcall
    rcases hcall with hcall | hcall
    · exact absurd (hpre _ hcall hsite) hr
    · rw [Prod.mk.injEq] at hcall
      obtain ⟨rfl, rfl⟩ := hcall
      rcases hlast with ⟨-, h⟩ | ⟨h, -⟩
      · exact h
      · rw [h] at hsite; exact absurd hsite (by decide)
  · rw [if_neg he] at hs
    exact absurd (hs.1 _ hcall hsite) hr

theorem file_read_cancelled (file : file_s) (to_buf : ps_buffer_t)
    (hready : file_source_ready file) (hto : to_buf.cancelled = true) :
    (file_read file to_buf).map (fun r => r.1) = some 0 := by
  rw [file_read_of_ready file to_buf hready, file_read_loop]
  rcases hfh : file_read_frame_head file with ⟨o, f1⟩
  cases o with
  | none => simp [file_read_send_eof, file_read_finish]
  | some r =>
    obtain ⟨header, glc_ps⟩ := r
    simp [ps_packet_open_write, hto, EINTR, file_read_err, file_read_finish]

theorem glc_thread_leave_eintr (thread : glc_thread_t) (f : glc_thread_frame) (glc : glc_t)
    (priv : glc_thread_private_s) (from_buf to_buf : ps_buffer_t) (hret : f.ret = EINTR) :
    (glc_thread_leave thread .err f glc priv from_buf to_buf).glc = glc
    ∧ (glc_thread_leave thread .err f glc priv from_buf to_buf).thread_finish_callback = 0
    ∧ (glc_thread_leave thread .err f glc priv from_buf to_buf).priv.ret = priv.ret := by
  cases hl : f.has_locked <;>
    simp only [glc_thread_leave, hl, hret, true_and, and_true, Bool.false_eq_true, if_false,
      if_true, ne_eq, not_true_eq_false, glc_thread_finish_section] <;>
    split_ifs <;> rfl

theorem file_read_run_loop_isSome (op : Nat → file_read_site → Nat) (fuel i : Nat)
    (file : file_s) (packet : ps_packet_t) (to_buf : ps_buffer_t)
    (calls : List (file_read_site × Nat)) (h : file.fd_in.length < fuel) :
    (file_read_run_loop op fuel i file packet to_buf calls).isSome = true := by
  induction fuel generalizing i file packet to_buf calls with
  | zero => omega
  | succ fuel ih =>
    have hfd := file_read_frame_head_fd_in file
    rw [file_read_run_loop]
    rcases hfh : file_read_frame_head file with ⟨o, f1⟩
    rw [hfh] at hfd
    cases o with
    | none => simp
    | some r =>
      obtain ⟨header, glc_ps⟩ := r
      have h9 := hfd.2 _ rfl
      simp only
      split_ifs <;> try simp
      apply ih
      simp only [os_read, List.length_drop]
      simp only at h9
      omega

theorem file_read_run_isSome (op : Nat → file_read_site → Nat) (file : file_s)
    (to_buf : ps_buffer_t) : (file_read_run op file to_buf).isSome = true := by
  unfold file_read_run
  split_ifs <;> try simp
  exact file_read_run_loop_isSome _ _ _ _ _ _ _ (Nat.lt_succ_self _)

theorem file_read_run_err_ret (exit : file_read_exit) (ret : Nat) (file : file_s)
    (to_buf : ps_buffer_t) (calls : List (file_read_site × Nat)) :
    (file_read_run_err exit ret file to_buf calls).ret = (if ret = EINTR then 0 else ret)
    ∧ (file_read_run_err exit ret file to_buf calls).calls = calls
    ∧ (file_read_run_err exit ret file to_buf calls).exit = exit := by
  unfold file_read_run_err file_read_run_finish
  split_ifs <;> exact ⟨rfl, rfl, rfl⟩

theorem file_read_run_loop_eintr (op : Nat → file_read_site → Nat) (fuel i : Nat)
    (file : file_s) (packet : ps_packet_t) (to_buf : ps_buffer_t)
    (calls : List (file_read_site × Nat)) (r : file_read_result)
    (h : file_read_run_loop op fuel i file packet to_buf calls = some r)
    (hc : ∀ c ∈ calls, c.2 = 0) :
    r.ret = 0 ∨ ∀ c ∈ r.calls, c.2 ≠ EINTR := by
  have hz : ∀ l : List (file_read_site × Nat), (∀ c ∈ l, c.2 = 0) → ∀ c ∈ l, c.2 ≠ EINTR := by
    intro l hl c hcl
    rw [hl c hcl]
    decide
  have hlast : ∀ (l : List (file_read_site × Nat)) (s : file_read_site) (ret : Nat)
      (f : file_s) (b : ps_buffer_t) (e : file_read_exit), (∀ c ∈ l, c.2 = 0) →
      (file_read_run_err e ret f b (l ++ [(s, ret)])).ret = 0
      ∨ ∀ c ∈ (file_read_run_err e ret f b (l ++ [(s, ret)])).calls, c.2 ≠ EINTR := by
    intro l s ret f b e hl
    obtain ⟨h1, h2, -⟩ := file_read_run_err_ret e ret f b (l ++ [(s, ret)])
    rw [h1, h2]
    by_cases hr : ret = EINTR
    · left; rw [if_pos hr]
    · right
      intro c hcm
      rw [List.mem_append, List.mem_singleton] at hcm
      rcases hcm with hcm | hcm
      · exact hz l hl c hcm
      · rw [hcm]; exact hr
  have hsnoc : ∀ (l : List (file_read_site × Nat)) (s : file_read_site),
      (∀ c ∈ l, c.2 = 0) → ∀ c ∈ l ++ [(s, 0)], c.2 = 0 := by
    intro l s hl c hcm
    rw [List.mem_append, List.mem_singleton] at hcm
    rcases hcm with hcm | hcm
    · exact hl c hcm
    · rw [hcm]
  induction fuel generalizing i file packet to_buf calls with
  | zero => simp [file_read_run_loop] at h
  | succ n ih =>
    rw [file_read_run_loop] at h
    rcases hfh : file_read_frame_head file with ⟨o, f1⟩
    rw [hfh] at h
    cases o with
    | none =>
      simp only [Option.some.injEq] at h
      rw [← h]
      left
      rfl
    | some hd =>
      obtain ⟨header, glc_ps⟩ := hd
      simp only at h
      rcases ho : ps_packet_open_write_among (op i .open_write) packet to_buf with ⟨r1, p1, b1⟩
      rw [ho] at h
      simp only at h
      by_cases h1 : r1 = 0
      swap
      · rw [if_pos h1, Option.some.injEq] at h
        rw [← h]
        exact hlast _ _ _ _ _ _ hc
      rw [if_neg (not_not.mpr h1)] at h
      subst h1
      rcases hw : ps_packet_write_among (op i .write_header) p1 b1 [header] with ⟨r2, p2, b2⟩
      rw [hw] at h
      simp only at h
      by_cases h2 : r2 = 0
      swap
      · rw [if_pos h2, Option.some.injEq] at h
        rw [← h]
        exact hlast _ _ _ _ _ _ (hsnoc _ _ hc)
      rw [if_neg (not_not.mpr h2)] at h
      subst h2
      rcases hd : ps_packet_dma_among (op i .dma) p2 b2 glc_ps with ⟨r3, p3, d3, b3⟩
      rw [hd] at h
      simp only at h
      by_cases h3 : r3 = 0
      swap
      · rw [if_pos h3, Option.some.injEq] at h
        rw [← h]
        exact hlast _ _ _ _ _ _ (hsnoc _ _ (hsnoc _ _ hc))
      rw [if_neg (not_not.mpr h3)] at h
      subst h3
      have hc3 := hsnoc _ .dma (hsnoc _ .write_header (hsnoc _ .open_write hc))
      by_cases hlen : (os_read f1 glc_ps).1.length = glc_ps
      swap
      · rw [if_pos hlen, Option.some.injEq] at h
        rw [← h]
        right
        rw [(file_read_run_err_ret _ _ _ _ _).2.1]
        exact hz _ hc3
      rw [if_neg (not_not.mpr hlen)] at h
      rcases hcl : ps_packet_close_among (op i .close)
        (ps_dma_store p3 d3 (os_read f1 glc_ps).1) b3 with ⟨r4, p4, b4⟩
      rw [hcl] at h
      simp only at h
      by_cases h4 : r4 = 0
      swap
      · rw [if_pos h4, Option.some.injEq] at h
        rw [← h]
        exact hlast _ _ _ _ _ _ hc3
      rw [if_neg (not_not.mpr h4)] at h
      subst h4
      split_ifs at h with hgo
      · exact ih _ _ _ _ _ h (hsnoc _ _ hc3)
      · rw [Option.some.injEq] at h
        rw [← h]
        left
        rfl

theorem file_read_run_eintr (op : Nat → file_read_site → Nat) (file : file_s)
    (to_buf : ps_buffer_t) (r : file_read_result) (site : file_read_site)
    (h : file_read_run op file to_buf = some r) (hcall : (site, EINTR) ∈ r.calls) :
    r.ret = 0 := by
  have hloop : r.ret = 0 ∨ ∀ c ∈ r.calls, c.2 ≠ EINTR := by
    unfold file_read_run at h
    split_ifs at h
    · rw [Option.some.injEq] at h; rw [← h]; right; intro c hc; cases hc
    · rw [Option.some.injEq] at h; rw [← h]; right; intro c hc; cases hc
    · rw [Option.some.injEq] at h; rw [← h]; right; intro c hc; cases hc
    · exact file_read_run_loop_eintr op _ _ _ _ _ _ r h (by intro c hc; cases hc)
  rcases hloop with h0 | hne
  · exact h0
  · exact absurd rfl (hne _ hcall)

theorem ps_packet_among_quiet (packet : ps_packet_t) (buffer : ps_buffer_t)
    (bytes : List UInt8) (size : Nat) :
    ps_packet_open_write_among 0 packet buffer = ps_packet_open_write packet buffer
    ∧ ps_packet_write_among 0 packet buffer bytes
        = ((ps_packet_write packet buffer bytes).1, (ps_packet_write packet buffer bytes).2,
            buffer)
    ∧ ps_packet_dma_among 0 packet buffer size
        = ((ps_packet_dma packet buffer size).1, (ps_packet_dma packet buffer size).2.1,
            (ps_packet_dma packet buffer size).2.2, buffer)
    ∧ ps_packet_close_among 0 packet buffer = ps_packet_close packet buffer := by
  simp [ps_packet_open_write_among, ps_packet_write_among, ps_packet_dma_among,
    ps_packet_close_among, ps_buffer_among, EINTR]

theorem file_read_run_err_quiet (exit : file_read_exit) (ret : Nat) (file : file_s)
    (to_buf : ps_buffer_t) (calls : List (file_read_site × Nat)) :
    ((file_read_run_err exit ret file to_buf calls).ret,
      (file_read_run_err exit ret file to_buf calls).file,
      (file_read_run_err exit ret file to_buf calls).to_buf) = file_read_err ret file to_buf := by
  unfold file_read_run_err file_read_err file_read_run_finish file_read_finish
  split_ifs <;> rfl

/-- Left alone by its surroundings, the loop of `file_read` among other threads
is the loop of `file_read`. -/
theorem file_read_run_loop_quiet (fuel i : Nat) (file : file_s) (packet : ps_packet_t)
    (to_buf : ps_buffer_t) (calls : List (file_read_site × Nat)) :
    (file_read_run_loop (fun _ _ => 0) fuel i file packet to_buf calls).map
        (fun r => (r.ret, r.file, r.to_buf))
      = file_read_loop fuel file packet to_buf := by
  induction fuel generalizing i file packet to_buf calls with
  | zero => rfl
  | succ n ih =>
    rw [file_read_run_loop, file_read_loop]
    rcases hfh : file_read_frame_head file with ⟨o, f1⟩
    cases o with
    | none =>
      simp only [Option.map_some', file_read_run_send_eof, file_read_send_eof,
        (ps_packet_among_quiet _ _ [] 0).1, (ps_packet_among_quiet _ _ _ 0).2.1,
        (ps_packet_among_quiet _ _ [] 0).2.2.2, file_read_run_finish, file_read_finish]
    | some hd =>
      obtain ⟨header, glc_ps⟩ := hd
      simp only [(ps_packet_among_quiet _ _ [] 0).1, (ps_packet_among_quiet _ _ _ 0).2.1,
        (ps_packet_among_quiet _ _ [] _).2.2.1, (ps_packet_among_quiet _ _ [] 0).2.2.2]
      split_ifs <;>
        first
        | exact ih _ _ _ _ _
        | exact congrArg some (file_read_run_err_quiet _ _ _ _ _)
        | rfl

/-- Left alone by its surroundings, `file_read` among other threads is
`file_read`. -/
theorem file_read_run_quiet (file : file_s) (to_buf : ps_buffer_t) :
    (file_read_run (fun _ _ => 0) file to_buf).map (fun r => (r.ret, r.file, r.to_buf))
      = file_read file to_buf := by
  unfold file_read_run file_read
  split_ifs <;> first | rfl | exact file_read_run_loop_quiet _ _ _ _ _ _

/-- C15 (counterexample): the return value of the two `ps_packet_close` calls of
the loop is discarded. In a compressor stage whose close callback fails with
EINVAL, `ps_packet_close` of the read packet returns EINTR; the thread goes on,
closes the write packet and runs the close callback, whose EINVAL takes it to
`err`: it sets the global cancel flag, hands EINVAL to `thread_finish_callback`
and latches EINVAL. -/
theorem glc_thread_canceled_counterexample :
    (glc_thread_run example_thread_close (fun _ => 0)
        [{ example_env example_video with op := example_op .close_read EINTR }]).2.calls.drop 17
      = [(.close_read, EINTR), (.close_write, 0), (.close_callback, EINVAL)]
    ∧ (glc_thread_run example_thread_close (fun _ => 0)
        [{ example_env example_video with op := example_op .close_read EINTR }]).1 = .err
    ∧ (glc_thread_leave example_thread_close
        (glc_thread_run example_thread_close (fun _ => 0)
          [{ example_env example_video with op := example_op .close_read EINTR }]).1
        (glc_thread_run example_thread_close (fun _ => 0)
          [{ example_env example_video with op := example_op .close_read EINTR }]).2
        ⟨[], false⟩ ⟨1, false, 0⟩ ps_buffer_init ps_buffer_init).glc.cancel = true
    ∧ (glc_thread_leave example_thread_close
        (glc_thread_run example_thread_close (fun _ => 0)
          [{ example_env example_video with op := example_op .close_read EINTR }]).1
        (glc_thread_run example_thread_close (fun _ => 0)
          [{ example_env example_video with op := example_op .close_read EINTR }]).2
        ⟨[], false⟩ ⟨1, false, 0⟩ ps_buffer_init ps_buffer_init).thread_finish_callback
      = EINVAL
    ∧ (glc_thread_leave example_thread_close
        (glc_thread_run example_thread_close (fun _ => 0)
          [{ example_env example_video with op := example_op .close_read EINTR }]).1
        (glc_thread_run example_thread_close (fun _ => 0)
          [{ example_env example_video with op := example_op .close_read EINTR }]).2
        ⟨[], false⟩ ⟨1, false, 0⟩ ps_buffer_init ps_buffer_init).priv.ret = EINVAL := by
  decide

/-- C15 (amended): whenever a call inside the loop of `glc_thread` whose return
value is tested (every packet operation and callback of the loop except the two
`ps_packet_close` calls) returns EINTR, the thread goes to `err` and leaves with
result 0: the state and log of glc are as before (the cancel flag is not set),
`thread_finish_callback` receives 0, and the latched error of the stage is not
changed. `file_read` among other threads returns, and it returns 0 whenever one
of its packet operations, in the loop or under `send_eof`, has returned
EINTR. -/
theorem glc_thread_canceled (thread : glc_thread_t) (op : glc_thread_site → Nat)
    (es : List glc_thread_env) (glc : glc_t) (priv : glc_thread_private_s)
    (from_buf to_buf : ps_buffer_t) (site : glc_thread_site)
    (file_op : Nat → file_read_site → Nat) (file : file_s) (buffer : ps_buffer_t)
    (hsite : site.checked_in_loop = true)
    (hcall : (site, EINTR) ∈ (glc_thread_run thread op es).2.calls) :
    (glc_thread_run thread op es).1 = .err
    ∧ (glc_thread_leave thread (glc_thread_run thread op es).1 (glc_thread_run thread op es).2
        glc priv from_buf to_buf).glc = glc
    ∧ (glc_thread_leave thread (glc_thread_run thread op es).1 (glc_thread_run thread op es).2
        glc priv from_buf to_buf).thread_finish_callback = 0
    ∧ (glc_thread_leave thread (glc_thread_run thread op es).1 (glc_thread_run thread op es).2
        glc priv from_buf to_buf).priv.ret = priv.ret
    ∧ ∃ r, file_read_run file_op file buffer = some r
        ∧ ∀ file_site, (file_site, EINTR) ∈ r.calls → r.ret = 0 := by
  have hchecked : site.checked = true := by
    simp [glc_thread_site.checked, hsite]
  obtain ⟨he, hret⟩ := glc_thread_run_err_of_call thread op es site EINTR hchecked
    (by decide) hcall
  rw [he]
  obtain ⟨h1, h2, h3⟩ := glc_thread_leave_eintr thread _ glc priv from_buf to_buf hret
  refine ⟨rfl, h1, h2, h3, ?_⟩
  have hsome := file_read_run_isSome file_op file buffer
  rcases hfr : file_read_run file_op file buffer with _ | r
  · rw [hfr] at hsome
    cases hsome
  · exact ⟨r, rfl, fun file_site hc => file_read_run_eintr file_op file buffer r file_site hfr hc⟩

theorem glc_thread_canceled_witness :
    ((file_read_run (example_file_op .dma EINTR)
        (example_source GLC_STREAM_VERSION (frame_v4 example_video)) ps_buffer_init).map
        (fun r => (r.ret, r.calls))
      = some (0, [(.open_write, 0), (.write_header, 0), (.dma, EINTR)]))
    ∧ (glc_thread_run (pack_thread example_build example_codecs example_pack) (fun _ => 0)
        [{ example_env example_video with op := example_op .open_write EINTR }]).1 = .err
    ∧ (glc_thread_leave (pack_thread example_build example_codecs example_pack)
        (glc_thread_run (pack_thread example_build example_codecs example_pack) (fun _ => 0)
          [{ example_env example_video with op := example_op .open_write EINTR }]).1
        (glc_thread_run (pack_thread example_build example_codecs example_pack) (fun _ => 0)
          [{ example_env example_video with op := example_op .open_write EINTR }]).2
        ⟨[], false⟩ ⟨2, false, 0⟩ ps_buffer_init ps_buffer_init).glc
      = ⟨[], false⟩
    ∧ (glc_thread_leave (pack_thread example_build example_codecs example_pack)
        (glc_thread_run (pack_thread example_build example_codecs example_pack) (fun _ => 0)
          [{ example_env example_video with op := example_op .open_write EINTR }]).1
        (glc_thread_run (pack_thread example_build example_codecs example_pack) (fun _ => 0)
          [{ example_env example_video with op := example_op .open_write EINTR }]).2
        ⟨[], false⟩ ⟨2, false, 0⟩ ps_buffer_init ps_buffer_init).thread_finish_callback = 0
    ∧ (glc_thread_leave (pack_thread example_build example_codecs example_pack)
        (glc_thread_run (pack_thread example_build example_codecs example_pack) (fun _ => 0)
          [{ example_env example_video with op := example_op .open_write EINTR }]).1
        (glc_thread_run (pack_thread example_build example_codecs example_pack) (fun _ => 0)
          [{ example_env example_video with op := example_op .open_write EINTR }]).2
        ⟨[], false⟩ ⟨2, false, 0⟩ ps_buffer_init ps_buffer_init).priv.ret
      = 0
    ∧ ∃ r, file_read_run (example_file_op .dma EINTR)
          (example_source GLC_STREAM_VERSION (frame_v4 example_video)) ps_buffer_init = some r
        ∧ ∀ file_site, (file_site, EINTR) ∈ r.calls → r.ret = 0 :=
  ⟨by decide,
   glc_thread_canceled (pack_thread example_build example_codecs example_pack) (fun _ => 0)
    [{ example_env example_video with op := example_op .open_write EINTR }]
    ⟨[], false⟩ ⟨2, false, 0⟩ ps_buffer_init ps_buffer_init .open_write
    (example_file_op .dma EINTR)
    (example_source GLC_STREAM_VERSION (frame_v4 example_video)) ps_buffer_init
    rfl (by decide)⟩


theorem size_t_sub_succ (n : Nat) (h : n + 1 < 2 ^ 64) : size_t_sub (n + 1) 1 = n := by
  rw [size_t_sub_mod]
  norm_num at h ⊢
  omega

/-- The value that the exits `rs` latch on top of `r0`: the last non-zero one. -/
theorem latched_eq (rs : List Nat) (r0 : Nat) :
    rs.foldl (fun acc r => if r ≠ 0 then r else acc) r0
      = (rs.reverse.find? (fun r => decide (r ≠ 0))).getD r0 := by
  induction rs generalizing r0 with
  | nil => rfl
  | cons r rs ih =>
    rw [List.foldl_cons, ih, List.reverse_cons, List.find?_append]
    cases h : rs.reverse.find? (fun r => decide (r ≠ 0)) with
    | some x => simp
    | none =>
      by_cases hr : r = 0
      · simp [hr]
      · simp [hr]

theorem glc_thread_schedule_creates (n : Nat) (priv : glc_thread_private_s)
    (calls : List Nat) (es : List glc_thread_event)
    (h : priv.running_threads + n < 2 ^ 64) :
    glc_thread_schedule priv calls (List.replicate n .create ++ es)
      = glc_thread_schedule { priv with running_threads := priv.running_threads + n }
          calls es := by
  induction n generalizing priv with
  | zero => rfl
  | succ n ih =>
    rw [List.replicate_succ, List.cons_append, glc_thread_schedule,
      Nat.mod_eq_of_lt (by omega), ih _ (by simp only; omega)]
    congr 2
    simp only
    omega

theorem glc_thread_schedule_exits (rs : List Nat) (stop : Bool) (r0 : Nat)
    (calls : List Nat) (h : rs.length < 2 ^ 64) :
    glc_thread_schedule ⟨rs.length, stop, r0⟩ calls (rs.map .exit)
      = (⟨0, stop, rs.foldl (fun acc r => if r ≠ 0 then r else acc) r0⟩,
         calls ++ (if rs = [] then []
           else [rs.foldl (fun acc r => if r ≠ 0 then r else acc) r0])) := by
  induction rs generalizing r0 calls with
  | nil => simp [glc_thread_schedule]
  | cons r rs ih =>
    have hlen : (r :: rs).length = rs.length + 1 := rfl
    have hsub := size_t_sub_succ rs.length (by rw [← hlen]; exact h)
    simp only [List.map_cons, glc_thread_schedule, glc_thread_finish_section, hlen, hsub]
    have hrs : rs.length < 2 ^ 64 := by rw [hlen] at h; omega
    by_cases hr : r = 0
    · subst hr
      simp only [ne_eq, not_true_eq_false, if_false, List.foldl_cons]
      cases rs with
      | nil => simp [glc_thread_schedule]
      | cons a rs1 =>
        have := ih r0 calls hrs
        simp only [List.length_cons, Nat.succ_pos, if_true, Option.toList, List.append_nil,
          gt_iff_lt] at this ⊢
        rw [this]
        simp
    · simp only [ne_eq, hr, not_false_eq_true, if_true, List.foldl_cons]
      cases rs with
      | nil => simp [glc_thread_schedule]
      | cons a rs1 =>
        have := ih r calls hrs
        simp only [List.length_cons, Nat.succ_pos, if_true, Option.toList, List.append_nil,
          gt_iff_lt] at this ⊢
        rw [this]
        simp

/-- C13 (amended): for a stage worker whose `N >= 1` threads were all created and
then exit with the return codes `r1..rN` (in the order in which they pass
through the finish section), `finish_callback` is called exactly once, and
the error code passed to it is the last non-zero `ri` in that order, or 0 if
all are zero. -/
theorem glc_thread_finish_latched (rs : List Nat) (hne : rs ≠ [])
    (hN : rs.length < 2 ^ 64) :
    (glc_thread_schedule glc_thread_private_init []
        (List.replicate rs.length .create ++ rs.map .exit)).2
      = [(rs.reverse.find? (fun r => decide (r ≠ 0))).getD 0] := by
  rw [glc_thread_schedule_creates _ _ _ _ (by simpa [glc_thread_private_init] using hN)]
  have := glc_thread_schedule_exits rs false 0 [] hN
  simp only [glc_thread_private_init, Nat.zero_add]
  rw [this, latched_eq]
  simp [hne]

/-- C13 (counterexample): two threads that exit with 5 and then 7 make
`finish_callback` receive 7, while the first non-zero code is 5. -/
theorem glc_thread_finish_latched_counterexample :
    (glc_thread_schedule glc_thread_private_init [] [.create, .create, .exit 5, .exit 7]).2
      = [7]
    ∧ [5, 7].find? (fun r => decide (r ≠ 0)) = some 5 := by
  decide

theorem glc_thread_finish_latched_witness :
    (glc_thread_schedule glc_thread_private_init []
        (List.replicate [5, 0, 7, 0].length .create ++ [5, 0, 7, 0].map .exit)).2
      = [([5, 0, 7, 0].reverse.find? (fun r => decide (r ≠ 0))).getD 0] :=
  glc_thread_finish_latched [5, 0, 7, 0] (by decide) (by decide)

/-- C14 (failing schedule): with two threads, when the first thread exits before
the creation loop has created the second one, `finish_callback` is called
twice, the first time by a thread that is not the last to exit. -/
theorem glc_thread_create_early_exit :
    glc_thread_schedule_valid 0 [.create, .exit 0, .create, .exit 0] = true
    ∧ (glc_thread_schedule glc_thread_private_init []
        [.create, .exit 0, .create, .exit 0]).2 = [0, 0]
    ∧ (glc_thread_schedule glc_thread_private_init [] [.create, .exit 0]).2 = [0] := by
  decide

/-- C16 (failing input): in a stage that reads and writes, when `ps_packet_init`
of the write packet fails with ENOMEM the thread sets the global cancel flag
and cancels the input buffer, but `thread_finish_callback` receives 0 and the
latched error stays 0; when `ps_packet_init` of the read packet fails with
ENOMEM, both receive ENOMEM. -/
theorem glc_thread_init_write_failure :
    (glc_thread_leave (pack_thread example_build example_codecs example_pack)
        (glc_thread_run (pack_thread example_build example_codecs example_pack)
          (example_op .init_write ENOMEM) []).1
        (glc_thread_run (pack_thread example_build example_codecs example_pack)
          (example_op .init_write ENOMEM) []).2
        ⟨[], false⟩ ⟨1, false, 0⟩ ps_buffer_init ps_buffer_init)
      = { glc := ⟨[⟨GLC_ERROR, "glc_thread", "%s (%d)"⟩], true⟩
          priv := ⟨0, true, 0⟩
          from_buf := ps_buffer_cancel ps_buffer_init
          to_buf := ps_buffer_cancel ps_buffer_init
          frame := { glc_thread_frame_init with
                     calls := [(.init_read, 0), (.init_write, ENOMEM)] }
          thread_finish_callback := 0
          finish_callback := some 0 }
    ∧ (glc_thread_leave (pack_thread example_build example_codecs example_pack)
        (glc_thread_run (pack_thread example_build example_codecs example_pack)
          (example_op .init_read ENOMEM) []).1
        (glc_thread_run (pack_thread example_build example_codecs example_pack)
          (example_op .init_read ENOMEM) []).2
        ⟨[], false⟩ ⟨1, false, 0⟩ ps_buffer_init ps_buffer_init).thread_finish_callback
      = ENOMEM
    ∧ (glc_thread_leave (pack_thread example_build example_codecs example_pack)
        (glc_thread_run (pack_thread example_build example_codecs example_pack)
          (example_op .init_read ENOMEM) []).1
        (glc_thread_run (pack_thread example_build example_codecs example_pack)
          (example_op .init_read ENOMEM) []).2
        ⟨[], false⟩ ⟨1, false, 0⟩ ps_buffer_init ps_buffer_init).priv.ret
      = ENOMEM := by
  decide

/-! ## alsa_hook.c: streams, the write lock, capture calls -/

theorem alsa_hook_get_stream_find (h : alsa_hook_s) (pcm : snd_pcm_t) (s : alsa_hook_stream_s)
    (hget : alsa_hook_get_stream h pcm = (h, s)) :
    h.streams.find? (fun find => find.pcm.handle = pcm.handle) = some s := by
  unfold alsa_hook_get_stream at hget
  cases hf : h.streams.find? (fun find => find.pcm.handle = pcm.handle) with
  | none =>
    rw [hf] at hget
    simp only [Prod.mk.injEq] at hget
    have := congrArg alsa_hook_s.streams hget.1
    simp at this
  | some f =>
    rw [hf] at hget
    simp only [Prod.mk.injEq] at hget
    rw [hget.2]

theorem alsa_hook_get_stream_handle (h : alsa_hook_s) (pcm : snd_pcm_t) (s : alsa_hook_stream_s)
    (hget : alsa_hook_get_stream h pcm = (h, s)) : s.pcm.handle = pcm.handle := by
  have := List.find?_some (alsa_hook_get_stream_find h pcm s hget)
  simpa using this

theorem alsa_hook_put_find (l : List alsa_hook_stream_s) (pcm : snd_pcm_t)
    (s t : alsa_hook_stream_s)
    (hf : l.find? (fun find => find.pcm.handle = pcm.handle) = some s)
    (ht : t.pcm.handle = pcm.handle) :
    (alsa_hook_put_stream.put t l).find? (fun find => find.pcm.handle = pcm.handle) = some t := by
  induction l with
  | nil => simp at hf
  | cons a l ih =>
    unfold alsa_hook_put_stream.put
    by_cases ha : a.pcm.handle = pcm.handle
    · simp [ha, ht]
    · have hne : ¬ a.pcm.handle = t.pcm.handle := by rw [ht]; exact ha
      simp only [List.find?, ha, decide_False] at hf
      simp [hne, ha, ih hf]

theorem alsa_hook_get_put (h : alsa_hook_s) (pcm : snd_pcm_t) (s t : alsa_hook_stream_s)
    (glc : glc_t) (hget : alsa_hook_get_stream h pcm = (h, s))
    (ht : t.pcm.handle = pcm.handle) :
    alsa_hook_get_stream (alsa_hook_put_stream { h with glc := glc } t) pcm
      = (alsa_hook_put_stream { h with glc := glc } t, t) := by
  have hf := alsa_hook_put_find h.streams pcm s t (alsa_hook_get_stream_find h pcm s hget) ht
  unfold alsa_hook_get_stream
  simp only [alsa_hook_put_stream] at hf ⊢
  rw [hf]

theorem alsa_hook_lock_write_free (stream : alsa_hook_stream_s)
    (hfree : (alsa_hook_write_lock stream).held = false) :
    alsa_hook_lock_write stream
      = some (0, if stream.mode &&& SND_PCM_ASYNC ≠ 0 then
          { stream with write_spinlock :=
              ⟨true, stream.write_spinlock.locks + 1, stream.write_spinlock.unlocks⟩ }
        else
          { stream with write_mutex :=
              ⟨true, stream.write_mutex.locks + 1, stream.write_mutex.unlocks⟩ }) := by
  unfold alsa_hook_write_lock at hfree
  unfold alsa_hook_lock_write alsa_hook_lock
  by_cases hm : stream.mode &&& SND_PCM_ASYNC ≠ 0
  · rw [if_pos hm] at hfree ⊢
    simp [hfree, hm]
  · rw [if_neg hm] at hfree ⊢
    simp [hfree, hm]

theorem alsa_hook_unlock_write_locked (stream : alsa_hook_stream_s) :
    (alsa_hook_unlock_write
        (if stream.mode &&& SND_PCM_ASYNC ≠ 0 then
          { stream with write_spinlock :=
              ⟨true, stream.write_spinlock.locks + 1, stream.write_spinlock.unlocks⟩ }
        else
          { stream with write_mutex :=
              ⟨true, stream.write_mutex.locks + 1, stream.write_mutex.unlocks⟩ })).2
      = (if stream.mode &&& SND_PCM_ASYNC ≠ 0 then
          { stream with write_spinlock :=
              ⟨false, stream.write_spinlock.locks + 1, stream.write_spinlock.unlocks + 1⟩ }
        else
          { stream with write_mutex :=
              ⟨false, stream.write_mutex.locks + 1, stream.write_mutex.unlocks + 1⟩ }) := by
  unfold alsa_hook_unlock_write alsa_hook_unlock
  by_cases hm : stream.mode &&& SND_PCM_ASYNC ≠ 0
  · simp [hm]
  · simp [hm]

theorem alsa_hook_released (stream : alsa_hook_stream_s)
    (hfree : (alsa_hook_write_lock stream).held = false) :
    ∃ locked, alsa_hook_lock_write stream = some (0, locked)
      ∧ (alsa_hook_unlock_write locked).2.pcm = stream.pcm
      ∧ (alsa_hook_unlock_write locked).2.capture_full = stream.capture_full
      ∧ (alsa_hook_unlock_write locked).2.capture_data = stream.capture_data
      ∧ (alsa_hook_unlock_write locked).2.capture_size = stream.capture_size
      ∧ (alsa_hook_unlock_write locked).2.capture_data_size = stream.capture_data_size
      ∧ (alsa_hook_unlock_write locked).2.capture_time = stream.capture_time
      ∧ (alsa_hook_write_lock (alsa_hook_unlock_write locked).2).held = false
      ∧ (alsa_hook_write_lock (alsa_hook_unlock_write locked).2).locks
          = (alsa_hook_write_lock stream).locks + 1
      ∧ (alsa_hook_write_lock (alsa_hook_unlock_write locked).2).unlocks
          = (alsa_hook_write_lock stream).unlocks + 1
      ∧ locked.initialized = stream.initialized
      ∧ locked.flags = stream.flags
      ∧ locked.mode = stream.mode
      ∧ locked.capture_ready = stream.capture_ready
      ∧ locked.channels = stream.channels
      ∧ locked.mmap_areas = stream.mmap_areas := by
  refine ⟨_, alsa_hook_lock_write_free stream hfree, ?_⟩
  rw [alsa_hook_unlock_write_locked]
  by_cases hm : stream.mode &&& SND_PCM_ASYNC ≠ 0
  · simp [hm, alsa_hook_write_lock]
  · simp [hm, alsa_hook_write_lock]

/-- C18: on an initialised stream whose flags contain INTERLEAVED and whose write
lock is free, while capturing is active, `alsa_hook_writen` takes the write
lock, returns EINVAL and has released the lock (one lock and one unlock more,
lock free); the full semaphore, the handoff buffer, its size, the capture time
and the target buffer are unchanged. -/
theorem alsa_hook_writen_interleaved (env : alsa_hook_env) (alsa_hook : alsa_hook_s)
    (pcm : snd_pcm_t) (bufs : List (List UInt8)) (size : Nat) (stream : alsa_hook_stream_s)
    (hcap : alsa_hook.flags &&& ALSA_HOOK_CAPTURING ≠ 0)
    (hget : alsa_hook_get_stream alsa_hook pcm = (alsa_hook, stream))
    (hinit : stream.initialized ≠ 0)
    (hflag : stream.flags &&& GLC_AUDIO_INTERLEAVED ≠ 0)
    (hfree : (alsa_hook_write_lock stream).held = false) :
    ∃ locked hook,
      alsa_hook_lock_write stream = some (0, locked)
      ∧ alsa_hook_writen env alsa_hook pcm bufs size = some (EINVAL, hook)
      ∧ alsa_hook_get_stream hook pcm = (hook, (alsa_hook_unlock_write locked).2)
      ∧ hook.to_buf = alsa_hook.to_buf
      ∧ (alsa_hook_unlock_write locked).2.capture_full = stream.capture_full
      ∧ (alsa_hook_unlock_write locked).2.capture_data = stream.capture_data
      ∧ (alsa_hook_unlock_write locked).2.capture_size = stream.capture_size
      ∧ (alsa_hook_unlock_write locked).2.capture_time = stream.capture_time
      ∧ (alsa_hook_write_lock (alsa_hook_unlock_write locked).2).held = false
      ∧ (alsa_hook_write_lock (alsa_hook_unlock_write locked).2).locks
          = (alsa_hook_write_lock stream).locks + 1
      ∧ (alsa_hook_write_lock (alsa_hook_unlock_write locked).2).unlocks
          = (alsa_hook_write_lock stream).unlocks + 1 := by
  obtain ⟨locked, hlock, hpcm, hfull, hdata, hsize, -, htime, hheld, hlocks, hunlocks, hi, hf,
    -, -, -, -⟩ := alsa_hook_released stream hfree
  have hh := alsa_hook_get_stream_handle alsa_hook pcm stream hget
  have hcap2 : ¬ alsa_hook.flags &&& ALSA_HOOK_CAPTURING = 0 := hcap
  have hi2 : ¬ stream.initialized = 0 := hinit
  have hf2 : ¬ locked.flags &&& GLC_AUDIO_INTERLEAVED = 0 := by rw [hf]; exact hflag
  refine ⟨locked, _, hlock, ?_,
    alsa_hook_get_put alsa_hook pcm stream _
      (glc_log alsa_hook.glc GLC_ERROR "alsa_hook"
        "stream format (interleaved) incompatible with snd_pcm_writen()") hget
      (by rw [hpcm]; exact hh), ?_, hfull, hdata, hsize, htime, hheld, hlocks, hunlocks⟩
  · unfold alsa_hook_writen
    rw [if_neg hcap2, hget]
    simp only [hi2, if_false, hlock, ne_eq, hf2, not_false_eq_true, if_true]
  · simp [alsa_hook_put_stream]

/-- C17 (failing input): the claim fails after an earlier successful configuration. On a hook
that is not started, whose stream was configured successfully (`fmt = 1`), a
further `alsa_hook_hw_params` with the unsupported sample format S8 returns
ENOTSUP and has stored `format = 0`, but leaves `fmt = 1`; the following
`alsa_hook_init_streams` initialises that stream and emits an AUDIO_FORMAT
message for it, whose format byte is 0. -/
theorem alsa_hook_hw_params_not_supported_stale :
    (example_alsa_stream example_alsa_hook_configured).fmt = 1
    ∧ (example_alsa_stream example_alsa_hook_configured).initialized = 0
    ∧ (alsa_hook_hw_params example_alsa_hook_configured example_pcm example_hw_params_s8).map
        (fun r => r.1) = some (ENOTSUP : Int)
    ∧ (example_alsa_stream example_alsa_hook_reconfigured).fmt = 1
    ∧ (example_alsa_stream example_alsa_hook_reconfigured).format = 0
    ∧ (alsa_hook_init_streams example_alsa_hook_reconfigured).1 = 0
    ∧ (example_alsa_stream (alsa_hook_init_streams example_alsa_hook_reconfigured).2).initialized
        = 1
    ∧ (alsa_hook_init_streams example_alsa_hook_reconfigured).2.to_buf.map (fun b => b.packets)
        = some [[GLC_MESSAGE_AUDIO_FORMAT, 1, 0, 0, 0, 0, 0, 0, 0, 0x44, 0xac, 0, 0, 2, 0, 0, 0,
            0]] := by
  decide

theorem alsa_hook_wait_for_thread_busy (alsa_hook : alsa_hook_s) (stream : alsa_hook_stream_s)
    (hasync : stream.mode &&& SND_PCM_ASYNC ≠ 0)
    (hskip : alsa_hook.flags &&& ALSA_HOOK_ALLOW_SKIP ≠ 0)
    (hready : stream.capture_ready = 0) :
    alsa_hook_wait_for_thread alsa_hook stream
      = some (EBUSY, glc_log alsa_hook.glc GLC_WARNING "alsa_hook"
          "dropped audio data, capture thread not ready", stream) := by
  unfold alsa_hook_wait_for_thread
  rw [if_pos hasync, if_neg (by simp [hready]), if_pos hskip]

/-- C19 (amended): on an initialised stream in async mode whose write lock is
free, while capturing is active, ALLOW_SKIP is set and the capture thread is
not ready (`capture_ready = 0`): `alsa_hook_writei` returns EBUSY,
`alsa_hook_writen` returns EBUSY if the flags of the stream lack INTERLEAVED,
and `alsa_hook_mmap_commit` returns EBUSY if the stream has channels and areas
were recorded. Each of these calls takes the write lock and releases it, does
not post the full semaphore, and leaves the handoff buffer, its size, the
capture time and the target buffer unchanged. -/
theorem alsa_hook_capture_busy (env : alsa_hook_env) (alsa_hook : alsa_hook_s)
    (pcm : snd_pcm_t) (buffer : List UInt8) (bufs : List (List UInt8)) (size offset : Nat)
    (stream : alsa_hook_stream_s)
    (hcap : alsa_hook.flags &&& ALSA_HOOK_CAPTURING ≠ 0)
    (hskip : alsa_hook.flags &&& ALSA_HOOK_ALLOW_SKIP ≠ 0)
    (hget : alsa_hook_get_stream alsa_hook pcm = (alsa_hook, stream))
    (hinit : stream.initialized ≠ 0)
    (hasync : stream.mode &&& SND_PCM_ASYNC ≠ 0)
    (hready : stream.capture_ready = 0)
    (hfree : (alsa_hook_write_lock stream).held = false) :
    ∃ locked,
      alsa_hook_lock_write stream = some (0, locked)
      ∧ (alsa_hook_unlock_write locked).2.capture_full = stream.capture_full
      ∧ (alsa_hook_unlock_write locked).2.capture_data = stream.capture_data
      ∧ (alsa_hook_unlock_write locked).2.capture_size = stream.capture_size
      ∧ (alsa_hook_unlock_write locked).2.capture_time = stream.capture_time
      ∧ (alsa_hook_write_lock (alsa_hook_unlock_write locked).2).held = false
      ∧ (∃ hook, alsa_hook_writei env alsa_hook pcm buffer size = some (EBUSY, hook)
          ∧ alsa_hook_get_stream hook pcm = (hook, (alsa_hook_unlock_write locked).2)
          ∧ hook.to_buf = alsa_hook.to_buf)
      ∧ (stream.flags &&& GLC_AUDIO_INTERLEAVED = 0 →
          ∃ hook, alsa_hook_writen env alsa_hook pcm bufs size = some (EBUSY, hook)
            ∧ alsa_hook_get_stream hook pcm = (hook, (alsa_hook_unlock_write locked).2)
            ∧ hook.to_buf = alsa_hook.to_buf)
      ∧ (stream.channels ≠ 0 → stream.mmap_areas ≠ none →
          ∃ hook, alsa_hook_mmap_commit env alsa_hook pcm offset size = some (EBUSY, hook)
            ∧ alsa_hook_get_stream hook pcm = (hook, (alsa_hook_unlock_write locked).2)
            ∧ hook.to_buf = alsa_hook.to_buf) := by
  obtain ⟨locked, hlock, hpcm, hfull, hdata, hsize, -, htime, hheld, -, -, hi, hf,
    hm, hr, hc, ha⟩ := alsa_hook_released stream hfree
  have hh := alsa_hook_get_stream_handle alsa_hook pcm stream hget
  have hcap2 : ¬ alsa_hook.flags &&& ALSA_HOOK_CAPTURING = 0 := hcap
  have hi2 : ¬ stream.initialized = 0 := hinit
  have hbusy : ∀ g : glc_t, alsa_hook_wait_for_thread { alsa_hook with glc := g } locked
      = some (EBUSY, glc_log g GLC_WARNING "alsa_hook"
          "dropped audio data, capture thread not ready", locked) :=
    fun g => alsa_hook_wait_for_thread_busy _ locked (by rw [hm]; exact hasync) hskip
      (by rw [hr]; exact hready)
  have hbusy0 := hbusy alsa_hook.glc
  have hne : ¬ EBUSY = 0 := by decide
  refine ⟨locked, hlock, hfull, hdata, hsize, htime, hheld, ?_, ?_, ?_⟩
  · refine ⟨_, ?_, alsa_hook_get_put alsa_hook pcm stream _
      (glc_log alsa_hook.glc GLC_WARNING "alsa_hook"
        "dropped audio data, capture thread not ready") hget (by rw [hpcm]; exact hh), ?_⟩
    · unfold alsa_hook_writei
      rw [if_neg hcap2, hget]
      simp only [hi2, if_false, hlock, hbusy0, ne_eq, hne, not_false_eq_true, if_true]
    · simp [alsa_hook_put_stream]
  · intro hflag
    refine ⟨_, ?_, alsa_hook_get_put alsa_hook pcm stream _
      (glc_log alsa_hook.glc GLC_WARNING "alsa_hook"
        "dropped audio data, capture thread not ready") hget (by rw [hpcm]; exact hh), ?_⟩
    · unfold alsa_hook_writen
      rw [if_neg hcap2, hget]
      simp only [hi2, if_false, hlock, hf, hflag, ne_eq, not_true_eq_false, hbusy0, hne,
        not_false_eq_true, if_true]
    · simp [alsa_hook_put_stream]
  · intro hchan hareas
    obtain ⟨areas, hsome⟩ := Option.ne_none_iff_exists'.mp hareas
    have hla : locked.mmap_areas = some areas := by rw [ha]; exact hsome
    have hlc : ¬ locked.channels = 0 := by rw [hc]; exact hchan
    refine ⟨_, ?_, alsa_hook_get_put alsa_hook pcm stream _
      (glc_log (if offset ≠ locked.offset then
          glc_log alsa_hook.glc GLC_WARNING "alsa_hook" "offset=%lu != stream->offset=%lu"
        else alsa_hook.glc) GLC_WARNING "alsa_hook"
        "dropped audio data, capture thread not ready") hget (by rw [hpcm]; exact hh), ?_⟩
    · unfold alsa_hook_mmap_commit
      rw [if_neg hcap2, hget]
      simp only [hlock, hlc, if_false, hla, hbusy, ne_eq, hne, not_false_eq_true, if_true]
    · simp [alsa_hook_put_stream]

theorem alsa_hook_locked (stream : alsa_hook_stream_s)
    (hfree : (alsa_hook_write_lock stream).held = false) :
    ∃ locked, alsa_hook_lock_write stream = some (0, locked)
      ∧ locked.pcm = stream.pcm
      ∧ locked.capture_full = stream.capture_full
      ∧ locked.capture_data = stream.capture_data
      ∧ locked.capture_size = stream.capture_size
      ∧ locked.capture_time = stream.capture_time
      ∧ (alsa_hook_write_lock locked).held = true
      ∧ (alsa_hook_write_lock locked).locks = (alsa_hook_write_lock stream).locks + 1
      ∧ (alsa_hook_write_lock locked).unlocks = (alsa_hook_write_lock stream).unlocks
      ∧ locked.channels = stream.channels
      ∧ locked.mmap_areas = stream.mmap_areas := by
  refine ⟨_, alsa_hook_lock_write_free stream hfree, ?_⟩
  by_cases hm : stream.mode &&& SND_PCM_ASYNC ≠ 0
  · simp [hm, alsa_hook_write_lock]
  · simp [hm, alsa_hook_write_lock]

theorem alsa_hook_writen_interleaved_witness :
    (alsa_hook_writen example_alsa_env (example_alsa_hook 0 0 example_hw_params) example_pcm
      [[1, 2], [3, 4]] 1).map (fun r => r.1) = some EINVAL := by
  obtain ⟨locked, hook, -, h, -⟩ :=
    alsa_hook_writen_interleaved example_alsa_env (example_alsa_hook 0 0 example_hw_params)
      example_pcm [[1, 2], [3, 4]] 1
      (example_alsa_stream (example_alsa_hook 0 0 example_hw_params))
      (by decide) (by decide) (by decide) (by decide) (by decide)
  rw [h]
  rfl

/-- C19 (counterexample): the claim fails for `alsa_hook_writen` and for streams that are not in
async mode. On the initialised async stream of `example_pcm`, with ALLOW_SKIP
set and the capture thread not ready, `alsa_hook_writen` returns EINVAL, not
EBUSY, because the flags of the stream contain INTERLEAVED. On the initialised
stream that is not in async mode, with ALLOW_SKIP set, whose capture thread
has not taken the previous buffer (the empty semaphore is 0),
`alsa_hook_writei` does not return EBUSY: it waits in `sem_wait`. -/
theorem alsa_hook_capture_busy_counterexample :
    (example_alsa_stream (example_alsa_hook SND_PCM_ASYNC 1 example_hw_params)).initialized = 1
    ∧ (example_alsa_hook SND_PCM_ASYNC 1 example_hw_params).flags &&& ALSA_HOOK_ALLOW_SKIP ≠ 0
    ∧ (example_alsa_stream (example_alsa_hook SND_PCM_ASYNC 1 example_hw_params)).capture_ready
        = 0
    ∧ (alsa_hook_writen example_alsa_env (example_alsa_hook SND_PCM_ASYNC 1 example_hw_params)
        example_pcm [[1, 2], [3, 4]] 1).map (fun r => r.1) = some EINVAL
    ∧ (example_alsa_stream example_alsa_hook_full).initialized = 1
    ∧ example_alsa_hook_full.flags &&& ALSA_HOOK_ALLOW_SKIP ≠ 0
    ∧ (example_alsa_stream example_alsa_hook_full).capture_empty = 0
    ∧ (example_alsa_stream example_alsa_hook_full).capture_ready = 0
    ∧ alsa_hook_writei example_alsa_env example_alsa_hook_full example_pcm [5, 6, 7, 8] 1
        = none := by
  decide

theorem alsa_hook_capture_busy_witness :
    (alsa_hook_writei example_alsa_env (example_alsa_hook SND_PCM_ASYNC 1 example_hw_params)
      example_pcm [1, 2, 3, 4] 1).map (fun r => r.1) = some EBUSY := by
  obtain ⟨locked, -, -, -, -, -, -, ⟨hook, h, -⟩, -⟩ :=
    alsa_hook_capture_busy example_alsa_env (example_alsa_hook SND_PCM_ASYNC 1 example_hw_params)
      example_pcm [1, 2, 3, 4] [] 1 0
      (example_alsa_stream (example_alsa_hook SND_PCM_ASYNC 1 example_hw_params))
      (by decide) (by decide) (by decide) (by decide) (by decide) (by decide) (by decide)
  rw [h]
  rfl

/-- C20 (counterexample): the claim fails for a record without channels. On the record of a
PCM handle that was opened but never configured (no areas recorded,
`channels = 0`), while capturing is active, `alsa_hook_mmap_commit` returns 0,
not EINVAL, and has released the write lock. -/
theorem alsa_hook_mmap_commit_no_begin_counterexample :
    (alsa_hook_get_stream (alsa_hook_open (example_alsa_hook 0 0 example_hw_params)
        example_pcm_other 0).2 example_pcm_other).2.mmap_areas = none
    ∧ (alsa_hook_mmap_commit example_alsa_env
        (alsa_hook_open (example_alsa_hook 0 0 example_hw_params) example_pcm_other 0).2
        example_pcm_other 0 1).map
          (fun r => (r.1, (alsa_hook_get_stream r.2 example_pcm_other).2.write_mutex))
        = some (0, ⟨false, 1, 1⟩) := by
  decide

/-- C20 (amended): on a stream record that has channels (`channels ≠ 0`), on
which no areas are recorded and whose write lock is free, while capturing is
active, `alsa_hook_mmap_commit` returns EINVAL and returns with the write lock
held (one lock, no unlock); the full semaphore, the handoff buffer, its size,
the capture time and the target buffer are unchanged. -/
theorem alsa_hook_mmap_commit_no_begin (env : alsa_hook_env) (alsa_hook : alsa_hook_s)
    (pcm : snd_pcm_t) (offset frames : Nat) (stream : alsa_hook_stream_s)
    (hcap : alsa_hook.flags &&& ALSA_HOOK_CAPTURING ≠ 0)
    (hget : alsa_hook_get_stream alsa_hook pcm = (alsa_hook, stream))
    (hchan : stream.channels ≠ 0)
    (hareas : stream.mmap_areas = none)
    (hfree : (alsa_hook_write_lock stream).held = false) :
    ∃ locked hook,
      alsa_hook_lock_write stream = some (0, locked)
      ∧ alsa_hook_mmap_commit env alsa_hook pcm offset frames = some (EINVAL, hook)
      ∧ alsa_hook_get_stream hook pcm = (hook, locked)
      ∧ (alsa_hook_write_lock locked).held = true
      ∧ (alsa_hook_write_lock locked).locks = (alsa_hook_write_lock stream).locks + 1
      ∧ (alsa_hook_write_lock locked).unlocks = (alsa_hook_write_lock stream).unlocks
      ∧ locked.capture_full = stream.capture_full
      ∧ locked.capture_data = stream.capture_data
      ∧ locked.capture_size = stream.capture_size
      ∧ locked.capture_time = stream.capture_time
      ∧ hook.to_buf = alsa_hook.to_buf := by
  obtain ⟨locked, hlock, hpcm, hfull, hdata, hsize, htime, hheld, hlocks, hunlocks, hc, ha⟩ :=
    alsa_hook_locked stream hfree
  have hh := alsa_hook_get_stream_handle alsa_hook pcm stream hget
  have hcap2 : ¬ alsa_hook.flags &&& ALSA_HOOK_CAPTURING = 0 := hcap
  have hlc : ¬ locked.channels = 0 := by rw [hc]; exact hchan
  have hla : locked.mmap_areas = none := by rw [ha]; exact hareas
  refine ⟨locked, _, hlock, ?_,
    alsa_hook_get_put alsa_hook pcm stream _
      (glc_log alsa_hook.glc GLC_WARNING "alsa_hook"
        "snd_pcm_mmap_commit() before snd_pcm_mmap_begin()") hget
      (by rw [hpcm]; exact hh), hheld, hlocks, hunlocks, hfull, hdata, hsize, htime, ?_⟩
  · unfold alsa_hook_mmap_commit
    rw [if_neg hcap2, hget]
    simp only [hlock, hlc, if_false, hla]
  · simp [alsa_hook_put_stream]

theorem alsa_hook_mmap_commit_no_begin_witness :
    (alsa_hook_mmap_commit example_alsa_env (example_alsa_hook 0 0 example_hw_params)
      example_pcm 0 1).map (fun r => r.1) = some EINVAL := by
  obtain ⟨locked, hook, -, h, -⟩ :=
    alsa_hook_mmap_commit_no_begin example_alsa_env (example_alsa_hook 0 0 example_hw_params)
      example_pcm 0 1 (example_alsa_stream (example_alsa_hook 0 0 example_hw_params))
      (by decide) (by decide) (by decide) (by decide) (by decide)
  rw [h]
  rfl

theorem alsa_hook_get_stream_idem (h : alsa_hook_s) (pcm : snd_pcm_t) :
    alsa_hook_get_stream (alsa_hook_get_stream h pcm).1 pcm
      = ((alsa_hook_get_stream h pcm).1, (alsa_hook_get_stream h pcm).2) := by
  unfold alsa_hook_get_stream
  cases hf : h.streams.find? (fun find => find.pcm.handle = pcm.handle) with
  | none => simp [alsa_hook_stream_new]
  | some f => simp [hf]

theorem alsa_hook_get_stream_fields (h : alsa_hook_s) (pcm : snd_pcm_t) :
    (alsa_hook_get_stream h pcm).1.flags = h.flags
    ∧ (alsa_hook_get_stream h pcm).1.started = h.started
    ∧ (alsa_hook_get_stream h pcm).1.to_buf = h.to_buf
    ∧ (alsa_hook_get_stream h pcm).1.glc = h.glc := by
  unfold alsa_hook_get_stream
  cases hf : h.streams.find? (fun find => find.pcm.handle = pcm.handle) <;> simp

theorem alsa_hook_stream_init_fields (h : alsa_hook_s) (s : alsa_hook_stream_s) :
    (alsa_hook_stream_init h s).2.2.flags = s.flags
    ∧ (alsa_hook_stream_init h s).2.2.pcm = s.pcm
    ∧ (alsa_hook_stream_init h s).2.2.mode = s.mode
    ∧ (alsa_hook_stream_init h s).2.2.write_mutex = s.write_mutex
    ∧ (alsa_hook_stream_init h s).2.2.write_spinlock = s.write_spinlock
    ∧ (alsa_hook_stream_init h s).2.1.streams = h.streams := by
  unfold alsa_hook_stream_init
  by_cases hfmt : s.fmt = 0
  · simp [hfmt]
  · simp only [hfmt, if_false]
    by_cases hid : s.id < 1 <;> by_cases hrun : s.capture_running ≠ 0 <;>
      simp [hid, hrun, glc_state_audio_new]
theorem alsa_hook_get_put_streams (H h : alsa_hook_s) (pcm : snd_pcm_t)
    (s t : alsa_hook_stream_s) (hs : H.streams = h.streams)
    (hget : alsa_hook_get_stream h pcm = (h, s)) (ht : t.pcm.handle = pcm.handle) :
    alsa_hook_get_stream (alsa_hook_put_stream H t) pcm = (alsa_hook_put_stream H t, t) := by
  have hf := alsa_hook_put_find h.streams pcm s t (alsa_hook_get_stream_find h pcm s hget) ht
  unfold alsa_hook_get_stream
  simp only [alsa_hook_put_stream, hs] at hf ⊢
  rw [hf]

theorem alsa_hook_lock_write_fields (s l : alsa_hook_stream_s) (r : Nat)
    (h : alsa_hook_lock_write s = some (r, l)) :
    l.pcm = s.pcm ∧ l.mode = s.mode ∧ l.initialized = s.initialized ∧ l.flags = s.flags := by
  unfold alsa_hook_lock_write alsa_hook_lock at h
  by_cases hm : s.mode &&& SND_PCM_ASYNC ≠ 0
  · rw [if_pos hm] at h
    by_cases hh : s.write_spinlock.held = true
    · simp [hh] at h
    · simp only [hh, Bool.false_eq_true, if_false, Option.map_some', Option.some.injEq,
        Prod.mk.injEq] at h
      obtain ⟨-, rfl⟩ := h
      simp
  · rw [if_neg hm] at h
    by_cases hh : s.write_mutex.held = true
    · simp [hh] at h
    · simp only [hh, Bool.false_eq_true, if_false, Option.map_some', Option.some.injEq,
        Prod.mk.injEq] at h
      obtain ⟨-, rfl⟩ := h
      simp

theorem alsa_hook_unlock_write_fields (s : alsa_hook_stream_s) :
    (alsa_hook_unlock_write s).2.pcm = s.pcm ∧ (alsa_hook_unlock_write s).2.flags = s.flags
    ∧ (alsa_hook_unlock_write s).2.mode = s.mode
    ∧ (alsa_hook_unlock_write s).2.capture_data = s.capture_data
    ∧ (alsa_hook_unlock_write s).2.capture_size = s.capture_size
    ∧ (alsa_hook_unlock_write s).2.capture_full = s.capture_full := by
  unfold alsa_hook_unlock_write
  by_cases hm : s.mode &&& SND_PCM_ASYNC ≠ 0 <;> simp [hm]

theorem alsa_hook_hw_params_done_core (h1 H : alsa_hook_s) (pcm : snd_pcm_t)
    (s0 s : alsa_hook_stream_s) (hook : alsa_hook_s) (hs : H.streams = h1.streams)
    (hget : alsa_hook_get_stream h1 pcm = (h1, s0)) (hpcm : s.pcm.handle = pcm.handle)
    (hok : (if H.started ≠ 0 then
        if (alsa_hook_stream_init H s).1 ≠ 0 then
          alsa_hook_hw_params_err (alsa_hook_stream_init H s).2.1
            (alsa_hook_stream_init H s).2.2 (alsa_hook_stream_init H s).1
        else (0, alsa_hook_put_stream (alsa_hook_stream_init H s).2.1
          (alsa_hook_unlock_write (alsa_hook_stream_init H s).2.2).2)
      else (0, alsa_hook_put_stream H (alsa_hook_unlock_write s).2)) = (0, hook)) :
    alsa_hook_get_stream hook pcm = (hook, (alsa_hook_get_stream hook pcm).2)
    ∧ (alsa_hook_get_stream hook pcm).2.flags = s.flags := by
  by_cases hst : H.started ≠ 0
  · rw [if_pos hst] at hok
    split_ifs at hok with hr
    · simp only [alsa_hook_hw_params_err, Prod.mk.injEq] at hok
      exact absurd (by exact_mod_cast hok.1) hr
    · simp only [Prod.mk.injEq, true_and] at hok
      obtain ⟨hfl, hp, -, -, -, hstr⟩ := alsa_hook_stream_init_fields H s
      obtain ⟨up, uf, -⟩ := alsa_hook_unlock_write_fields (alsa_hook_stream_init H s).2.2
      have := alsa_hook_get_put_streams _ h1 pcm s0 _ (hstr.trans hs) hget
        (show (alsa_hook_unlock_write (alsa_hook_stream_init H s).2.2).2.pcm.handle
            = pcm.handle by rw [up, hp]; exact hpcm)
      rw [← hok, this]
      exact ⟨rfl, by rw [uf, hfl]⟩
  · rw [if_neg hst] at hok
    simp only [Prod.mk.injEq, true_and] at hok
    obtain ⟨up, uf, -⟩ := alsa_hook_unlock_write_fields s
    have := alsa_hook_get_put_streams H h1 pcm s0 _ hs hget
      (show (alsa_hook_unlock_write s).2.pcm.handle = pcm.handle by rw [up]; exact hpcm)
    rw [← hok, this]
    exact ⟨rfl, by rw [uf]⟩

theorem alsa_hook_hw_params_done_flags (h1 H : alsa_hook_s) (pcm : snd_pcm_t)
    (s0 s : alsa_hook_stream_s) (hook : alsa_hook_s) (hs : H.streams = h1.streams)
    (hget : alsa_hook_get_stream h1 pcm = (h1, s0)) (hpcm : s.pcm.handle = pcm.handle)
    (hok : alsa_hook_hw_params_done H s = (0, hook)) :
    alsa_hook_get_stream hook pcm
      = (hook, (alsa_hook_get_stream hook pcm).2)
    ∧ (alsa_hook_get_stream hook pcm).2.flags = s.flags := by
  unfold alsa_hook_hw_params_done at hok
  exact alsa_hook_hw_params_done_core h1
    ⟨glc_log H.glc GLC_DEBUG "alsa_hook" "%p: %d channels, rate %d, flags 0x%02x", H.flags,
      H.to_buf, H.started, H.streams, H.audio_streams⟩
    pcm s0 { s with fmt := 1 } hook hs hget hpcm hok

theorem alsa_hook_hw_params_flags (h : alsa_hook_s) (pcm : snd_pcm_t)
    (params : snd_pcm_hw_params_t) (hook : alsa_hook_s)
    (hok : alsa_hook_hw_params h pcm params = some (0, hook)) :
    alsa_hook_get_stream hook pcm = (hook, (alsa_hook_get_stream hook pcm).2)
    ∧ (alsa_hook_get_stream hook pcm).2.flags = GLC_AUDIO_INTERLEAVED := by
  unfold alsa_hook_hw_params at hok
  have hidem := alsa_hook_get_stream_idem h pcm
  rcases hg : alsa_hook_get_stream h pcm with ⟨h1, s0⟩
  rw [hg] at hok hidem
  simp only at hok hidem
  have hh := alsa_hook_get_stream_handle h1 pcm s0 hidem
  cases hl : alsa_hook_lock_write s0 with
  | none => simp [hl] at hok
  | some r =>
    obtain ⟨r0, locked⟩ := r
    obtain ⟨hpcm, -, -, -⟩ := alsa_hook_lock_write_fields s0 locked r0 hl
    simp only [hl] at hok
    have hENOTSUP : ¬ ((ENOTSUP : Nat) : Int) = 0 := by decide
    have hp : locked.pcm.handle = pcm.handle := by rw [hpcm]; exact hh
    split_ifs at hok with c1 c2 c3 c4 c5 c6 c7 c8
    · simp only [alsa_hook_hw_params_err, Option.some.injEq, Prod.mk.injEq] at hok; omega
    · simp only [alsa_hook_hw_params_err, Option.some.injEq, Prod.mk.injEq] at hok
      exact absurd hok.1 hENOTSUP
    · simp only [alsa_hook_hw_params_err, Option.some.injEq, Prod.mk.injEq] at hok; omega
    · simp only [alsa_hook_hw_params_err, Option.some.injEq, Prod.mk.injEq] at hok; omega
    · simp only [alsa_hook_hw_params_err, Option.some.injEq, Prod.mk.injEq] at hok; omega
    · simp only [alsa_hook_hw_params_err, Option.some.injEq, Prod.mk.injEq] at hok; omega
    · have := alsa_hook_hw_params_done_flags h1 _ pcm s0 _ hook (by rfl) hidem
        (by exact hp) (Option.some.inj hok)
      refine ⟨this.1, ?_⟩
      rw [this.2]
      exact Nat.zero_or _
    · have := alsa_hook_hw_params_done_flags h1 _ pcm s0 _ hook (by rfl) hidem
        (by exact hp) (Option.some.inj hok)
      refine ⟨this.1, ?_⟩
      rw [this.2]
      exact Nat.zero_or _
    · simp only [alsa_hook_hw_params_err, Option.some.injEq, Prod.mk.injEq] at hok
      exact absurd hok.1 hENOTSUP
theorem alsa_hook_writen_einval (env : alsa_hook_env) (alsa_hook : alsa_hook_s)
    (pcm : snd_pcm_t) (bufs : List (List UInt8)) (size : Nat) (stream : alsa_hook_stream_s)
    (hcap : alsa_hook.flags &&& ALSA_HOOK_CAPTURING ≠ 0)
    (hget : alsa_hook_get_stream alsa_hook pcm = (alsa_hook, stream))
    (hflag : stream.flags &&& GLC_AUDIO_INTERLEAVED ≠ 0)
    (hfree : (alsa_hook_write_lock stream).held = false) :
    (alsa_hook_writen env alsa_hook pcm bufs size).map (fun r => r.1) = some EINVAL := by
  have hcap2 : ¬ alsa_hook.flags &&& ALSA_HOOK_CAPTURING = 0 := hcap
  unfold alsa_hook_writen
  rw [if_neg hcap2, hget]
  by_cases hinit : stream.initialized = 0
  · simp only [hinit, if_true, Option.map_some']
  · obtain ⟨locked, hlock, -, -, -, -, -, -, -, -, -, -, hf, -⟩ :=
      alsa_hook_released stream hfree
    have hf2 : ¬ locked.flags &&& GLC_AUDIO_INTERLEAVED = 0 := by rw [hf]; exact hflag
    simp only [hinit, if_false, hlock, ne_eq, hf2, not_false_eq_true, if_true,
      Option.map_some']

theorem alsa_hook_set_data_size_ok (env : alsa_hook_env) (stream : alsa_hook_stream_s)
    (size : Nat) (halloc : env.alloc_ok = true) :
    (alsa_hook_set_data_size env stream size).1 = 0
    ∧ (alsa_hook_set_data_size env stream size).2.capture_size = size
    ∧ (alsa_hook_set_data_size env stream size).2.capture_data_size
        = max stream.capture_data_size size
    ∧ (alsa_hook_set_data_size env stream size).2.pcm = stream.pcm
    ∧ (alsa_hook_set_data_size env stream size).2.flags = stream.flags
    ∧ (alsa_hook_set_data_size env stream size).2.mode = stream.mode
    ∧ (alsa_hook_set_data_size env stream size).2.capture_full = stream.capture_full
    ∧ (alsa_hook_set_data_size env stream size).2.capture_data
        = (if size ≤ stream.capture_data_size then stream.capture_data
           else stream.capture_data.take size
             ++ List.replicate (size - stream.capture_data.length) 0) := by
  unfold alsa_hook_set_data_size
  by_cases h : size ≤ stream.capture_data_size
  · simp [h]
  · simp [h, halloc]
    omega

theorem alsa_hook_wait_for_thread_ready (stream : alsa_hook_stream_s)
    (hready : if stream.mode &&& SND_PCM_ASYNC ≠ 0 then stream.capture_ready ≠ 0
      else stream.capture_empty > 0) :
    ∃ waited, (∀ H : alsa_hook_s, alsa_hook_wait_for_thread H stream = some (0, H.glc, waited))
      ∧ waited.pcm = stream.pcm ∧ waited.flags = stream.flags ∧ waited.mode = stream.mode
      ∧ waited.capture_full = stream.capture_full
      ∧ waited.capture_data = stream.capture_data
      ∧ waited.capture_data_size = stream.capture_data_size := by
  by_cases hm : stream.mode &&& SND_PCM_ASYNC ≠ 0
  · rw [if_pos hm] at hready
    refine ⟨stream, fun H => ?_, rfl, rfl, rfl, rfl, rfl, rfl⟩
    unfold alsa_hook_wait_for_thread
    rw [if_pos hm, if_pos hready]
  · rw [if_neg hm] at hready
    refine ⟨{ stream with capture_empty := stream.capture_empty - 1 }, fun H => ?_,
      rfl, rfl, rfl, rfl, rfl, rfl⟩
    unfold alsa_hook_wait_for_thread
    rw [if_neg hm, if_pos hready]

theorem alsa_hook_lock_write_more (s l : alsa_hook_stream_s) (r : Nat)
    (h : alsa_hook_lock_write s = some (r, l)) :
    l.channels = s.channels ∧ l.mmap_areas = s.mmap_areas ∧ l.capture_ready = s.capture_ready
    ∧ l.capture_empty = s.capture_empty ∧ l.capture_full = s.capture_full
    ∧ l.capture_data = s.capture_data ∧ l.capture_data_size = s.capture_data_size := by
  unfold alsa_hook_lock_write alsa_hook_lock at h
  by_cases hm : s.mode &&& SND_PCM_ASYNC ≠ 0
  · rw [if_pos hm] at h
    by_cases hh : s.write_spinlock.held = true
    · simp [hh] at h
    · simp only [hh, Bool.false_eq_true, if_false, Option.map_some', Option.some.injEq,
        Prod.mk.injEq] at h
      obtain ⟨-, rfl⟩ := h
      simp
  · rw [if_neg hm] at h
    by_cases hh : s.write_mutex.held = true
    · simp [hh] at h
    · simp only [hh, Bool.false_eq_true, if_false, Option.map_some', Option.some.injEq,
        Prod.mk.injEq] at h
      obtain ⟨-, rfl⟩ := h
      simp

theorem alsa_hook_mmap_commit_flat (env : alsa_hook_env) (alsa_hook : alsa_hook_s)
    (pcm : snd_pcm_t) (offset frames : Nat) (stream : alsa_hook_stream_s)
    (areas : List snd_pcm_channel_area_t)
    (hcap : alsa_hook.flags &&& ALSA_HOOK_CAPTURING ≠ 0)
    (hget : alsa_hook_get_stream alsa_hook pcm = (alsa_hook, stream))
    (hflag : stream.flags &&& GLC_AUDIO_INTERLEAVED ≠ 0)
    (hchan : stream.channels ≠ 0)
    (hareas : stream.mmap_areas = some areas)
    (hfree : (alsa_hook_write_lock stream).held = false)
    (hready : if stream.mode &&& SND_PCM_ASYNC ≠ 0 then stream.capture_ready ≠ 0
      else stream.capture_empty > 0)
    (halloc : env.alloc_ok = true) :
    ∃ hook, alsa_hook_mmap_commit env alsa_hook pcm offset frames = some (0, hook)
      ∧ alsa_hook_get_stream hook pcm = (hook, (alsa_hook_get_stream hook pcm).2)
      ∧ (alsa_hook_get_stream hook pcm).2.capture_data
        = alsa_hook_copy_area
            (alsa_hook_set_data_size env stream (snd_pcm_frames_to_bytes pcm frames)).2.capture_data
            0 (areas.getD 0 ⟨[], 0, 0⟩) offset (snd_pcm_frames_to_bytes pcm frames)
      ∧ (alsa_hook_get_stream hook pcm).2.capture_full = stream.capture_full + 1 := by
  have hh := alsa_hook_get_stream_handle alsa_hook pcm stream hget
  have hcap2 : ¬ alsa_hook.flags &&& ALSA_HOOK_CAPTURING = 0 := hcap
  obtain ⟨locked, hlock, -⟩ := alsa_hook_released stream hfree
  obtain ⟨lpcm, lmode, -, lflags⟩ := alsa_hook_lock_write_fields stream locked 0 hlock
  obtain ⟨lchan, lareas, lready, lempty, lfull, ldata, ldsize⟩ :=
    alsa_hook_lock_write_more stream locked 0 hlock
  have hready2 : if locked.mode &&& SND_PCM_ASYNC ≠ 0 then locked.capture_ready ≠ 0
      else locked.capture_empty > 0 := by rw [lmode, lready, lempty]; exact hready
  obtain ⟨waited, hwait, wpcm, wflags, wmode, wfull, wdata, wdsize⟩ :=
    alsa_hook_wait_for_thread_ready locked hready2
  obtain ⟨sret, ssize, -, spcm, sflags, smode, sfull, sdata⟩ :=
    alsa_hook_set_data_size_ok env waited (snd_pcm_frames_to_bytes pcm frames) halloc
  obtain ⟨-, -, -, -, -, -, -, sdata0⟩ :=
    alsa_hook_set_data_size_ok env stream (snd_pcm_frames_to_bytes pcm frames) halloc
  have hlc : ¬ locked.channels = 0 := by rw [lchan]; exact hchan
  have hla : locked.mmap_areas = some areas := by rw [lareas]; exact hareas
  have hsf : ¬ (alsa_hook_set_data_size env waited (snd_pcm_frames_to_bytes pcm frames)).2.flags
      &&& GLC_AUDIO_INTERLEAVED = 0 := by rw [sflags, wflags, lflags]; exact hflag
  have hsd : (alsa_hook_set_data_size env waited (snd_pcm_frames_to_bytes pcm frames)).2.capture_data
      = (alsa_hook_set_data_size env stream (snd_pcm_frames_to_bytes pcm frames)).2.capture_data := by
    rw [sdata, sdata0, wdata, wdsize, ldata, ldsize]
  obtain ⟨G, hG⟩ : ∃ G : glc_t, G = (if offset ≠ locked.offset then
      glc_log alsa_hook.glc GLC_WARNING "alsa_hook" "offset=%lu != stream->offset=%lu"
    else alsa_hook.glc) := ⟨_, rfl⟩
  obtain ⟨sized, hsz⟩ : ∃ sized, sized
      = (alsa_hook_set_data_size env waited (snd_pcm_frames_to_bytes pcm frames)).2 := ⟨_, rfl⟩
  obtain ⟨data, hdata⟩ : ∃ data, data = alsa_hook_copy_area sized.capture_data 0
      (areas.getD 0 ⟨[], 0, 0⟩) offset (snd_pcm_frames_to_bytes pcm frames) := ⟨_, rfl⟩
  rw [← hsz] at ssize spcm sflags smode sfull sdata hsf hsd
  obtain ⟨fin, hfin⟩ : ∃ fin : alsa_hook_stream_s, fin =
      { sized with
        capture_time := env.time, capture_data := data,
        capture_full := sized.capture_full + 1 } := ⟨_, rfl⟩
  have hres : alsa_hook_mmap_commit env alsa_hook pcm offset frames
      = some (0, alsa_hook_put_stream { alsa_hook with glc := G }
          (alsa_hook_unlock_write fin).2) := by
    subst hfin hG hdata
    unfold alsa_hook_mmap_commit
    rw [if_neg hcap2, hget]
    simp only [hlock, hlc, if_false, hla, hwait, ne_eq, not_true_eq_false]
    rcases hsz2 : alsa_hook_set_data_size env waited (snd_pcm_frames_to_bytes pcm frames)
      with ⟨ret, sized2⟩
    rw [hsz2] at sret hsz
    simp only at sret hsz
    subst hsz
    simp only [sret, not_true_eq_false, if_false, hsf, not_false_eq_true, if_true, ssize]
  refine ⟨_, hres, ?_⟩
  obtain ⟨up, -, -, ud, -, uf⟩ := alsa_hook_unlock_write_fields fin
  have hput := alsa_hook_get_put_streams { alsa_hook with glc := G } alsa_hook pcm stream _ rfl
    hget
    (show (alsa_hook_unlock_write fin).2.pcm.handle = pcm.handle by
      rw [up, hfin]; simp only; rw [spcm, wpcm, lpcm]; exact hh)
  rw [hput]
  refine ⟨rfl, ?_, ?_⟩
  · rw [ud, hfin]; simp only; rw [hdata, hsd]
  · rw [uf, hfin]; simp only; rw [sfull, wfull, lfull]

/-- C21 (failing input): on a stream that `alsa_hook_hw_params` configured with
MMAP_COMPLEX (it has `complex = 1`, and its flags are INTERLEAVED),
`alsa_hook_mmap_commit` of two frames fills the handoff buffer with the first
`capture_size = 8` bytes of the first area, one flat copy: no sample of the
second channel, whose area holds the bytes 20..27, reaches the buffer, and the
result is not what `alsa_hook_complex_to_interleaved` gives. -/
theorem alsa_hook_mmap_commit_complex_flat :
    (example_alsa_stream example_alsa_hook_begun).complex = 1
    ∧ (example_alsa_stream example_alsa_hook_begun).flags = GLC_AUDIO_INTERLEAVED
    ∧ (example_alsa_stream example_alsa_hook_begun).mmap_areas = some example_areas
    ∧ (alsa_hook_mmap_commit example_alsa_env example_alsa_hook_begun example_pcm 0 2).map
        (fun r => (r.1, (example_alsa_stream r.2).capture_data))
      = some (0, [10, 11, 12, 13, 14, 15, 16, 17])
    ∧ alsa_hook_copy_area (List.replicate 8 0) 0 (example_areas.getD 0 ⟨[], 0, 0⟩) 0 8
      = [10, 11, 12, 13, 14, 15, 16, 17]
    ∧ alsa_hook_complex_to_interleaved (example_alsa_stream example_alsa_hook_begun)
        example_areas 0 2 (List.replicate 8 0) ≠ [10, 11, 12, 13, 14, 15, 16, 17] := by
  decide

/-- C25 (failing input): while capturing is active, on a PCM handle whose stream
is not initialised, `alsa_hook_writei`, `alsa_hook_writen` and
`alsa_hook_mmap_begin` return EINVAL after one call of `alsa_hook_unlock_write`
and no call of `alsa_hook_lock_write`: the write mutex has counted no lock and
one unlock. -/
theorem alsa_hook_unlock_without_lock :
    (alsa_hook_get_stream (example_alsa_hook 0 0 example_hw_params) example_pcm_other).2.initialized
      = 0
    ∧ (example_alsa_hook 0 0 example_hw_params).flags &&& ALSA_HOOK_CAPTURING ≠ 0
    ∧ (alsa_hook_writei example_alsa_env (example_alsa_hook 0 0 example_hw_params)
        example_pcm_other [1, 2, 3, 4] 1).map
          (fun r => (r.1, (alsa_hook_get_stream r.2 example_pcm_other).2.write_mutex))
      = some (EINVAL, ⟨false, 0, 1⟩)
    ∧ (alsa_hook_writen example_alsa_env (example_alsa_hook 0 0 example_hw_params)
        example_pcm_other [[1, 2], [3, 4]] 1).map
          (fun r => (r.1, (alsa_hook_get_stream r.2 example_pcm_other).2.write_mutex))
      = some (EINVAL, ⟨false, 0, 1⟩)
    ∧ (alsa_hook_mmap_begin (example_alsa_hook 0 0 example_hw_params) example_pcm_other
        (some example_areas) 0 2).map
          (fun r => (r.1, (alsa_hook_get_stream r.2 example_pcm_other).2.write_mutex))
      = some (EINVAL, ⟨false, 0, 1⟩) := by
  decide

theorem alsa_hook_set_data_size_fold (time : Nat) (sizes : List Nat)
    (stream : alsa_hook_stream_s) :
    (sizes.foldl (fun s n => (alsa_hook_set_data_size ⟨time, true⟩ s n).2)
        stream).capture_data_size
      = sizes.foldl max stream.capture_data_size := by
  induction sizes generalizing stream with
  | nil => rfl
  | cons n ns ih =>
    rw [List.foldl_cons, List.foldl_cons, ih]
    rw [(alsa_hook_set_data_size_ok ⟨time, true⟩ stream n rfl).2.2.1]

/-- C26: with allocation succeeding, every call of `alsa_hook_set_data_size`
returns 0, sets `capture_size` to the requested size, leaves
`capture_size <= capture_data_size` and does not lower `capture_data_size`;
after a sequence of calls `capture_data_size` is the maximum of its initial
value and the sizes requested, which for a new stream record (initial value 0)
is the maximum size requested so far. -/
theorem alsa_hook_set_data_size_monotone (time : Nat) (stream : alsa_hook_stream_s)
    (pcm : snd_pcm_t) (size : Nat) (sizes : List Nat) :
    (alsa_hook_set_data_size ⟨time, true⟩ stream size).1 = 0
    ∧ (alsa_hook_set_data_size ⟨time, true⟩ stream size).2.capture_size = size
    ∧ (alsa_hook_set_data_size ⟨time, true⟩ stream size).2.capture_size
        ≤ (alsa_hook_set_data_size ⟨time, true⟩ stream size).2.capture_data_size
    ∧ stream.capture_data_size
        ≤ (alsa_hook_set_data_size ⟨time, true⟩ stream size).2.capture_data_size
    ∧ (sizes.foldl (fun s n => (alsa_hook_set_data_size ⟨time, true⟩ s n).2)
        stream).capture_data_size = sizes.foldl max stream.capture_data_size
    ∧ (sizes.foldl (fun s n => (alsa_hook_set_data_size ⟨time, true⟩ s n).2)
        (alsa_hook_stream_new pcm)).capture_data_size = sizes.foldl max 0 := by
  obtain ⟨h1, h2, h3, -⟩ := alsa_hook_set_data_size_ok ⟨time, true⟩ stream size rfl
  refine ⟨h1, h2, ?_, ?_, alsa_hook_set_data_size_fold time sizes stream,
    alsa_hook_set_data_size_fold time sizes (alsa_hook_stream_new pcm)⟩
  · rw [h2, h3]; exact le_max_right _ _
  · rw [h3]; exact le_max_left _ _

theorem alsa_hook_complex_writes_mem (stream : alsa_hook_stream_s) (frames off c s : Nat) :
    (off, c, s) ∈ alsa_hook_complex_writes stream frames
      ↔ c < stream.channels ∧ s < frames
        ∧ off = (c + s) * snd_pcm_frames_to_bytes stream.pcm 1 := by
  unfold alsa_hook_complex_writes
  simp only [List.mem_flatMap, List.mem_range, List.mem_map, Prod.mk.injEq]
  constructor
  · rintro ⟨c1, hc, s1, hs, rfl, rfl, rfl⟩
    exact ⟨hc, hs, by ring⟩
  · rintro ⟨hc, hs, rfl⟩
    exact ⟨c, hc, s, hs, by ring, rfl, rfl⟩

/-- C27 (failing input): `alsa_hook_complex_to_interleaved` copies the sample of
channel `c` at frame `s` to the byte offset `(c + s) * add`, where `add` is the
size of a frame, not to `(s * C + c) * b`. With two channels, two frames and
samples of one byte (`add = 2`, a buffer of four bytes) the sample of channel 1
at frame 0 goes to offset 2, where the sample of channel 0 at frame 1 was
stored, and the sample of channel 1 at frame 1 goes to offset 4, which is
outside the buffer; the offsets 1 and 3 are never written. -/
theorem alsa_hook_complex_to_interleaved_offsets :
    (∀ (stream : alsa_hook_stream_s) (frames off c s : Nat),
      (off, c, s) ∈ alsa_hook_complex_writes stream frames
        ↔ c < stream.channels ∧ s < frames
          ∧ off = (c + s) * snd_pcm_frames_to_bytes stream.pcm 1)
    ∧ alsa_hook_complex_writes example_alsa_stream_small 2
        = [(0, 0, 0), (2, 0, 1), (2, 1, 0), (4, 1, 1)]
    ∧ alsa_hook_complex_to_interleaved example_alsa_stream_small
        [⟨[10, 11], 0, 8⟩, ⟨[20, 21], 0, 8⟩] 0 2 [0, 0, 0, 0] = [10, 0, 20, 0, 21] :=
  ⟨alsa_hook_complex_writes_mem, by decide, by decide⟩

/-- C29: whenever `alsa_hook_hw_params` succeeds, the flags of the stream record
contain INTERLEAVED. On every later state of the hook in which the record has
these flags, capturing is active and the write lock is free,
`alsa_hook_writen` returns EINVAL, and an `alsa_hook_mmap_commit` that finds
channels, recorded areas, a ready capture thread and memory fills the handoff
buffer through the interleaved branch: one copy of `capture_size` bytes from
the position in the first area. -/
theorem alsa_hook_hw_params_interleaved (env : alsa_hook_env) (alsa_hook : alsa_hook_s)
    (pcm : snd_pcm_t) (params : snd_pcm_hw_params_t) (hook : alsa_hook_s)
    (bufs : List (List UInt8)) (size offset frames : Nat)
    (hok : alsa_hook_hw_params alsa_hook pcm params = some (0, hook)) :
    alsa_hook_get_stream hook pcm = (hook, (alsa_hook_get_stream hook pcm).2)
    ∧ (alsa_hook_get_stream hook pcm).2.flags &&& GLC_AUDIO_INTERLEAVED ≠ 0
    ∧ ∀ (later : alsa_hook_s) (stream : alsa_hook_stream_s),
        alsa_hook_get_stream later pcm = (later, stream) →
        stream.flags = (alsa_hook_get_stream hook pcm).2.flags →
        later.flags &&& ALSA_HOOK_CAPTURING ≠ 0 →
        (alsa_hook_write_lock stream).held = false →
        (alsa_hook_writen env later pcm bufs size).map (fun r => r.1) = some EINVAL
        ∧ ∀ areas : List snd_pcm_channel_area_t,
            stream.channels ≠ 0 → stream.mmap_areas = some areas →
            (if stream.mode &&& SND_PCM_ASYNC ≠ 0 then stream.capture_ready ≠ 0
              else stream.capture_empty > 0) →
            env.alloc_ok = true →
            ∃ hook2, alsa_hook_mmap_commit env later pcm offset frames = some (0, hook2)
              ∧ (alsa_hook_get_stream hook2 pcm).2.capture_data
                = alsa_hook_copy_area
                    (alsa_hook_set_data_size env stream
                      (snd_pcm_frames_to_bytes pcm frames)).2.capture_data
                    0 (areas.getD 0 ⟨[], 0, 0⟩) offset (snd_pcm_frames_to_bytes pcm frames) := by
  obtain ⟨hget, hflags⟩ := alsa_hook_hw_params_flags alsa_hook pcm params hook hok
  have hne : (alsa_hook_get_stream hook pcm).2.flags &&& GLC_AUDIO_INTERLEAVED ≠ 0 := by
    rw [hflags]; decide
  refine ⟨hget, hne, ?_⟩
  intro later stream hlater hsame hcap hfree
  have hflag : stream.flags &&& GLC_AUDIO_INTERLEAVED ≠ 0 := by rw [hsame]; exact hne
  refine ⟨alsa_hook_writen_einval env later pcm bufs size stream hcap hlater hflag hfree, ?_⟩
  intro areas hchan hareas hready halloc
  obtain ⟨hook2, h1, -, h3, -⟩ := alsa_hook_mmap_commit_flat env later pcm offset frames stream
    areas hcap hlater hflag hchan hareas hfree hready halloc
  exact ⟨hook2, h1, h3⟩

theorem alsa_hook_hw_params_interleaved_witness :
    (alsa_hook_get_stream example_alsa_hook_configured example_pcm).2.flags
      &&& GLC_AUDIO_INTERLEAVED ≠ 0 :=
  (alsa_hook_hw_params_interleaved example_alsa_env example_alsa_hook_opened example_pcm
    example_hw_params example_alsa_hook_configured [] 0 0 0 (by decide)).2.1

theorem clear_flags_and_of_subset (x m b : Nat) (hb : b &&& m = b) (h32 : b < 2 ^ 32) :
    clear_flags x m &&& b = 0 := by
  have hmask : (0xffffffff : Nat) = 2 ^ 32 - 1 := by norm_num
  apply Nat.eq_of_testBit_eq
  intro i
  unfold clear_flags
  rw [Nat.testBit_and, Nat.testBit_and, Nat.testBit_xor, hmask, Nat.testBit_two_pow_sub_one,
    Nat.zero_testBit]
  by_cases hbi : b.testBit i = true
  · have hmi : m.testBit i = true := by
      have := congrArg (fun n => n.testBit i) hb
      simp only [Nat.testBit_and, hbi, Bool.true_and] at this
      exact this
    have hi : i < 32 := by
      by_contra hge
      have : b.testBit i = false :=
        Nat.testBit_lt_two_pow (lt_of_lt_of_le h32
          (Nat.pow_le_pow_right (by norm_num) (by omega)))
      rw [this] at hbi
      exact absurd hbi (by decide)
    simp [hmi, hi]
  · simp [hbi]

theorem clear_flags_and_of_disjoint (x m b : Nat) (hb : b &&& m = 0) (h32 : b < 2 ^ 32) :
    clear_flags x m &&& b = x &&& b := by
  have hmask : (0xffffffff : Nat) = 2 ^ 32 - 1 := by norm_num
  apply Nat.eq_of_testBit_eq
  intro i
  unfold clear_flags
  rw [Nat.testBit_and, Nat.testBit_and, Nat.testBit_xor, hmask, Nat.testBit_two_pow_sub_one,
    Nat.testBit_and]
  by_cases hbi : b.testBit i = true
  · have hmi : m.testBit i = false := by
      have := congrArg (fun n => n.testBit i) hb
      simp only [Nat.testBit_and, hbi, Bool.true_and, Nat.zero_testBit] at this
      exact this
    have hi : i < 32 := by
      by_contra hge
      have : b.testBit i = false :=
        Nat.testBit_lt_two_pow (lt_of_lt_of_le h32
          (Nat.pow_le_pow_right (by norm_num) (by omega)))
      rw [this] at hbi
      exact absurd hbi (by decide)
    simp [hmi, hi, hbi]
  · simp [hbi]

/-- C22 (failing input): on a sink without a target (`fd = -1`), called with
descriptor 3 of a file that holds three bytes with the file offset at 2,
`file_set_target` returns 0, stores the descriptor and sets FILE_WRITING, and
the file is locked; but its three bytes are still there and its offset is
still 2, because `lseek` and `ftruncate` are called on `file->fd`, which is
negative at that point, before `fd` is stored. -/
theorem file_set_target_not_truncated :
    (file_init ⟨[], false⟩).fd = -1
    ∧ os_lookup example_os 3 = some ⟨[1, 2, 3], 2, false, false⟩
    ∧ (file_set_target (file_init ⟨[], false⟩) 3 example_os).1 = 0
    ∧ (file_set_target (file_init ⟨[], false⟩) 3 example_os).2.1.fd = 3
    ∧ (file_set_target (file_init ⟨[], false⟩) 3 example_os).2.1.flags = FILE_WRITING
    ∧ os_lookup (file_set_target (file_init ⟨[], false⟩) 3 example_os).2.2 3
        = some ⟨[1, 2, 3], 2, true, false⟩
    ∧ os_lookup (os_ftruncate (os_lseek_set example_os 3 0) 3 0) 3
        = some ⟨[], 0, false, false⟩ := by
  decide

theorem flags_or_running (x : Nat) :
    (x ||| FILE_RUNNING) &&& FILE_RUNNING = FILE_RUNNING
    ∧ (x ||| FILE_RUNNING) &&& FILE_WRITING = x &&& FILE_WRITING
    ∧ (x ||| FILE_RUNNING) &&& FILE_INFO_WRITTEN = x &&& FILE_INFO_WRITTEN := by
  refine ⟨?_, ?_, ?_⟩
  · simpa [FILE_RUNNING] using or_and_two_pow_self x 2
  · simpa [FILE_RUNNING, FILE_WRITING] using or_and_two_pow_of_ne x 2 1 (by decide)
  · simpa [FILE_RUNNING, FILE_INFO_WRITTEN] using or_and_two_pow_of_ne x 2 3 (by decide)

theorem flags_or_info_written (x : Nat) :
    (x ||| FILE_INFO_WRITTEN) &&& FILE_INFO_WRITTEN = FILE_INFO_WRITTEN
    ∧ (x ||| FILE_INFO_WRITTEN) &&& FILE_WRITING = x &&& FILE_WRITING
    ∧ (x ||| FILE_INFO_WRITTEN) &&& FILE_RUNNING = x &&& FILE_RUNNING := by
  refine ⟨?_, ?_, ?_⟩
  · simpa [FILE_INFO_WRITTEN] using or_and_two_pow_self x 3
  · simpa [FILE_INFO_WRITTEN, FILE_WRITING] using or_and_two_pow_of_ne x 3 1 (by decide)
  · simpa [FILE_INFO_WRITTEN, FILE_RUNNING] using or_and_two_pow_of_ne x 3 2 (by decide)

theorem flags_clear_wait (x : Nat) :
    clear_flags x (FILE_RUNNING ||| FILE_INFO_WRITTEN) &&& FILE_RUNNING = 0
    ∧ clear_flags x (FILE_RUNNING ||| FILE_INFO_WRITTEN) &&& FILE_INFO_WRITTEN = 0
    ∧ clear_flags x (FILE_RUNNING ||| FILE_INFO_WRITTEN) &&& FILE_WRITING = x &&& FILE_WRITING :=
  ⟨clear_flags_and_of_subset x _ _ (by decide) (by decide),
   clear_flags_and_of_subset x _ _ (by decide) (by decide),
   clear_flags_and_of_disjoint x _ _ (by decide) (by decide)⟩

theorem flags_clear_close (x : Nat) :
    clear_flags x (FILE_RUNNING ||| FILE_WRITING ||| FILE_INFO_WRITTEN) &&& FILE_RUNNING = 0
    ∧ clear_flags x (FILE_RUNNING ||| FILE_WRITING ||| FILE_INFO_WRITTEN) &&& FILE_INFO_WRITTEN
        = 0
    ∧ clear_flags x (FILE_RUNNING ||| FILE_WRITING ||| FILE_INFO_WRITTEN) &&& FILE_WRITING = 0 :=
  ⟨clear_flags_and_of_subset x _ _ (by decide) (by decide),
   clear_flags_and_of_subset x _ _ (by decide) (by decide),
   clear_flags_and_of_subset x _ _ (by decide) (by decide)⟩

theorem file_write_process_start_not (file : file_s) (ret : Nat)
    (h : ¬ file_sink_info_written file) :
    file_write_process_start file ret = (EAGAIN, file) := by
  unfold file_write_process_start
  unfold file_sink_info_written at h
  rw [if_pos]
  by_contra hc
  simp only [not_or, not_lt, ne_eq, not_not] at hc
  exact h ⟨hc.1, hc.2.2.1, hc.2.2.2, hc.2.1⟩

theorem file_write_process_start_ok (file : file_s) (ret : Nat)
    (h : file_sink_info_written file) :
    file_write_process_start file ret
      = if ret ≠ 0 then (ret, file)
        else (0, { file with flags := file.flags ||| FILE_RUNNING }) := by
  unfold file_write_process_start
  obtain ⟨h1, h2, h3, h4⟩ := h
  rw [if_neg]
  simp only [not_or, not_lt, ne_eq, not_not]
  exact ⟨h1, h4, h2, h3⟩

theorem file_write_process_wait_not (file : file_s) (h : ¬ file_sink_running file) :
    file_write_process_wait file = (EAGAIN, file) := by
  unfold file_write_process_wait
  unfold file_sink_running at h
  rw [if_pos]
  by_contra hc
  simp only [not_or, not_lt] at hc
  exact h ⟨hc.1, hc.2.2.1, hc.2.2.2, hc.2.1⟩

theorem file_write_process_wait_ok (file : file_s) (h : file_sink_running file) :
    file_write_process_wait file
      = (0, { file with
          flags := clear_flags file.flags (FILE_RUNNING ||| FILE_INFO_WRITTEN) }) := by
  unfold file_write_process_wait
  obtain ⟨h1, h2, h3, h4⟩ := h
  rw [if_neg]
  simp only [not_or, not_lt]
  exact ⟨h1, h4, h2, h3⟩

theorem file_write_info_ok (file : file_s) (info : glc_stream_info_t)
    (info_name info_date : List UInt8) (h : file_sink_target_open file) :
    (file_write_info file info info_name info_date).1 = 0
    ∧ (file_write_info file info info_name info_date).2.fd = file.fd
    ∧ (file_write_info file info info_name info_date).2.flags
        = file.flags ||| FILE_INFO_WRITTEN := by
  unfold file_write_info
  obtain ⟨h1, h2, h3, h4⟩ := h
  rw [if_neg]
  · simp [os_write]
  · simp only [not_or, not_lt, ne_eq, not_not]
    exact ⟨h1, h4, h2⟩

theorem file_close_target_ok (file : file_s) (os : os_table) (h1 : 0 ≤ file.fd)
    (h2 : file.flags &&& FILE_WRITING ≠ 0) (h4 : file.flags &&& FILE_RUNNING = 0) :
    (file_close_target file os).1 = 0
    ∧ (file_close_target file os).2.1.fd = -1
    ∧ (file_close_target file os).2.1.flags
        = clear_flags file.flags (FILE_RUNNING ||| FILE_WRITING ||| FILE_INFO_WRITTEN) := by
  unfold file_close_target
  rw [if_neg]
  · exact ⟨rfl, rfl, rfl⟩
  · simp only [not_or, not_lt, ne_eq, not_not]
    exact ⟨h1, h4, h2⟩

/-- C24: on the states of the sink, read off `fd` and the flags:
`file_write_process_start` returns 0 only in InfoWritten (and only if the
thread creation returns 0) and then leads to Running with the same `fd`; in
every other state it returns EAGAIN and leaves the sink as it was.
`file_write_process_wait` returns 0 only in Running and then leads to
TargetOpen with the same `fd`, where a new start returns EAGAIN and
`file_write_info` leads to InfoWritten again; in every other state it returns
EAGAIN and leaves the sink as it was. `file_close_target` returns EAGAIN in
Running and leaves the sink as it was; in TargetOpen and InfoWritten it returns
0 and leads to Idle (`fd = -1`, WRITING, RUNNING and INFO_WRITTEN clear); in
Idle it returns EAGAIN and the sink stays Idle. -/
theorem file_sink_state_machine (file : file_s) (os : os_table) (ret : Nat)
    (info : glc_stream_info_t) (info_name info_date : List UInt8) :
    ((file_write_process_start file ret).1 = 0 → file_sink_info_written file ∧ ret = 0)
    ∧ (¬ file_sink_info_written file → file_write_process_start file ret = (EAGAIN, file))
    ∧ (file_sink_info_written file →
        (file_write_process_start file 0).1 = 0
        ∧ file_sink_running (file_write_process_start file 0).2
        ∧ (file_write_process_start file 0).2.fd = file.fd)
    ∧ ((file_write_process_wait file).1 = 0 → file_sink_running file)
    ∧ (¬ file_sink_running file → file_write_process_wait file = (EAGAIN, file))
    ∧ (file_sink_running file →
        (file_write_process_wait file).1 = 0
        ∧ file_sink_target_open (file_write_process_wait file).2
        ∧ (file_write_process_wait file).2.fd = file.fd
        ∧ file_write_process_start (file_write_process_wait file).2 ret
            = (EAGAIN, (file_write_process_wait file).2)
        ∧ (file_write_info (file_write_process_wait file).2 info info_name info_date).1 = 0
        ∧ file_sink_info_written
            (file_write_info (file_write_process_wait file).2 info info_name info_date).2)
    ∧ (file_sink_running file → file_close_target file os = (EAGAIN, file, os))
    ∧ (file_sink_target_open file ∨ file_sink_info_written file →
        (file_close_target file os).1 = 0 ∧ file_sink_idle (file_close_target file os).2.1)
    ∧ (file_sink_idle file → file_close_target file os = (EAGAIN, file, os)) := by
  have hne : ¬ EAGAIN = 0 := by decide
  refine ⟨?_, file_write_process_start_not file ret, ?_, ?_, file_write_process_wait_not file,
    ?_, ?_, ?_, ?_⟩
  · intro h
    by_cases hs : file_sink_info_written file
    · rw [file_write_process_start_ok file ret hs] at h
      by_cases hr : ret = 0
      · exact ⟨hs, hr⟩
      · rw [if_pos hr] at h; exact absurd h hr
    · rw [file_write_process_start_not file ret hs] at h; exact absurd h hne
  · intro hs
    rw [file_write_process_start_ok file 0 hs]
    obtain ⟨h1, h2, h3, h4⟩ := hs
    obtain ⟨r1, r2, r3⟩ := flags_or_running file.flags
    refine ⟨rfl, ⟨h1, ?_, ?_, ?_⟩, rfl⟩
    · show (file.flags ||| FILE_RUNNING) &&& FILE_WRITING ≠ 0
      rw [r2]; exact h2
    · show (file.flags ||| FILE_RUNNING) &&& FILE_INFO_WRITTEN ≠ 0
      rw [r3]; exact h3
    · show (file.flags ||| FILE_RUNNING) &&& FILE_RUNNING ≠ 0
      rw [r1]; decide
  · intro h
    by_contra hs
    rw [file_write_process_wait_not file hs] at h
    exact absurd h hne
  · intro hs
    obtain ⟨c1, c2, c3⟩ := flags_clear_wait file.flags
    have hto : file_sink_target_open (file_write_process_wait file).2 := by
      rw [file_write_process_wait_ok file hs]
      obtain ⟨h1, h2, h3, h4⟩ := hs
      refine ⟨h1, ?_, c2, c1⟩
      show clear_flags file.flags (FILE_RUNNING ||| FILE_INFO_WRITTEN) &&& FILE_WRITING ≠ 0
      rw [c3]; exact h2
    have hni : ¬ file_sink_info_written (file_write_process_wait file).2 :=
      fun hi => hi.2.2.1 hto.2.2.1
    obtain ⟨w1, w2, w3⟩ := file_write_info_ok (file_write_process_wait file).2 info info_name
      info_date hto
    obtain ⟨i1, i2, i3⟩ := flags_or_info_written (file_write_process_wait file).2.flags
    refine ⟨by rw [file_write_process_wait_ok file hs], hto,
      by rw [file_write_process_wait_ok file hs],
      file_write_process_start_not _ ret hni, w1, ?_⟩
    refine ⟨by rw [w2]; exact hto.1, ?_, ?_, ?_⟩
    · rw [w3, i2]; exact hto.2.1
    · rw [w3, i1]; decide
    · rw [w3, i3]; exact hto.2.2.2
  · intro hs
    unfold file_close_target
    rw [if_pos (Or.inr (Or.inl hs.2.2.2))]
  · intro hs
    have h1 : 0 ≤ file.fd := by rcases hs with h | h <;> exact h.1
    have h2 : file.flags &&& FILE_WRITING ≠ 0 := by rcases hs with h | h <;> exact h.2.1
    have h4 : file.flags &&& FILE_RUNNING = 0 := by rcases hs with h | h <;> exact h.2.2.2
    obtain ⟨k1, k2, k3⟩ := file_close_target_ok file os h1 h2 h4
    obtain ⟨c1, c2, c3⟩ := flags_clear_close file.flags
    exact ⟨k1, k2, by rw [k3]; exact c3, by rw [k3]; exact c2, by rw [k3]; exact c1⟩
  · intro hs
    unfold file_close_target
    rw [if_pos (Or.inl (by rw [hs.1]; decide))]

theorem file_sink_state_machine_witness :
    file_sink_running
      (file_write_process_start
        (file_write_info (file_set_target (file_init ⟨[], false⟩) 3 example_os).2.1
          example_info [] []).2 0).2 :=
  ((file_sink_state_machine
    (file_write_info (file_set_target (file_init ⟨[], false⟩) 3 example_os).2.1
      example_info [] []).2 example_os 0 example_info [] []).2.2.1
    ⟨by decide, by decide, by decide, by decide⟩).2.1

/-- C28 (failing input): with a keysym table that knows F8, `x11_parse_key`
gives both bits and the key F8 for "<Shift><Ctrl>F8" and rejects "<Alt>F8",
but it accepts "<C>F8", "<>F8" and ">F8" with the CTRL bit and "<S>F8" with
the SHIFT bit, because `strncmp` compares only the `c - s` characters before
the closing bracket, so every beginning of "<Ctrl" or "<Shift", the empty one
included, counts as the token. It also accepts "abc<Ctrl>F8", which does not
start with a modifier token: the characters before the opening bracket are
skipped. -/
theorem x11_parse_key_prefix_tokens :
    x11_parse_key example_keysym "<Shift><Ctrl>F8".toList
      = (0, XK_F8, X11_KEY_CTRL ||| X11_KEY_SHIFT)
    ∧ (x11_parse_key example_keysym "<Alt>F8".toList).1 = EINVAL
    ∧ x11_parse_key example_keysym "<C>F8".toList = (0, XK_F8, X11_KEY_CTRL)
    ∧ x11_parse_key example_keysym "<>F8".toList = (0, XK_F8, X11_KEY_CTRL)
    ∧ x11_parse_key example_keysym ">F8".toList = (0, XK_F8, X11_KEY_CTRL)
    ∧ x11_parse_key example_keysym "<S>F8".toList = (0, XK_F8, X11_KEY_SHIFT)
    ∧ x11_parse_key example_keysym "abc<Ctrl>F8".toList = (0, XK_F8, X11_KEY_CTRL) := by
  decide

/-- C30: for a VIDEO_FRAME or AUDIO_DATA message above the threshold and a
selected codec whose compressed length stays within its worst case (sizes
below 2^64), the compressor stage publishes a CONTAINER packet whose payload
has `9 + 9 + worst_case(n)` bytes and whose `size` field holds the compressed
length plus 9; so `9 + size` is at most the size of the payload, and the sink
writes exactly the first `9 + size` bytes of the payload, leaving out the
tail. -/
theorem pack_container_within_payload (build : pack_build) (codecs : pack_codecs)
    (pack : pack_s) (which : pack_write_callback_t) (arena : Nat → UInt8)
    (callback : Option callback_request_func_t) (sink : file_s) (m : glc_message)
    (hsel : pack_selected build pack which)
    (hsize : m.data.length > pack.compress_min)
    (htype : m.header = GLC_MESSAGE_VIDEO_FRAME ∨ m.header = GLC_MESSAGE_AUDIO_DATA)
    (hworst : (codec_compress codecs which m.data).length
      ≤ codec_worstcase codecs which m.data.length)
    (hn : m.data.length < 2 ^ 64)
    (hfit : 18 + codec_worstcase codecs which m.data.length < 2 ^ 64) :
    ∃ payload,
      glc_thread_stage (pack_thread build codecs pack) arena m.header m.data
        = (0, some (GLC_MESSAGE_CONTAINER :: payload))
      ∧ payload.length = 9 + 9 + codec_worstcase codecs which m.data.length
      ∧ load_le payload 0 8 = (codec_compress codecs which m.data).length + 9
      ∧ 9 + load_le payload 0 8 ≤ payload.length
      ∧ (file_read_callback callback sink
          (file_thread_state ⟨GLC_MESSAGE_CONTAINER, payload⟩)).1 = 0
      ∧ (file_read_callback callback sink
          (file_thread_state ⟨GLC_MESSAGE_CONTAINER, payload⟩)).2.fd_out
        = sink.fd_out ++ payload.take (9 + load_le payload 0 8) := by
  have hc : (codec_compress codecs which m.data).length + 9 < 2 ^ 64 := by omega
  have hx : (codec_message codecs which m).data.length + 9 < 2 ^ 64 := by
    rw [codec_message_length]; omega
  have hfl : (frame_v4 (codec_message codecs which m)).length
      = 18 + (codec_compress codecs which m.data).length := by
    rw [codec_message_frame]
    simp [le_bytes_length]
    omega
  have hload : load_le (frame_v4 (codec_message codecs which m)
      ++ (dma_area arena (18 + codec_worstcase codecs which m.data.length)).drop
          (18 + (codec_compress codecs which m.data).length)) 0 8
      = (codec_compress codecs which m.data).length + 9 := by
    rw [codec_message_frame]
    simp only [List.append_assoc]
    exact load_le_le_bytes_8 _ _ hc
  obtain ⟨r1, r2⟩ := file_read_callback_container callback sink (codec_message codecs which m)
    ((dma_area arena (18 + codec_worstcase codecs which m.data.length)).drop
      (18 + (codec_compress codecs which m.data).length)) hx
  refine ⟨_, pack_stage_compress build codecs pack which arena m hsel hsize htype hworst hn hfit,
    ?_, hload, ?_, r1, ?_⟩
  · rw [List.length_append, hfl, List.length_drop, dma_area_length]
    omega
  · rw [hload, List.length_append, hfl, List.length_drop, dma_area_length]
    omega
  · have e : (frame_v4 (codec_message codecs which m)).length
        = 9 + load_le (frame_v4 (codec_message codecs which m)
          ++ (dma_area arena (18 + codec_worstcase codecs which m.data.length)).drop
              (18 + (codec_compress codecs which m.data).length)) 0 8 := by
      rw [hload, hfl]
      omega
    exact r2.trans (congrArg (fun l => sink.fd_out ++ l) (List.take_left' e).symm)

theorem pack_container_within_payload_witness :
    ∃ payload,
      glc_thread_stage (pack_thread example_build example_codecs example_pack) (fun _ => 0)
          example_video.header example_video.data
        = (0, some (GLC_MESSAGE_CONTAINER :: payload))
      ∧ 9 + load_le payload 0 8 ≤ payload.length := by
  obtain ⟨p, h1, -, -, h4, -⟩ := pack_container_within_payload example_build example_codecs
    example_pack .quicklz (fun _ => 0) none example_sink example_video
    (by decide) (by decide) (by decide) (by decide) (by decide) (by decide)
  exact ⟨p, h1, h4⟩

end Glc
